import Mathlib

/-!
Bokeh depth-of-field sample (`bokeh.cpp`): uniforms, render targets, frame orchestration.

Shallow embedding of `ExampleBokeh` and its helpers.

* C++ `float` is modelled by `F32`: IEEE-754 binary32 with round-to-nearest-even, finite
  values carried as exact rationals, together with the signed zero, the infinities and NaN.
  Every `float` operation of the source rounds its result to binary32.
* `uint16_t`, `uint32_t` and `int32_t` values are naturals / integers with the conversions
  written out (`toU16`, `toU32`, `toI32`).
* Calls into bgfx / bx / ImGui / the camera are inputs of a frame (`FrameInput`, `Env`);
  the views configured and submitted by a frame are recorded as a list of `Pass`.
-/

/-! ## binary32 arithmetic -/

/-- Largest `k` with `2 ^ k ≤ q`, for positive `q`. -/
def floorLog2 (q : ℚ) : ℤ :=
  let k : ℤ := (Nat.log2 q.num.natAbs : ℤ) - (Nat.log2 q.den : ℤ)
  if (2 : ℚ) ^ k ≤ q then k else k - 1

/-- Nearest integer, ties to the even one. -/
def roundNearestEven (x : ℚ) : ℤ :=
  let f := ⌊x⌋
  let d := x - f
  if d < 1 / 2 then f else if 1 / 2 < d then f + 1 else if f % 2 = 0 then f else f + 1

/-- Exponent of the unit in the last place of binary32 at magnitude `q`
(24-bit significand, smallest normal exponent `-126`). -/
def ulpExp (q : ℚ) : ℤ := max (floorLog2 q) (-126) - 23

/-- Magnitude `q ≥ 0` rounded to the binary32 grid (exponent range unbounded above). -/
def roundMag (q : ℚ) : ℚ := (roundNearestEven (q / 2 ^ ulpExp q) : ℚ) * 2 ^ ulpExp q

/-- A value of the C++ type `float`. -/
inductive F32 where
  | fin (v : ℚ)
  | negZero
  | inf (neg : Bool)
  | nan
  deriving DecidableEq

namespace F32

def zero : F32 := fin 0
def one : F32 := fin 1
def two : F32 := fin 2
def half : F32 := fin (1 / 2)

/-- The sign bit. -/
def signBit : F32 → Bool
  | fin v => decide (v < 0)
  | negZero => true
  | inf s => s
  | nan => false

/-- Value of a finite float (`0` for the other cases, which callers filter first). -/
def toRat : F32 → ℚ
  | fin v => v
  | _ => 0

/-- Magnitude of a finite float. -/
def mag (x : F32) : ℚ := |x.toRat|

def isFinite : F32 → Bool
  | fin _ => true
  | negZero => true
  | _ => false

def isZero : F32 → Bool
  | fin v => decide (v = 0)
  | negZero => true
  | _ => false

/-- The binary32 grid: finite values that rounding leaves alone. -/
def Rep : F32 → Prop
  | fin v => roundMag |v| = |v| ∧ |v| < 2 ^ 128
  | _ => True

instance (x : F32) : Decidable x.Rep := by
  cases x <;> unfold Rep <;> infer_instance

def signedZero (neg : Bool) : F32 := if neg then negZero else fin 0

/-- Correctly rounded result with sign `neg` and exact magnitude `q ≥ 0`. -/
def round (neg : Bool) (q : ℚ) : F32 :=
  let r := roundMag q
  if r = 0 then signedZero neg
  else if (2 : ℚ) ^ 128 ≤ r then inf neg
  else fin (if neg then -r else r)

/-- A decimal literal such as `3.856f`. -/
def lit (q : ℚ) : F32 := round (decide (q < 0)) |q|

/-- Conversion `float(n)` of an integer. -/
def ofInt (n : ℤ) : F32 := round (decide (n < 0)) |(n : ℚ)|

/-- C++ unary `-x`. -/
def neg : F32 → F32
  | fin v => if v = 0 then negZero else fin (-v)
  | negZero => fin 0
  | inf s => inf (!s)
  | nan => nan

/-- C++ `x * y`. -/
def mul : F32 → F32 → F32
  | nan, _ => nan
  | _, nan => nan
  | inf s, y => if y.isZero then nan else inf (xor s y.signBit)
  | x, inf s => if x.isZero then nan else inf (xor x.signBit s)
  | x, y => round (xor x.signBit y.signBit) (x.mag * y.mag)

/-- C++ `x / y`. -/
def div : F32 → F32 → F32
  | nan, _ => nan
  | _, nan => nan
  | inf _, inf _ => nan
  | inf s, y => inf (xor s y.signBit)
  | x, inf s => signedZero (xor x.signBit s)
  | x, y =>
    if y.isZero then (if x.isZero then nan else inf (xor x.signBit y.signBit))
    else round (xor x.signBit y.signBit) (x.mag / y.mag)

/-- C++ `x + y`. -/
def add : F32 → F32 → F32
  | nan, _ => nan
  | _, nan => nan
  | inf s, inf t => if s = t then inf s else nan
  | inf s, _ => inf s
  | _, inf t => inf t
  | x, y =>
    let v := x.toRat + y.toRat
    if v = 0 then signedZero (x.signBit && y.signBit)
    else round (decide (v < 0)) |v|

/-- C++ `x - y`. -/
def sub (x y : F32) : F32 := add x (neg y)

/-- C++ `x < y`. -/
def lt : F32 → F32 → Bool
  | nan, _ => false
  | _, nan => false
  | inf s, inf t => s && !t
  | inf s, _ => s
  | _, inf t => !t
  | x, y => decide (x.toRat < y.toRat)

/-- C++ `x <= y`. -/
def le : F32 → F32 → Bool
  | nan, _ => false
  | _, nan => false
  | inf s, inf t => s || !t
  | inf s, _ => s
  | _, inf t => !t
  | x, y => decide (x.toRat ≤ y.toRat)

/-- C++ `x >= y`. -/
def ge (x y : F32) : Bool := le y x

end F32

/-! ## Integer conversions -/

def toU16 (n : ℤ) : ℕ := (n % 65536).toNat
def toU32 (n : ℤ) : ℕ := (n % 4294967296).toNat
def toI32 (n : ℕ) : ℤ :=
  if n % 4294967296 < 2147483648 then ((n % 4294967296 : ℕ) : ℤ)
  else ((n % 4294967296 : ℕ) : ℤ) - 4294967296

/-! ## Uniform block -/

/-- A `float[16]`. -/
abbrev Mat := Fin 16 → F32

def floatFromBool (val : Bool) : F32 := if val then F32.one else F32.zero

/-- The named fields of `Uniforms` (the unused padding floats are left out). -/
structure Uniforms where
  m_depthUnpackConsts : F32 × F32
  m_frameIdx : F32
  m_ndcToViewMul : F32 × F32
  m_ndcToViewAdd : F32 × F32
  m_lightPosition : F32 × F32 × F32
  m_blurSteps : F32
  m_useSqrtDistribution : F32
  m_maxBlurSize : F32
  m_focusPoint : F32
  m_focusScale : F32
  m_radiusScale : F32
  m_worldToView : Mat
  m_viewToProj : Mat

/-- Values of `bgfx::RendererType::Enum`. -/
inductive RendererType where
  | Noop | Direct3D9 | Direct3D11 | Direct3D12 | Gnm | Metal | Nvn | OpenGLES | OpenGL
  | Vulkan | WebGPU
  deriving DecidableEq

/-! ## Render targets -/

inductive TextureFormat where
  | BGRA8 | D24 | RG11B10F | R16F | RGBA16F
  deriving DecidableEq

/-- The `BGFX_TEXTURE_*` / `BGFX_SAMPLER_*` bits or-ed together in `createFramebuffers`. -/
inductive TexFlag where
  | TEXTURE_RT | SAMPLER_U_CLAMP | SAMPLER_V_CLAMP
  | SAMPLER_MIN_POINT | SAMPLER_MAG_POINT | SAMPLER_MIP_POINT
  deriving DecidableEq

def bilinearFlags : List TexFlag :=
  [TexFlag.TEXTURE_RT, TexFlag.SAMPLER_U_CLAMP, TexFlag.SAMPLER_V_CLAMP]

def pointSampleFlags : List TexFlag :=
  bilinearFlags ++
    [TexFlag.SAMPLER_MIN_POINT, TexFlag.SAMPLER_MAG_POINT, TexFlag.SAMPLER_MIP_POINT]

/-- The arguments of one `bgfx::createTexture2D` call (`uint16_t` width and height). -/
structure TextureDesc where
  width : ℕ
  height : ℕ
  format : TextureFormat
  flags : List TexFlag
  deriving DecidableEq

/-- A `bgfx::FrameBufferHandle`: the textures it was created over and whether it is
still alive (`bgfx::destroy` not yet called on it). -/
structure FrameBuffer where
  attachments : List TextureDesc
  alive : Bool
  deriving DecidableEq

structure RenderTarget where
  m_texture : TextureDesc
  m_buffer : FrameBuffer
  deriving DecidableEq

namespace RenderTarget

/-- The method `RenderTarget::init(uint32_t, uint32_t, format, flags)`. -/
def init (_width _height : ℕ) (_format : TextureFormat) (_flags : List TexFlag) :
    RenderTarget :=
  let m_texture : TextureDesc :=
    { width := toU16 _width, height := toU16 _height, format := _format, flags := _flags }
  { m_texture := m_texture, m_buffer := { attachments := [m_texture], alive := true } }

def destroy (t : RenderTarget) : RenderTarget :=
  { t with m_buffer := { t.m_buffer with alive := false } }

end RenderTarget

/-! ## Recorded views -/

inductive Program where
  | m_forwardProgram | m_copyProgram | m_linearDepthProgram | m_dofSinglePassProgram
  | m_dofDownsampleProgram | m_dofQuarterProgram | m_dofCombineProgram
  deriving DecidableEq

inductive Sampler where
  | s_albedo | s_color | s_normal | s_depth | s_blurredColor
  deriving DecidableEq

/-- The texture handles a pass binds. -/
inductive TextureRef where
  | frameBufferTexColor
  | frameBufferTexDepth
  | m_groundTexture
  | m_normalTexture
  | m_linearDepth
  | m_dofQuarterInput
  | m_dofQuarterOutput
  deriving DecidableEq

/-- The argument of `bgfx::setViewFrameBuffer`; `invalid` is `BGFX_INVALID_HANDLE`,
the presentation target. -/
inductive FrameBufferRef where
  | invalid
  | m_frameBuffer
  | m_linearDepth
  | m_dofQuarterInput
  | m_dofQuarterOutput
  deriving DecidableEq

inductive StateFlag where
  | WRITE_RGB | WRITE_A | WRITE_Z | DEPTH_TEST_LESS | DEPTH_TEST_ALWAYS
  deriving DecidableEq

inductive ClearFlag where
  | CLEAR_COLOR | CLEAR_DEPTH
  deriving DecidableEq

/-- The argument of `bgfx::setViewTransform`: the scene camera, or `NULL` with the
orthographic matrix of `bx::mtxOrtho(.., homogeneousDepth)`. -/
inductive ViewTransform where
  | scene (view proj : Mat)
  | ortho (homogeneousDepth : Bool)

/-- One view as configured and submitted by a frame. -/
structure Pass where
  view : ℕ
  name : String
  clear : Option (List ClearFlag)
  rect : ℕ × ℕ
  transform : ViewTransform
  frameBuffer : FrameBufferRef
  state : List StateFlag
  textures : List (ℕ × Sampler × TextureRef)
  uniforms : Option Uniforms
  program : Program

/-! ## Application state and frame inputs -/

def MODEL_COUNT : ℕ := 100

/-- The settings edited by the ImGui panel. -/
structure Settings where
  m_useBokehDof : Bool
  m_useSinglePassBokehDof : Bool
  m_maxBlurSize : F32
  m_focusPoint : F32
  m_focusScale : F32
  m_radiusScale : F32
  m_blurSteps : F32
  m_useSqrtDistribution : Bool

/-- What the collaborators hand to one call of `update` (`width`, `height` and `frame`
are `uint32_t` values). -/
structure FrameInput where
  /-- return value of `entry::processEvents` -/
  exit : Bool
  /-- the values of `m_width`, `m_height` as left by `entry::processEvents` -/
  width : ℕ
  height : ℕ
  /-- result of `cameraGetViewMtx` after `cameraUpdate` -/
  view : Mat
  /-- fields of `bgfx::getCaps()` -/
  homogeneousDepth : Bool
  originBottomLeft : Bool
  /-- result of `bgfx::getRendererType()` -/
  renderer : RendererType
  /-- the settings after this frame's widgets ran -/
  ui : Settings
  /-- return value of `bgfx::frame()` -/
  frame : ℕ

/-- Library functions the sample calls: `bx::mtxProj(fovy, aspect, near, far, homogeneousNdc)`. -/
structure Env where
  mtxProj : F32 → F32 → F32 → F32 → Bool → Mat

/-- What one call of `update` did. -/
structure FrameOutput where
  passes : List Pass
  /-- the value shown as "steps debug:", when the settings panel ran -/
  steps : Option ℕ
  /-- whether `bgfx::frame()` was called -/
  submitted : Bool
  /-- the return value of `update` -/
  result : Bool

/-- The data members of `ExampleBokeh` that the frame logic reads or writes. -/
structure ExampleBokeh where
  m_width : ℕ
  m_height : ℕ
  m_uniforms : Uniforms
  m_frameBuffer : FrameBuffer
  m_frameBufferTex : TextureDesc × TextureDesc
  m_currentColor : RenderTarget
  m_temporaryColor : RenderTarget
  m_linearDepth : RenderTarget
  m_dofQuarterInput : RenderTarget
  m_dofQuarterOutput : RenderTarget
  m_currFrame : ℕ
  m_fovY : F32
  m_recreateFrameBuffers : Bool
  m_view : Mat
  m_proj : Mat
  m_proj2 : Mat
  m_size : ℤ × ℤ
  m_useBokehDof : Bool
  m_useSinglePassBokehDof : Bool
  m_maxBlurSize : F32
  m_focusPoint : F32
  m_focusScale : F32
  m_radiusScale : F32
  m_blurSteps : F32
  m_useSqrtDistribution : Bool

namespace ExampleBokeh

/-- The method `createFramebuffers`. -/
def createFramebuffers (s : ExampleBokeh) : ExampleBokeh :=
  let m_size : ℤ × ℤ := (toI32 s.m_width, toI32 s.m_height)
  let color : TextureDesc :=
    { width := toU16 m_size.1, height := toU16 m_size.2
      format := TextureFormat.BGRA8, flags := pointSampleFlags }
  let depth : TextureDesc :=
    { width := toU16 m_size.1, height := toU16 m_size.2
      format := TextureFormat.D24, flags := pointSampleFlags }
  let halfWidth : ℕ := toU32 (Int.tdiv m_size.1 2)
  let halfHeight : ℕ := toU32 (Int.tdiv m_size.2 2)
  { s with
    m_size := m_size
    m_frameBufferTex := (color, depth)
    m_frameBuffer := { attachments := [color, depth], alive := true }
    m_currentColor :=
      RenderTarget.init (toU32 m_size.1) (toU32 m_size.2) TextureFormat.RG11B10F bilinearFlags
    m_temporaryColor :=
      RenderTarget.init (toU32 m_size.1) (toU32 m_size.2) TextureFormat.RG11B10F bilinearFlags
    m_linearDepth :=
      RenderTarget.init (toU32 m_size.1) (toU32 m_size.2) TextureFormat.R16F pointSampleFlags
    m_dofQuarterInput :=
      RenderTarget.init halfWidth halfHeight TextureFormat.RGBA16F bilinearFlags
    m_dofQuarterOutput :=
      RenderTarget.init halfWidth halfHeight TextureFormat.RGBA16F bilinearFlags }

/-- The method `destroyFramebuffers`. -/
def destroyFramebuffers (s : ExampleBokeh) : ExampleBokeh :=
  { s with
    m_frameBuffer := { s.m_frameBuffer with alive := false }
    m_currentColor := s.m_currentColor.destroy
    m_temporaryColor := s.m_temporaryColor.destroy
    m_linearDepth := s.m_linearDepth.destroy
    m_dofQuarterInput := s.m_dofQuarterInput.destroy
    m_dofQuarterOutput := s.m_dofQuarterOutput.destroy }

/-- The method `updateUniforms`, with `bgfx::getRendererType()` as `renderer`. -/
def updateUniforms (renderer : RendererType) (s : ExampleBokeh) : ExampleBokeh :=
  let depthLinearizeMul := F32.neg (s.m_proj2 14)
  let depthLinearizeAdd0 := s.m_proj2 10
  let depthLinearizeAdd :=
    if F32.lt (F32.mul depthLinearizeMul depthLinearizeAdd0) F32.zero
    then F32.neg depthLinearizeAdd0 else depthLinearizeAdd0
  let tanHalfFOVY := F32.div F32.one (s.m_proj2 5)
  let tanHalfFOVX := F32.div F32.one (s.m_proj2 0)
  let ndcMul : F32 × F32 :=
    if renderer = RendererType.OpenGL
    then (F32.mul tanHalfFOVX F32.two, F32.mul tanHalfFOVY F32.two)
    else (F32.mul tanHalfFOVX F32.two, F32.mul tanHalfFOVY (F32.fin (-2)))
  let ndcAdd : F32 × F32 :=
    if renderer = RendererType.OpenGL
    then (F32.mul tanHalfFOVX (F32.fin (-1)), F32.mul tanHalfFOVY (F32.fin (-1)))
    else (F32.mul tanHalfFOVX (F32.fin (-1)), F32.mul tanHalfFOVY F32.one)
  let blurScale := if s.m_useSinglePassBokehDof then F32.one else F32.half
  { s with
    m_uniforms :=
      { m_worldToView := s.m_view
        m_viewToProj := s.m_proj
        m_depthUnpackConsts := (depthLinearizeMul, depthLinearizeAdd)
        m_ndcToViewMul := ndcMul
        m_ndcToViewAdd := ndcAdd
        m_frameIdx := F32.ofInt ((s.m_currFrame % 8 : ℕ) : ℤ)
        m_lightPosition := (F32.fin (-10), F32.fin 10, F32.fin (-10))
        m_blurSteps := s.m_blurSteps
        m_useSqrtDistribution := floatFromBool s.m_useSqrtDistribution
        m_maxBlurSize := F32.mul s.m_maxBlurSize blurScale
        m_focusPoint := s.m_focusPoint
        m_focusScale := s.m_focusScale
        m_radiusScale := F32.mul s.m_radiusScale blurScale } }

/-- The state every screen-space DoF view sets. -/
def dofState : List StateFlag :=
  [StateFlag.WRITE_RGB, StateFlag.WRITE_A, StateFlag.DEPTH_TEST_ALWAYS]

/-- The method `drawDepthOfField(_pass, _colorTexture, _orthoProj, _originBottomLeft)`: the views it
records and the view id it returns. -/
def drawDepthOfField (s : ExampleBokeh) (_pass : ℕ) (_colorTexture : TextureRef)
    (homogeneousDepth : Bool) : List Pass × ℕ :=
  let view := _pass
  let lastTex := _colorTexture
  if s.m_useSinglePassBokehDof then
    ([{ view := view, name := "bokeh dof single pass", clear := none
        rect := (toU16 s.m_width, toU16 s.m_height)
        transform := ViewTransform.ortho homogeneousDepth
        frameBuffer := FrameBufferRef.invalid
        state := dofState
        textures := [(0, Sampler.s_color, lastTex), (1, Sampler.s_depth, TextureRef.m_linearDepth)]
        uniforms := none
        program := Program.m_dofSinglePassProgram }],
     (view + 1) % 65536)
  else
    let halfWidth : ℕ := s.m_width / 2
    let halfHeight : ℕ := s.m_height / 2
    let downsample : Pass :=
      { view := view, name := "bokeh dof downsample", clear := none
        rect := (toU16 halfWidth, toU16 halfHeight)
        transform := ViewTransform.ortho homogeneousDepth
        frameBuffer := FrameBufferRef.m_dofQuarterInput
        state := dofState
        textures := [(0, Sampler.s_color, lastTex), (1, Sampler.s_depth, TextureRef.m_linearDepth)]
        uniforms := none
        program := Program.m_dofDownsampleProgram }
    let view := (view + 1) % 65536
    let lastTex := TextureRef.m_dofQuarterInput
    let quarter : Pass :=
      { view := view, name := "bokeh dof quarter", clear := none
        rect := (toU16 halfWidth, toU16 halfHeight)
        transform := ViewTransform.ortho homogeneousDepth
        frameBuffer := FrameBufferRef.m_dofQuarterOutput
        state := dofState
        textures := [(0, Sampler.s_color, lastTex)]
        uniforms := none
        program := Program.m_dofQuarterProgram }
    let view := (view + 1) % 65536
    let lastTex := TextureRef.m_dofQuarterOutput
    let combine : Pass :=
      { view := view, name := "bokeh dof combine", clear := none
        rect := (toU16 s.m_width, toU16 s.m_height)
        transform := ViewTransform.ortho homogeneousDepth
        frameBuffer := FrameBufferRef.invalid
        state := dofState
        textures := [(0, Sampler.s_color, _colorTexture), (1, Sampler.s_blurredColor, lastTex)]
        uniforms := none
        program := Program.m_dofCombineProgram }
    ([downsample, quarter, combine], (view + 1) % 65536)

/-- The "steps debug" loop of the settings panel: `radius` starts at `m_radiusScale`, and
while `radius < maxRadius` the counter is incremented and `radius += m_radiusScale / radius`.
`none` when the loop is still running after `fuel` tests of its condition. The `int`
counter is counted in `ℕ`. -/
def stepsDebugLoop (maxRadius m_radiusScale : F32) : ℕ → F32 → ℕ → Option ℕ
  | 0, _, _ => none
  | fuel + 1, radius, counter =>
    if F32.lt radius maxRadius then
      stepsDebugLoop maxRadius m_radiusScale fuel
        (F32.add radius (F32.div m_radiusScale radius)) (counter + 1)
    else some counter

/-- The value shown as "steps debug:" for the current settings. -/
def stepsDebug (fuel : ℕ) (m_maxBlurSize m_radiusScale : F32) : Option ℕ :=
  stepsDebugLoop m_maxBlurSize m_radiusScale fuel m_radiusScale 0

/-- The value of `radius` after `k` iterations of the "steps debug" loop body. -/
def stepsRadius (m_radiusScale : F32) : ℕ → F32
  | 0 => m_radiusScale
  | k + 1 =>
    F32.add (stepsRadius m_radiusScale k)
      (F32.div m_radiusScale (stepsRadius m_radiusScale k))

/-- The call of `entry::processEvents`, writing the window size into `m_width`, `m_height`. -/
def processEvents (s : ExampleBokeh) (inp : FrameInput) : ExampleBokeh :=
  { s with m_width := inp.width, m_height := inp.height }

/-- The resize check at the head of a rendered frame. -/
def resizeIfNeeded (s : ExampleBokeh) : ExampleBokeh :=
  if s.m_size.1 ≠ toI32 s.m_width ∨ s.m_size.2 ≠ toI32 s.m_height
      ∨ s.m_recreateFrameBuffers = true then
    { (s.destroyFramebuffers).createFramebuffers with m_recreateFrameBuffers := false }
  else s

/-- The part of `update` that runs for a non-minimized window up to the last view
(resize check, camera, uniforms, projection matrices, views), before the settings panel
and `bgfx::frame()`. -/
def renderFrame (env : Env) (s : ExampleBokeh) (inp : FrameInput) :
    ExampleBokeh × List Pass :=
  let s := s.resizeIfNeeded
  let s := { s with m_view := inp.view }
  let s := s.updateUniforms inp.renderer
  let aspect := F32.div (F32.ofInt s.m_size.1) (F32.ofInt s.m_size.2)
  let s :=
    { s with
      m_proj := env.mtxProj s.m_fovY aspect (F32.lit (1 / 100)) (F32.lit 100) inp.homogeneousDepth
      m_proj2 := env.mtxProj s.m_fovY aspect (F32.lit (1 / 100)) (F32.lit 100) false }
  let view : ℕ := 0
  let forward : Pass :=
    { view := view, name := "forward scene"
      clear := some [ClearFlag.CLEAR_COLOR, ClearFlag.CLEAR_DEPTH]
      rect := (toU16 s.m_size.1, toU16 s.m_size.2)
      transform := ViewTransform.scene s.m_view s.m_proj
      frameBuffer := FrameBufferRef.m_frameBuffer
      state := [StateFlag.WRITE_RGB, StateFlag.WRITE_A, StateFlag.WRITE_Z,
        StateFlag.DEPTH_TEST_LESS]
      textures := [(0, Sampler.s_albedo, TextureRef.m_groundTexture),
        (1, Sampler.s_normal, TextureRef.m_normalTexture)]
      uniforms := some s.m_uniforms
      program := Program.m_forwardProgram }
  let view := (view + 1) % 65536
  let linearDepth : Pass :=
    { view := view, name := "linear depth", clear := none
      rect := (toU16 s.m_width, toU16 s.m_height)
      transform := ViewTransform.ortho inp.homogeneousDepth
      frameBuffer := FrameBufferRef.m_linearDepth
      state := [StateFlag.WRITE_RGB, StateFlag.WRITE_A, StateFlag.DEPTH_TEST_ALWAYS]
      textures := [(0, Sampler.s_depth, TextureRef.frameBufferTexDepth)]
      uniforms := some s.m_uniforms
      program := Program.m_linearDepthProgram }
  let view := (view + 1) % 65536
  let lastTex := TextureRef.frameBufferTexColor
  let display : Pass :=
    { view := view, name := "display", clear := some []
      rect := (toU16 s.m_width, toU16 s.m_height)
      transform := ViewTransform.ortho inp.homogeneousDepth
      frameBuffer := FrameBufferRef.invalid
      state := [StateFlag.WRITE_RGB, StateFlag.WRITE_A]
      textures := [(0, Sampler.s_color, lastTex)]
      uniforms := none
      program := Program.m_copyProgram }
  (s, [forward, linearDepth] ++
    (if s.m_useBokehDof then (s.drawDepthOfField view lastTex inp.homogeneousDepth).1
     else [display]))

/-- The settings panel: the widgets write the settings, and the "steps debug" value is
computed from the new `m_maxBlurSize` and `m_radiusScale`. -/
def settingsPanel (fuel : ℕ) (s : ExampleBokeh) (ui : Settings) :
    Option (ExampleBokeh × ℕ) :=
  let s :=
    { s with
      m_useBokehDof := ui.m_useBokehDof
      m_useSinglePassBokehDof := ui.m_useSinglePassBokehDof
      m_maxBlurSize := ui.m_maxBlurSize
      m_focusPoint := ui.m_focusPoint
      m_focusScale := ui.m_focusScale
      m_radiusScale := ui.m_radiusScale }
  match stepsDebug fuel s.m_maxBlurSize s.m_radiusScale with
  | none => none
  | some counter =>
    some ({ s with
      m_useSqrtDistribution := ui.m_useSqrtDistribution
      m_blurSteps := ui.m_blurSteps }, counter)

/-- The method `update`: one frame. `none` when the "steps debug" loop does not finish within
`fuel` tests of its condition. -/
def update (env : Env) (fuel : ℕ) (s : ExampleBokeh) (inp : FrameInput) :
    Option (ExampleBokeh × FrameOutput) :=
  let s := s.processEvents inp
  if inp.exit then
    some (s, { passes := [], steps := none, submitted := false, result := false })
  else if s.m_width = 0 ∨ s.m_height = 0 then
    some (s, { passes := [], steps := none, submitted := false, result := true })
  else
    let r := renderFrame env s inp
    match settingsPanel fuel r.1 inp.ui with
    | none => none
    | some (s, counter) =>
      some ({ s with m_currFrame := inp.frame },
        { passes := r.2, steps := some counter, submitted := true, result := true })

/-- The method `init(_argc, _argv, _width, _height)` on a freshly constructed object: the members
it and the constructor / default member initializers write. `indeterminate` holds the
members nothing has written yet (`m_proj2`, `m_uniforms`). -/
def init (env : Env) (_width _height : ℕ) (view : Mat) (homogeneousDepth : Bool)
    (indeterminate : ExampleBokeh) : ExampleBokeh :=
  let s : ExampleBokeh :=
    { indeterminate with
      m_currFrame := 4294967295
      m_recreateFrameBuffers := false
      m_useBokehDof := true
      m_useSinglePassBokehDof := true
      m_maxBlurSize := F32.lit 20
      m_focusPoint := F32.lit 1
      m_focusScale := F32.lit 2
      m_radiusScale := F32.lit (3856 / 1000)
      m_blurSteps := F32.lit 50
      m_useSqrtDistribution := false
      m_width := _width
      m_height := _height }
  let s := s.createFramebuffers
  let s := { s with m_fovY := F32.lit 60, m_view := view }
  { s with
    m_proj := env.mtxProj s.m_fovY (F32.div (F32.ofInt s.m_size.1) (F32.ofInt s.m_size.2))
      (F32.lit (1 / 100)) (F32.lit 100) homogeneousDepth }

/-- The render-target pool: every texture and frame buffer `createFramebuffers` makes. -/
structure Pool where
  m_frameBuffer : FrameBuffer
  m_frameBufferTex : TextureDesc × TextureDesc
  m_currentColor : RenderTarget
  m_temporaryColor : RenderTarget
  m_linearDepth : RenderTarget
  m_dofQuarterInput : RenderTarget
  m_dofQuarterOutput : RenderTarget
  deriving DecidableEq

/-- The pool of an application. -/
def pool (s : ExampleBokeh) : Pool :=
  { m_frameBuffer := s.m_frameBuffer
    m_frameBufferTex := s.m_frameBufferTex
    m_currentColor := s.m_currentColor
    m_temporaryColor := s.m_temporaryColor
    m_linearDepth := s.m_linearDepth
    m_dofQuarterInput := s.m_dofQuarterInput
    m_dofQuarterOutput := s.m_dofQuarterOutput }

/-- The state of `m_size` and the pool is the one some call of `createFramebuffers` left. -/
def Allocated (s : ExampleBokeh) : Prop :=
  ∃ t : ExampleBokeh,
    s.m_size = t.createFramebuffers.m_size ∧ s.pool = t.createFramebuffers.pool

end ExampleBokeh

/-- The two settings the "steps debug" loop reads lie in the ranges of their sliders
(`max blur size` 10..50, `radiusScale` 0.5..4). -/
def Settings.InSliderRange (ui : Settings) : Prop :=
  F32.le (F32.fin 10) ui.m_maxBlurSize = true ∧ F32.le ui.m_maxBlurSize (F32.fin 50) = true ∧
  F32.le (F32.fin (1 / 2)) ui.m_radiusScale = true ∧ F32.le ui.m_radiusScale (F32.fin 4) = true

instance (ui : Settings) : Decidable ui.InSliderRange := by
  unfold Settings.InSliderRange; infer_instance

/-! ## What a view reads and writes -/

/-- The frame buffer a texture handle is an attachment of (the two attachments of
`m_frameBuffer`, and the texture of each `RenderTarget`); `none` for the material textures,
which `init` loads from files and no view writes. -/
def TextureRef.attachedTo : TextureRef → Option FrameBufferRef
  | TextureRef.frameBufferTexColor => some FrameBufferRef.m_frameBuffer
  | TextureRef.frameBufferTexDepth => some FrameBufferRef.m_frameBuffer
  | TextureRef.m_linearDepth => some FrameBufferRef.m_linearDepth
  | TextureRef.m_dofQuarterInput => some FrameBufferRef.m_dofQuarterInput
  | TextureRef.m_dofQuarterOutput => some FrameBufferRef.m_dofQuarterOutput
  | TextureRef.m_groundTexture => none
  | TextureRef.m_normalTexture => none

/-- The textures a view binds with `bgfx::setTexture`, in stage order. -/
def Pass.reads (p : Pass) : List TextureRef :=
  p.textures.map (fun t => t.2.2)

/-- The render-target images a view samples, each named by the frame buffer it is an
attachment of. -/
def Pass.readsTargets (p : Pass) : List FrameBufferRef :=
  p.reads.filterMap TextureRef.attachedTo

/-- Going through the views in order, with the frame buffers written so far: every
render-target image a view samples belongs to a frame buffer an earlier view wrote, and
not to the one the view itself writes. -/
def readsAfterWrites : List FrameBufferRef → List Pass → Bool
  | _, [] => true
  | written, p :: ps =>
    p.readsTargets.all (fun fb => decide (fb ∈ written) && decide (fb ≠ p.frameBuffer))
      && readsAfterWrites (p.frameBuffer :: written) ps

/-- The textures of a pool, in the order `createFramebuffers` creates them. -/
def ExampleBokeh.Pool.textures (p : ExampleBokeh.Pool) : List TextureDesc :=
  [p.m_frameBufferTex.1, p.m_frameBufferTex.2, p.m_currentColor.m_texture,
   p.m_temporaryColor.m_texture, p.m_linearDepth.m_texture, p.m_dofQuarterInput.m_texture,
   p.m_dofQuarterOutput.m_texture]

/-- The frame buffers of a pool, in the order `createFramebuffers` creates them. -/
def ExampleBokeh.Pool.frameBuffers (p : ExampleBokeh.Pool) : List FrameBuffer :=
  [p.m_frameBuffer, p.m_currentColor.m_buffer, p.m_temporaryColor.m_buffer,
   p.m_linearDepth.m_buffer, p.m_dofQuarterInput.m_buffer, p.m_dofQuarterOutput.m_buffer]

/-! ## Sample inputs -/

/-- A perspective matrix computed the way `bx::mtxProj` does for a left-handed camera
with no off-centre shift (bx is not part of the repository); `1 / tan(fovy / 2)` is fixed
at its value for the sample's 60 degree field of view. -/
def sampleMtxProj (_fovy aspect near far : F32) (homogeneousNdc : Bool) : Mat :=
  let height := F32.lit (17320508 / 10000000)
  let width := F32.div height aspect
  let diff := F32.sub far near
  let aa := if homogeneousNdc then F32.div (F32.add far near) diff else F32.div far diff
  let bb :=
    if homogeneousNdc then F32.div (F32.mul (F32.mul F32.two far) near) diff
    else F32.mul near aa
  fun i =>
    if i = 0 then width else if i = 5 then height
    else if i = 8 ∨ i = 9 then F32.neg F32.zero else if i = 10 then aa
    else if i = 11 then F32.one else if i = 14 then F32.neg bb else F32.zero

def sampleEnv : Env := { mtxProj := sampleMtxProj }

/-- The identity matrix. -/
def sampleView : Mat := fun i => if i.val % 5 = 0 then F32.one else F32.zero

def zeroTexture : TextureDesc :=
  { width := 0, height := 0, format := TextureFormat.BGRA8, flags := [] }

def zeroTarget : RenderTarget :=
  { m_texture := zeroTexture, m_buffer := { attachments := [], alive := false } }

/-- An object whose members are all zero, for the members `init` leaves unwritten. -/
def zeroMemory : ExampleBokeh :=
  { m_width := 0, m_height := 0
    m_uniforms :=
      { m_depthUnpackConsts := (F32.zero, F32.zero), m_frameIdx := F32.zero
        m_ndcToViewMul := (F32.zero, F32.zero), m_ndcToViewAdd := (F32.zero, F32.zero)
        m_lightPosition := (F32.zero, F32.zero, F32.zero)
        m_blurSteps := F32.zero, m_useSqrtDistribution := F32.zero
        m_maxBlurSize := F32.zero, m_focusPoint := F32.zero, m_focusScale := F32.zero
        m_radiusScale := F32.zero
        m_worldToView := fun _ => F32.zero, m_viewToProj := fun _ => F32.zero }
    m_frameBuffer := { attachments := [], alive := false }
    m_frameBufferTex := (zeroTexture, zeroTexture)
    m_currentColor := zeroTarget, m_temporaryColor := zeroTarget
    m_linearDepth := zeroTarget, m_dofQuarterInput := zeroTarget
    m_dofQuarterOutput := zeroTarget
    m_currFrame := 0, m_fovY := F32.zero, m_recreateFrameBuffers := false
    m_view := fun _ => F32.zero, m_proj := fun _ => F32.zero, m_proj2 := fun _ => F32.zero
    m_size := (0, 0)
    m_useBokehDof := false, m_useSinglePassBokehDof := false
    m_maxBlurSize := F32.zero, m_focusPoint := F32.zero, m_focusScale := F32.zero
    m_radiusScale := F32.zero, m_blurSteps := F32.zero, m_useSqrtDistribution := false }

/-- The default settings (the default member initializers). -/
def defaultSettings : Settings :=
  { m_useBokehDof := true, m_useSinglePassBokehDof := true
    m_maxBlurSize := F32.lit 20, m_focusPoint := F32.lit 1, m_focusScale := F32.lit 2
    m_radiusScale := F32.lit (3856 / 1000), m_blurSteps := F32.lit 50
    m_useSqrtDistribution := false }

/-- A frame at the given window size with nothing else happening. -/
def sampleInput (width height : ℕ) (ui : Settings) : FrameInput :=
  { exit := false, width := width, height := height, view := sampleView
    homogeneousDepth := false, originBottomLeft := false
    renderer := RendererType.Direct3D11, ui := ui, frame := 0 }

/-- The application right after `init` at the given window size. -/
def sampleApp (width height : ℕ) : ExampleBokeh :=
  ExampleBokeh.init sampleEnv width height sampleView false zeroMemory

/-- The application right after `init`, with the multi-pass topology selected. -/
def sampleMultiPassApp (width height : ℕ) : ExampleBokeh :=
  { sampleApp width height with m_useSinglePassBokehDof := false }

/-- A state whose `m_proj2` has a depth row that needs the sign repair. -/
def sampleFlipped : ExampleBokeh :=
  { zeroMemory with
    m_proj2 := fun i =>
      if i = 0 ∨ i = 5 then F32.fin 2 else if i = 10 then F32.fin 1
      else if i = 14 then F32.fin (1 / 4) else F32.zero }

/-- A state whose `m_proj2` has `P[3][2] = P[2][2] = 2^-100`, two binary32 values whose
product underflows. -/
def sampleTiny : ExampleBokeh :=
  { zeroMemory with
    m_proj2 := fun i => if i = 10 ∨ i = 14 then F32.fin (1 / 2 ^ 100) else F32.zero }

/-- A state whose `m_proj2` has `P[3][2] = +inf` and `P[2][2] = 0`. -/
def sampleInfinite : ExampleBokeh :=
  { zeroMemory with
    m_proj2 := fun i => if i = 14 then F32.inf false else F32.zero }

/-! ## Facts about binary32 rounding -/

theorem roundNearestEven_nonneg {x : ℚ} (hx : 0 ≤ x) : 0 ≤ roundNearestEven x := by
  have hf : 0 ≤ ⌊x⌋ := Int.floor_nonneg.mpr hx
  unfold roundNearestEven
  simp only
  split_ifs <;> omega

theorem roundMag_nonneg {q : ℚ} (hq : 0 ≤ q) : 0 ≤ roundMag q := by
  unfold roundMag
  have h2 : (0 : ℚ) < 2 ^ ulpExp q := by positivity
  have hn : (0 : ℚ) ≤ (roundNearestEven (q / 2 ^ ulpExp q) : ℚ) := by
    exact_mod_cast roundNearestEven_nonneg (div_nonneg hq h2.le)
  positivity

namespace F32

theorem mag_nonneg (x : F32) : 0 ≤ x.mag := abs_nonneg _

theorem round_ne_nan (neg : Bool) (q : ℚ) : round neg q ≠ nan := by
  unfold round signedZero
  simp only
  split_ifs <;> simp

theorem le_zero_of_not_lt {x : F32} (hx : x ≠ nan) (h : lt x zero = false) :
    le zero x = true := by
  cases x with
  | fin v => simpa [lt, le, zero, toRat] using h
  | negZero => simp [le, zero, toRat]
  | inf s => cases s <;> simp_all [lt, le, zero]
  | nan => exact absurd rfl hx

theorem le_zero_round_false {q : ℚ} (hq : 0 ≤ q) : le zero (round false q) = true := by
  have hr := roundMag_nonneg hq
  simp only [round, signedZero, Bool.false_eq_true, if_false]
  split_ifs <;> simp [le, zero, toRat, hr]

theorem neg_of_round_lt_zero {neg : Bool} {q : ℚ} (hq : 0 ≤ q)
    (h : lt (round neg q) zero = true) : neg = true := by
  cases neg with
  | true => rfl
  | false =>
    have hr := roundMag_nonneg hq
    revert h
    simp only [round, signedZero, Bool.false_eq_true, if_false]
    split_ifs <;> simp [lt, zero, toRat, hr]

theorem mul_of_isFinite {x y : F32} (hx : x.isFinite = true) (hy : y.isFinite = true) :
    mul x y = round (xor x.signBit y.signBit) (x.mag * y.mag) := by
  cases x <;> cases y <;>
    first | rfl | (simp [isFinite] at hx hy)

theorem isFinite_neg {x : F32} (hx : x.isFinite = true) : (neg x).isFinite = true := by
  cases x with
  | fin v => by_cases h : v = 0 <;> simp [neg, h, isFinite]
  | negZero => rfl
  | inf s => simp [isFinite] at hx
  | nan => simp [isFinite] at hx

theorem mag_neg (x : F32) : (neg x).mag = x.mag := by
  cases x with
  | fin v => by_cases h : v = 0 <;> simp [neg, h, mag, toRat]
  | negZero => simp [neg, mag, toRat]
  | inf s => simp [neg, mag, toRat]
  | nan => rfl

theorem signBit_neg {x : F32} (hx : x.isFinite = true) : (neg x).signBit = !x.signBit := by
  cases x with
  | fin v =>
    by_cases h : v = 0
    · simp [neg, h, signBit]
    · rcases lt_or_gt_of_ne h with h1 | h1
      · simp [neg, h, signBit, h1, h1.le]
      · simp [neg, h, signBit, h1, h1.le, not_lt.mpr h1.le]
  | negZero => simp [neg, signBit]
  | inf s => simp [isFinite] at hx
  | nan => simp [isFinite] at hx

/-- Sign repair: flipping the second factor when the product is negative makes it `≥ 0`. -/
theorem mul_sign_repair {m a : F32} (hm : m.isFinite = true) (ha : a.isFinite = true) :
    le zero (mul m (if lt (mul m a) zero then neg a else a)) = true := by
  by_cases h : lt (mul m a) zero = true
  · rw [if_pos h, mul_of_isFinite hm (isFinite_neg ha), mag_neg, signBit_neg ha]
    rw [mul_of_isFinite hm ha] at h
    have hs := neg_of_round_lt_zero (mul_nonneg m.mag_nonneg a.mag_nonneg) h
    have : xor m.signBit (!a.signBit) = false := by
      revert hs; cases m.signBit <;> cases a.signBit <;> simp
    rw [this]
    exact le_zero_round_false (mul_nonneg m.mag_nonneg a.mag_nonneg)
  · rw [if_neg h]
    apply le_zero_of_not_lt
    · rw [mul_of_isFinite hm ha]; exact round_ne_nan _ _
    · simpa using h

end F32

theorem floorLog2_spec {q : ℚ} (hq : 0 < q) :
    (2 : ℚ) ^ floorLog2 q ≤ q ∧ q < (2 : ℚ) ^ (floorLog2 q + 1) := by
  have hnum : 0 < q.num := Rat.num_pos.mpr hq
  have ha0 : q.num.natAbs ≠ 0 := by omega
  have hb0 : q.den ≠ 0 := q.den_nz
  have hqa : q = (q.num.natAbs : ℚ) / (q.den : ℚ) := by
    have h1 : ((q.num.natAbs : ℤ) : ℚ) = (q.num : ℚ) := by
      rw [Int.natAbs_of_nonneg hnum.le]
    have h2 : ((q.num.natAbs : ℕ) : ℚ) = (q.num : ℚ) := by
      rw [← h1, Int.cast_natCast]
    rw [h2]; exact (Rat.num_div_den q).symm
  have hbpos : (0 : ℚ) < (q.den : ℚ) := by exact_mod_cast q.den_pos
  have hla : ((2 : ℚ) ^ (Nat.log2 q.num.natAbs)) ≤ (q.num.natAbs : ℚ) := by
    exact_mod_cast Nat.log2_self_le ha0
  have hua : (q.num.natAbs : ℚ) < (2 : ℚ) ^ (Nat.log2 q.num.natAbs + 1) := by
    exact_mod_cast (Nat.lt_log2_self (n := q.num.natAbs))
  have hlb : ((2 : ℚ) ^ (Nat.log2 q.den)) ≤ (q.den : ℚ) := by
    exact_mod_cast Nat.log2_self_le hb0
  have hub : (q.den : ℚ) < (2 : ℚ) ^ (Nat.log2 q.den + 1) := by
    exact_mod_cast (Nat.lt_log2_self (n := q.den))
  set la := Nat.log2 q.num.natAbs
  set lb := Nat.log2 q.den
  have hpa : (0 : ℚ) < 2 ^ la := by positivity
  have hpb : (0 : ℚ) < 2 ^ lb := by positivity
  have hk : (2 : ℚ) ^ ((la : ℤ) - (lb : ℤ)) = 2 ^ la / 2 ^ lb := by
    rw [zpow_sub₀ (by norm_num : (2 : ℚ) ≠ 0), zpow_natCast, zpow_natCast]
  have hupper : q < (2 : ℚ) ^ ((la : ℤ) - (lb : ℤ) + 1) := by
    rw [zpow_add_one₀ (by norm_num : (2 : ℚ) ≠ 0), hk, hqa, div_mul_eq_mul_div,
      div_lt_div_iff₀ hbpos hpb]
    calc (q.num.natAbs : ℚ) * 2 ^ lb < 2 ^ (la + 1) * 2 ^ lb := by
            exact mul_lt_mul_of_pos_right hua hpb
      _ = 2 ^ la * 2 * 2 ^ lb := by rw [pow_succ]
      _ ≤ 2 ^ la * 2 * (q.den : ℚ) := by
            exact mul_le_mul_of_nonneg_left hlb (by positivity)
  have hlower : (2 : ℚ) ^ ((la : ℤ) - (lb : ℤ) - 1) < q := by
    rw [zpow_sub_one₀ (by norm_num : (2 : ℚ) ≠ 0), hk]
    conv_rhs => rw [hqa]
    rw [div_mul_eq_mul_div, div_lt_div_iff₀ hpb hbpos]
    calc 2 ^ la * (2 : ℚ)⁻¹ * (q.den : ℚ) < 2 ^ la * (2 : ℚ)⁻¹ * 2 ^ (lb + 1) := by
            exact mul_lt_mul_of_pos_left hub (by positivity)
      _ = 2 ^ la * 2 ^ lb := by rw [pow_succ]; field_simp; ring
      _ ≤ (q.num.natAbs : ℚ) * 2 ^ lb := by
            exact mul_le_mul_of_nonneg_right hla hpb.le
  unfold floorLog2
  simp only
  split_ifs with h
  · exact ⟨h, hupper⟩
  · refine ⟨hlower.le, ?_⟩
    rw [sub_add_cancel]
    exact lt_of_not_le h

theorem floorLog2_eq {q : ℚ} {k : ℤ} (h1 : (2 : ℚ) ^ k ≤ q) (h2 : q < (2 : ℚ) ^ (k + 1)) :
    floorLog2 q = k := by
  have hq : 0 < q := lt_of_lt_of_le (by positivity) h1
  obtain ⟨h3, h4⟩ := floorLog2_spec hq
  have hlt : ∀ {a b : ℤ}, (2 : ℚ) ^ a < 2 ^ b → a < b := fun h =>
    (zpow_lt_zpow_iff_right₀ (by norm_num : (1 : ℚ) < 2)).mp h
  have ha := hlt (lt_of_le_of_lt h1 h4)
  have hb := hlt (lt_of_le_of_lt h3 h2)
  omega

theorem roundNearestEven_eq_of_near {x : ℚ} {n : ℤ} (h1 : (n : ℚ) - 1 / 2 < x)
    (h2 : x < (n : ℚ) + 1 / 2) : roundNearestEven x = n := by
  have hf1 : n - 1 ≤ ⌊x⌋ := by
    apply Int.le_floor.mpr
    push_cast; linarith
  have hf2 : ⌊x⌋ ≤ n := by
    have : ⌊x⌋ < n + 1 := by
      apply Int.floor_lt.mpr
      push_cast; linarith
    omega
  have hfl : (⌊x⌋ : ℚ) ≤ x := Int.floor_le x
  have hfu : x < (⌊x⌋ : ℚ) + 1 := Int.lt_floor_add_one x
  unfold roundNearestEven
  simp only
  rcases (by omega : ⌊x⌋ = n ∨ ⌊x⌋ = n - 1) with h | h
  · rw [h]
    rw [if_pos (by linarith)]
  · rw [h]
    have hc : ((n - 1 : ℤ) : ℚ) = (n : ℚ) - 1 := by push_cast; ring
    rw [if_neg (by rw [hc]; linarith), if_pos (by rw [hc]; linarith)]
    ring

theorem roundNearestEven_intCast (n : ℤ) : roundNearestEven (n : ℚ) = n :=
  roundNearestEven_eq_of_near (by linarith) (by linarith)

theorem abs_roundNearestEven_sub_le (x : ℚ) : |(roundNearestEven x : ℚ) - x| ≤ 1 / 2 := by
  have hfl : (⌊x⌋ : ℚ) ≤ x := Int.floor_le x
  have hfu : x < (⌊x⌋ : ℚ) + 1 := Int.lt_floor_add_one x
  unfold roundNearestEven
  simp only
  split_ifs with h1 h2 h3
  · rw [abs_le]; constructor <;> linarith
  · rw [abs_le]; push_cast; constructor <;> linarith
  · rw [abs_le]; constructor <;> linarith
  · rw [abs_le]; push_cast; constructor <;> linarith

theorem abs_roundMag_sub_le (q : ℚ) : |roundMag q - q| ≤ 2 ^ ulpExp q / 2 := by
  have hp : (0 : ℚ) < 2 ^ ulpExp q := by positivity
  have h := abs_roundNearestEven_sub_le (q / 2 ^ ulpExp q)
  have e : roundMag q - q =
      ((roundNearestEven (q / 2 ^ ulpExp q) : ℚ) - q / 2 ^ ulpExp q) * 2 ^ ulpExp q := by
    unfold roundMag; field_simp
  rw [e, abs_mul, abs_of_pos hp]
  calc _ ≤ 1 / 2 * 2 ^ ulpExp q := mul_le_mul_of_nonneg_right h hp.le
    _ = 2 ^ ulpExp q / 2 := by ring

theorem ulpExp_le_of_lt {q : ℚ} {K : ℤ} (hq : 0 < q) (h : q < 2 ^ K) :
    ulpExp q ≤ max (K - 1) (-126) - 23 := by
  have h1 := (floorLog2_spec hq).1
  have : floorLog2 q < K :=
    (zpow_lt_zpow_iff_right₀ (by norm_num : (1 : ℚ) < 2)).mp (lt_of_le_of_lt h1 h)
  unfold ulpExp
  omega

/-- Evaluating `roundMag` from a bracketing of the argument. -/
theorem roundMag_eq_of {q : ℚ} (k n : ℤ) (h1 : (2 : ℚ) ^ k ≤ q) (h2 : q < (2 : ℚ) ^ (k + 1))
    (hn1 : ((n : ℚ) - 1 / 2) * 2 ^ (max k (-126) - 23) < q)
    (hn2 : q < ((n : ℚ) + 1 / 2) * 2 ^ (max k (-126) - 23)) :
    roundMag q = (n : ℚ) * 2 ^ (max k (-126) - 23) := by
  have he : ulpExp q = max k (-126) - 23 := by
    unfold ulpExp; rw [floorLog2_eq h1 h2]
  have hp : (0 : ℚ) < 2 ^ (max k (-126) - 23) := by positivity
  unfold roundMag
  rw [he, roundNearestEven_eq_of_near]
  · rw [lt_div_iff₀ hp]; exact hn1
  · rw [div_lt_iff₀ hp]; exact hn2

namespace F32

theorem round_false_eq_fin {q : ℚ} (h0 : roundMag q ≠ 0) (h1 : roundMag q < 2 ^ 128) :
    round false q = fin (roundMag q) := by
  simp [round, h0, not_le.mpr h1]

theorem roundMag_err_le {q : ℚ} {K : ℤ} (hq : 0 < q) (h : q < 2 ^ K) (hK : -125 ≤ K) :
    |roundMag q - q| ≤ 2 ^ (K - 25) := by
  have h1 := abs_roundMag_sub_le q
  have h2 := ulpExp_le_of_lt hq h
  have h3 : ulpExp q ≤ K - 24 := by
    have : max (K - 1) (-126) = K - 1 := max_eq_left (by omega)
    omega
  have h4 : (2 : ℚ) ^ ulpExp q ≤ 2 ^ (K - 24) :=
    zpow_le_zpow_right₀ (by norm_num) h3
  have h5 : (2 : ℚ) ^ (K - 24) = 2 * 2 ^ (K - 25) := by
    rw [show K - 24 = (K - 25) + 1 by ring, zpow_add_one₀ (by norm_num : (2 : ℚ) ≠ 0)]
    ring
  linarith

theorem div_pos_fin {a b : ℚ} (ha : 0 < a) (hb : 0 < b) :
    div (fin a) (fin b) = round false (a / b) := by
  have h1 : ¬ a < 0 := not_lt.mpr ha.le
  have h2 : ¬ b < 0 := not_lt.mpr hb.le
  simp [div, isZero, hb.ne', signBit, h1, h2, mag, toRat, abs_of_pos ha, abs_of_pos hb]

theorem add_pos_fin {a b : ℚ} (ha : 0 < a) (hb : 0 < b) :
    add (fin a) (fin b) = round false (a + b) := by
  have h : 0 < a + b := add_pos ha hb
  simp [add, toRat, h.ne', not_lt.mpr h.le, abs_of_pos h]

end F32

/-- One iteration of the "steps debug" loop inside the slider ranges advances the radius
by at least `1 / 128`. -/
theorem stepsDebug_step {sv rv : ℚ} (hs1 : 1 / 2 ≤ sv) (hr1 : sv ≤ rv) (hr2 : rv < 50) :
    ∃ r' : ℚ, F32.add (F32.fin rv) (F32.div (F32.fin sv) (F32.fin rv)) = F32.fin r'
      ∧ rv + 1 / 128 ≤ r' := by
  have hsv : 0 < sv := by linarith
  have hrv : 0 < rv := by linarith
  have hq0 : 0 < sv / rv := div_pos hsv hrv
  have hq1 : 1 / 100 ≤ sv / rv := by
    rw [le_div_iff₀ hrv]; linarith
  have hq2 : sv / rv ≤ 1 := by
    rw [div_le_iff₀ hrv]; linarith
  have he := F32.roundMag_err_le (K := 1) hq0 (by norm_num; linarith) (by norm_num)
  rw [abs_le] at he
  have hc : (2 : ℚ) ^ ((1 : ℤ) - 25) = 1 / 16777216 := by norm_num
  rw [hc] at he
  set d := roundMag (sv / rv) with hd
  have hd0 : 0 < d := by linarith [he.1]
  have hdiv : F32.div (F32.fin sv) (F32.fin rv) = F32.fin d := by
    rw [F32.div_pos_fin hsv hrv]
    exact F32.round_false_eq_fin hd0.ne' (by linarith [he.2, (by norm_num : (2:ℚ) < 2 ^ 128)])
  have hsum0 : 0 < rv + d := by linarith
  have he2 := F32.roundMag_err_le (K := 6) hsum0 (by norm_num; linarith [he.2]) (by norm_num)
  rw [abs_le] at he2
  have hc2 : (2 : ℚ) ^ ((6 : ℤ) - 25) = 1 / 524288 := by norm_num
  rw [hc2] at he2
  have hpos : 0 < roundMag (rv + d) := by linarith [he2.1, he.1]
  refine ⟨roundMag (rv + d), ?_, by linarith [he2.1, he.1]⟩
  rw [hdiv, F32.add_pos_fin hrv hd0]
  exact F32.round_false_eq_fin hpos.ne'
    (by linarith [he2.2, he.2, (by norm_num : (64:ℚ) < 2 ^ 128)])

namespace F32

theorem exists_fin_of_le_of_le {x : F32} {a b : ℚ} (ha : 0 < a) (h1 : le (fin a) x = true)
    (h2 : le x (fin b) = true) : ∃ v : ℚ, x = fin v ∧ a ≤ v ∧ v ≤ b := by
  cases x with
  | fin v => exact ⟨v, rfl, by simpa [le, toRat] using h1, by simpa [le, toRat] using h2⟩
  | negZero =>
    have h3 : a ≤ 0 := by simpa [le, toRat] using h1
    linarith
  | inf s => cases s <;> simp [le] at h1 h2
  | nan => simp [le] at h1

theorem lt_fin_fin (a b : ℚ) : lt (fin a) (fin b) = decide (a < b) := rfl

theorem le_fin_fin (a b : ℚ) : le (fin a) (fin b) = decide (a ≤ b) := rfl

end F32

namespace ExampleBokeh

theorem stepsDebugLoop_of_not_lt {m s r : F32} (h : F32.lt r m = false) (fuel c : ℕ) :
    stepsDebugLoop m s (fuel + 1) r c = some c := by
  simp [stepsDebugLoop, h]

theorem stepsDebugLoop_of_lt {m s r : F32} (h : F32.lt r m = true) (fuel c : ℕ) :
    stepsDebugLoop m s (fuel + 1) r c =
      stepsDebugLoop m s fuel (F32.add r (F32.div s r)) (c + 1) := by
  simp [stepsDebugLoop, h]

/-- Inside the slider ranges the loop leaves after at most `N` iterations when the radius
is within `N / 128` of the bound, and the radius grows in every iteration it runs. -/
theorem stepsDebugLoop_terminates {sv mv : ℚ} (hs1 : 1 / 2 ≤ sv) (hm2 : mv ≤ 50) :
    ∀ (N k c : ℕ) (rv : ℚ), stepsRadius (F32.fin sv) k = F32.fin rv → sv ≤ rv →
      mv - rv ≤ (N : ℚ) / 128 →
      ∃ j : ℕ, j ≤ N ∧
        (∀ fuel : ℕ, j < fuel →
          stepsDebugLoop (F32.fin mv) (F32.fin sv) fuel (stepsRadius (F32.fin sv) k) c
            = some (c + j)) ∧
        (∀ i : ℕ, i < j →
          F32.lt (stepsRadius (F32.fin sv) (k + i)) (F32.fin mv) = true ∧
          F32.lt (stepsRadius (F32.fin sv) (k + i)) (stepsRadius (F32.fin sv) (k + i + 1))
            = true) ∧
        F32.lt (stepsRadius (F32.fin sv) (k + j)) (F32.fin mv) = false := by
  intro N
  induction N with
  | zero =>
    intro k c rv hk _ hN
    have hle : mv ≤ rv := by simp at hN; linarith
    have hlt : F32.lt (stepsRadius (F32.fin sv) k) (F32.fin mv) = false := by
      rw [hk, F32.lt_fin_fin]; simp [hle]
    refine ⟨0, le_refl _, ?_, ?_, by simpa using hlt⟩
    · intro fuel hf
      obtain ⟨f, rfl⟩ := Nat.exists_eq_succ_of_ne_zero (by omega : fuel ≠ 0)
      simpa using stepsDebugLoop_of_not_lt hlt f c
    · intro i hi; omega
  | succ N ih =>
    intro k c rv hk hr hN
    by_cases hlt : rv < mv
    · obtain ⟨r', hstep, hr'⟩ := stepsDebug_step hs1 hr (lt_of_lt_of_le hlt hm2)
      have hk1 : stepsRadius (F32.fin sv) (k + 1) = F32.fin r' := by
        simp only [stepsRadius]; rw [hk]; exact hstep
      have hN' : mv - r' ≤ (N : ℚ) / 128 := by
        push_cast at hN; linarith
      obtain ⟨j, hj, hrun, htrace, hexit⟩ := ih (k + 1) (c + 1) r' hk1 (by linarith) hN'
      have hltk : F32.lt (stepsRadius (F32.fin sv) k) (F32.fin mv) = true := by
        rw [hk, F32.lt_fin_fin]; simp [hlt]
      refine ⟨j + 1, by omega, ?_, ?_, ?_⟩
      · intro fuel hf
        obtain ⟨f, rfl⟩ := Nat.exists_eq_succ_of_ne_zero (by omega : fuel ≠ 0)
        rw [stepsDebugLoop_of_lt hltk]
        have := hrun f (by omega)
        simp only [stepsRadius] at this
        rw [this]; congr 1; omega
      · intro i hi
        cases i with
        | zero =>
          refine ⟨by simpa using hltk, ?_⟩
          simp only [Nat.add_zero]
          rw [hk1, hk, F32.lt_fin_fin]
          simp; linarith
        | succ i =>
          have := htrace i (by omega)
          have e : k + (i + 1) = k + 1 + i := by omega
          rw [e]; exact this
      · have e : k + (j + 1) = k + 1 + j := by omega
        rw [e]; exact hexit
    · have hle : mv ≤ rv := not_lt.mp hlt
      have hlt' : F32.lt (stepsRadius (F32.fin sv) k) (F32.fin mv) = false := by
        rw [hk, F32.lt_fin_fin]; simp [hle]
      refine ⟨0, by omega, ?_, ?_, by simpa using hlt'⟩
      · intro fuel hf
        obtain ⟨f, rfl⟩ := Nat.exists_eq_succ_of_ne_zero (by omega : fuel ≠ 0)
        simpa using stepsDebugLoop_of_not_lt hlt' f c
      · intro i hi; omega

/-- The "steps debug" loop for settings inside their slider ranges. -/
theorem stepsDebug_of_inRange {m r : F32} (hm1 : F32.le (F32.fin 10) m = true)
    (hm2 : F32.le m (F32.fin 50) = true) (hr1 : F32.le (F32.fin (1 / 2)) r = true)
    (hr2 : F32.le r (F32.fin 4) = true) :
    ∃ count : ℕ, (∀ fuel : ℕ, count < fuel → stepsDebug fuel m r = some count) ∧
      0 < count ∧ count ≤ 6400 ∧
      (∀ i : ℕ, i < count → F32.lt (stepsRadius r i) m = true ∧
        F32.lt (stepsRadius r i) (stepsRadius r (i + 1)) = true) ∧
      F32.lt (stepsRadius r count) m = false := by
  obtain ⟨mv, rfl, hmv1, hmv2⟩ := F32.exists_fin_of_le_of_le (by norm_num) hm1 hm2
  obtain ⟨sv, rfl, hsv1, hsv2⟩ := F32.exists_fin_of_le_of_le (by norm_num) hr1 hr2
  obtain ⟨j, hj, hrun, htrace, hexit⟩ :=
    stepsDebugLoop_terminates hsv1 hmv2 6400 0 0 sv rfl (le_refl _) (by norm_num; linarith)
  refine ⟨j, ?_, ?_, hj, ?_, ?_⟩
  · intro fuel hf
    have := hrun fuel hf
    simpa [stepsDebug, stepsRadius] using this
  · rcases Nat.eq_zero_or_pos j with h0 | h0
    · subst h0
      have : F32.lt (F32.fin sv) (F32.fin mv) = false := by simpa [stepsRadius] using hexit
      rw [F32.lt_fin_fin] at this
      simp at this
      linarith
    · exact h0
  · intro i hi
    simpa using htrace i hi
  · simpa using hexit

end ExampleBokeh

theorem roundMag_zero : roundMag 0 = 0 := by
  unfold roundMag
  rw [zero_div]
  have := roundNearestEven_intCast 0
  simp only [Int.cast_zero] at this
  rw [this]; simp

theorem roundMag_of_int_mul {r : ℚ} {m e : ℤ} (h : r = (m : ℚ) * 2 ^ e)
    (hle : ulpExp r ≤ e) : roundMag r = r := by
  have hd : ((e - ulpExp r).toNat : ℤ) = e - ulpExp r := Int.toNat_of_nonneg (by omega)
  have hp : (0 : ℚ) < 2 ^ ulpExp r := by positivity
  have h2 : (2 : ℚ) ^ e = 2 ^ (e - ulpExp r).toNat * 2 ^ ulpExp r := by
    rw [← zpow_natCast, hd, ← zpow_add₀ (by norm_num : (2 : ℚ) ≠ 0)]; congr 1; ring
  have h1 : r / 2 ^ ulpExp r = ((m * 2 ^ (e - ulpExp r).toNat : ℤ) : ℚ) := by
    push_cast
    rw [div_eq_iff hp.ne', mul_assoc, ← h2, h]
  unfold roundMag
  rw [h1, roundNearestEven_intCast]
  push_cast
  rw [mul_assoc, ← h2, h]

theorem roundMag_idem {q : ℚ} (hq : 0 ≤ q) : roundMag (roundMag q) = roundMag q := by
  rcases hq.eq_or_lt with h0 | hpos
  · rw [← h0, roundMag_zero, roundMag_zero]
  have hn0 : 0 ≤ roundNearestEven (q / 2 ^ ulpExp q) :=
    roundNearestEven_nonneg (div_nonneg hq (by positivity))
  have hr : roundMag q = (roundNearestEven (q / 2 ^ ulpExp q) : ℚ) * 2 ^ ulpExp q := rfl
  set n := roundNearestEven (q / 2 ^ ulpExp q) with hn
  set Lm := max (floorLog2 q) (-126) with hLm
  have he : ulpExp q = Lm - 23 := rfl
  have hpe : (0 : ℚ) < 2 ^ ulpExp q := by positivity
  rcases hn0.eq_or_lt with hz | hnpos
  · rw [hr, ← hz]; simp [roundMag_zero]
  have hrpos : 0 < roundMag q := by
    rw [hr]; exact mul_pos (by exact_mod_cast hnpos) hpe
  -- the significand is at most `2 ^ 24`
  have hq2 : q < 2 ^ (Lm + 1) := by
    have h1 := (floorLog2_spec hpos).2
    have h2 : (2 : ℚ) ^ (floorLog2 q + 1) ≤ 2 ^ (Lm + 1) :=
      zpow_le_zpow_right₀ (by norm_num) (by omega)
    linarith
  have hsplit : (2 : ℚ) ^ (Lm + 1) = 2 ^ (24 : ℕ) * 2 ^ ulpExp q := by
    rw [← zpow_natCast, ← zpow_add₀ (by norm_num : (2 : ℚ) ≠ 0), he]; congr 1; push_cast; ring
  have hx : q / 2 ^ ulpExp q < 2 ^ (24 : ℕ) := by
    rw [div_lt_iff₀ hpe, ← hsplit]; exact hq2
  have hnle : n ≤ 2 ^ (24 : ℕ) := by
    have h1 := abs_roundNearestEven_sub_le (q / 2 ^ ulpExp q)
    rw [abs_le] at h1
    have h2 : (n : ℚ) < 2 ^ (24 : ℕ) + 1 := by rw [hn]; linarith [h1.2]
    have h3 : n < 2 ^ (24 : ℕ) + 1 := by exact_mod_cast h2
    omega
  rcases hnle.eq_or_lt with heq | hlt
  · -- rounded up to the next power of two
    have hr2 : roundMag q = 2 ^ (Lm + 1) := by
      rw [hr, heq, hsplit]; push_cast; ring
    have hfl : floorLog2 (roundMag q) = Lm + 1 := by
      apply floorLog2_eq
      · rw [hr2]
      · rw [hr2]; exact zpow_lt_zpow_right₀ (by norm_num) (by omega)
    have hu : ulpExp (roundMag q) = Lm + 1 - 23 := by
      unfold ulpExp; rw [hfl]; omega
    apply roundMag_of_int_mul (m := 2 ^ (23 : ℕ)) (e := Lm + 1 - 23)
    · rw [hr2]; push_cast
      rw [show (8388608 : ℚ) = 2 ^ (23 : ℤ) by norm_num,
        ← zpow_add₀ (by norm_num : (2 : ℚ) ≠ 0)]
      congr 1; ring
    · omega
  · have hr3 : roundMag q < 2 ^ (Lm + 1) := by
      rw [hr, hsplit]
      apply mul_lt_mul_of_pos_right _ hpe
      exact_mod_cast hlt
    have hu := ulpExp_le_of_lt hrpos hr3
    apply roundMag_of_int_mul (m := n) (e := ulpExp q) hr
    omega

namespace F32

theorem rep_fin_of {r : ℚ} (hr : roundMag |r| = |r|) (h2 : |r| < 2 ^ 128) : Rep (fin r) :=
  ⟨hr, h2⟩

theorem rep_signedZero (neg : Bool) : Rep (signedZero neg) := by
  cases neg
  · exact rep_fin_of (by rw [abs_zero, roundMag_zero]) (by rw [abs_zero]; positivity)
  · trivial

theorem rep_round (neg : Bool) {q : ℚ} (hq : 0 ≤ q) : Rep (round neg q) := by
  have hr := roundMag_nonneg hq
  have hi := roundMag_idem hq
  by_cases h1 : roundMag q = 0
  · have : round neg q = signedZero neg := by simp only [round, h1, if_true]
    rw [this]; exact rep_signedZero neg
  by_cases h2 : (2 : ℚ) ^ 128 ≤ roundMag q
  · have : round neg q = inf neg := by simp only [round, h1, h2, if_true, if_false]
    rw [this]; trivial
  cases neg
  · have : round false q = fin (roundMag q) := by
      simp only [round, h1, h2, if_false, Bool.false_eq_true]
    rw [this]
    exact rep_fin_of (by rw [abs_of_nonneg hr, hi]) (by rw [abs_of_nonneg hr]; exact lt_of_not_le h2)
  · have : round true q = fin (-roundMag q) := by
      simp only [round, h1, h2, if_false, if_true]
    rw [this]
    exact rep_fin_of (by rw [abs_neg, abs_of_nonneg hr, hi])
      (by rw [abs_neg, abs_of_nonneg hr]; exact lt_of_not_le h2)

theorem rep_div (x y : F32) : Rep (div x y) := by
  have hq : ∀ a b : F32, 0 ≤ a.mag / b.mag := fun a b =>
    div_nonneg a.mag_nonneg b.mag_nonneg
  cases x <;> cases y <;> simp only [div] <;>
    first
    | trivial
    | exact rep_signedZero _
    | (split_ifs <;> first | trivial | exact rep_round _ (hq _ _))

theorem mul_one_of_rep {x : F32} (h : Rep x) : mul x one = x := by
  cases x with
  | fin v =>
    obtain ⟨h1, h2⟩ := h
    have hm : mul (fin v) one = round (decide (v < 0)) |v| := by
      rw [mul_of_isFinite (x := fin v) (y := one) rfl rfl]
      have h10 : ¬ ((1 : ℚ) < 0) := by norm_num
      simp [one, signBit, mag, toRat, h10]
    rw [hm]
    unfold round
    simp only [h1]
    by_cases hv : v = 0
    · subst hv; simp [signedZero]
    · have : |v| ≠ 0 := abs_ne_zero.mpr hv
      rw [if_neg this, if_neg (not_le.mpr h2)]
      rcases lt_or_gt_of_ne hv with hneg | hpos
      · simp [hneg, abs_of_neg hneg]
      · simp [not_lt.mpr hpos.le, abs_of_pos hpos]
  | negZero =>
    rw [mul_of_isFinite (x := negZero) (y := one) rfl rfl]
    simp [one, signBit, mag, toRat, round, roundMag_zero, signedZero]
  | inf s =>
    have : mul (inf s) one = inf (xor s false) := rfl
    simpa using this
  | nan => rfl

theorem mul_negOne_of_rep {x : F32} (h : Rep x) : mul x (fin (-1)) = neg x := by
  cases x with
  | fin v =>
    obtain ⟨h1, h2⟩ := h
    have hm : mul (fin v) (fin (-1)) = round (!decide (v < 0)) |v| := by
      rw [mul_of_isFinite (x := fin v) (y := fin (-1)) rfl rfl]; simp [signBit, mag, toRat]
    rw [hm]
    unfold round
    simp only [h1]
    by_cases hv : v = 0
    · subst hv; simp [signedZero, neg]
    · have : |v| ≠ 0 := abs_ne_zero.mpr hv
      rw [if_neg this, if_neg (not_le.mpr h2)]
      rcases lt_or_gt_of_ne hv with hneg | hpos
      · simp [hneg, abs_of_neg hneg, neg, hv]
      · simp [not_lt.mpr hpos.le, abs_of_pos hpos, neg, hv]
  | negZero =>
    rw [mul_of_isFinite (x := negZero) (y := fin (-1)) rfl rfl]
    simp [signBit, mag, toRat, round, roundMag_zero, signedZero, neg]
  | inf s =>
    have : mul (inf s) (fin (-1)) = inf (xor s true) := rfl
    simpa [neg] using this
  | nan => rfl

end F32

theorem roundMag_half {q : ℚ} (hq : (2 : ℚ) ^ (-125 : ℤ) ≤ q) :
    roundMag (q / 2) = roundMag q / 2 := by
  have hpos : 0 < q := lt_of_lt_of_le (by positivity) hq
  obtain ⟨h1, h2⟩ := floorLog2_spec hpos
  have hL : -125 ≤ floorLog2 q := by
    have : (2 : ℚ) ^ (-125 : ℤ) < 2 ^ (floorLog2 q + 1) := lt_of_le_of_lt hq h2
    have := (zpow_lt_zpow_iff_right₀ (by norm_num : (1 : ℚ) < 2)).mp this
    omega
  have hfl : floorLog2 (q / 2) = floorLog2 q - 1 := by
    apply floorLog2_eq
    · rw [zpow_sub_one₀ (by norm_num : (2 : ℚ) ≠ 0)]
      rw [div_eq_mul_inv]
      exact mul_le_mul_of_nonneg_right h1 (by norm_num)
    · rw [sub_add_cancel, div_lt_iff₀ (by norm_num : (0 : ℚ) < 2)]
      rw [zpow_add_one₀ (by norm_num : (2 : ℚ) ≠ 0)] at h2
      exact h2
  have hu : ulpExp (q / 2) = ulpExp q - 1 := by
    unfold ulpExp; rw [hfl]; omega
  have hp : (2 : ℚ) ^ (ulpExp q - 1) = 2 ^ ulpExp q / 2 := by
    rw [zpow_sub_one₀ (by norm_num : (2 : ℚ) ≠ 0), div_eq_mul_inv]
  unfold roundMag
  rw [hu, hp]
  have : q / 2 / (2 ^ ulpExp q / 2) = q / 2 ^ ulpExp q := by
    field_simp
  rw [this]; ring

namespace F32

theorem round_true_eq_fin {q : ℚ} (h0 : roundMag q ≠ 0) (h1 : roundMag q < 2 ^ 128) :
    round true q = fin (-roundMag q) := by
  simp [round, h0, not_le.mpr h1]

theorem mul_half_of_rep {v : ℚ} (h : Rep (fin v)) (hv : (2 : ℚ) ^ (-125 : ℤ) ≤ |v|) :
    mul (fin v) half = fin (v / 2) := by
  obtain ⟨h1, h2⟩ := h
  have hpos : 0 < |v| := lt_of_lt_of_le (by positivity) hv
  have hv0 : v ≠ 0 := abs_pos.mp hpos
  have h10 : ¬ ((1 : ℚ) / 2 < 0) := by norm_num
  have hm : mul (fin v) half = round (decide (v < 0)) (|v| / 2) := by
    rw [mul_of_isFinite (x := fin v) (y := half) rfl rfl]
    have : |(1 : ℚ) / 2| = 1 / 2 := abs_of_pos (by norm_num)
    simp only [half, signBit, mag, toRat, this]
    rw [show |v| * (1 / 2) = |v| / 2 by ring]
    have h20 : ¬ ((2 : ℚ) < 0) := by norm_num
    simp [h10, h20]
  rw [hm]
  have hr : roundMag (|v| / 2) = |v| / 2 := by rw [roundMag_half hv, h1]
  have hne : |v| / 2 ≠ 0 := (div_pos hpos (by norm_num)).ne'
  have hlt : ¬ ((2 : ℚ) ^ 128 ≤ |v| / 2) := by
    have : |v| / 2 < |v| := by linarith
    exact not_le.mpr (lt_trans this h2)
  have hlt2 : roundMag (|v| / 2) < 2 ^ 128 := by rw [hr]; exact lt_of_not_le hlt
  rcases lt_or_gt_of_ne hv0 with hneg | hp
  · simp only [hneg, decide_True]
    rw [round_true_eq_fin (by rw [hr]; exact hne) hlt2, hr, abs_of_neg hneg]
    congr 1; ring
  · simp only [not_lt.mpr hp.le, decide_False]
    rw [round_false_eq_fin (by rw [hr]; exact hne) hlt2, hr, abs_of_pos hp]

theorem lit_eq_fin_of {q : ℚ} (k n : ℤ) (hq : 0 < q) (h1 : (2 : ℚ) ^ k ≤ q)
    (h2 : q < (2 : ℚ) ^ (k + 1))
    (hn1 : ((n : ℚ) - 1 / 2) * 2 ^ (max k (-126) - 23) < q)
    (hn2 : q < ((n : ℚ) + 1 / 2) * 2 ^ (max k (-126) - 23))
    (hn0 : 0 < n) (hmax : (n : ℚ) * 2 ^ (max k (-126) - 23) < 2 ^ 128) :
    lit q = fin ((n : ℚ) * 2 ^ (max k (-126) - 23)) := by
  have hr := roundMag_eq_of k n h1 h2 hn1 hn2
  have hpos : (0 : ℚ) < (n : ℚ) * 2 ^ (max k (-126) - 23) :=
    mul_pos (by exact_mod_cast hn0) (by positivity)
  unfold lit
  rw [abs_of_pos hq]
  simp only [not_lt.mpr hq.le, decide_False]
  rw [round_false_eq_fin (by rw [hr]; exact hpos.ne') (by rw [hr]; exact hmax), hr]

theorem round_false_eq_of {q : ℚ} (k n : ℤ) (h1 : (2 : ℚ) ^ k ≤ q)
    (h2 : q < (2 : ℚ) ^ (k + 1))
    (hn1 : ((n : ℚ) - 1 / 2) * 2 ^ (max k (-126) - 23) < q)
    (hn2 : q < ((n : ℚ) + 1 / 2) * 2 ^ (max k (-126) - 23))
    (hn0 : 0 < n) (hmax : (n : ℚ) * 2 ^ (max k (-126) - 23) < 2 ^ 128) :
    round false q = fin ((n : ℚ) * 2 ^ (max k (-126) - 23)) := by
  have hr := roundMag_eq_of k n h1 h2 hn1 hn2
  have hpos : (0 : ℚ) < (n : ℚ) * 2 ^ (max k (-126) - 23) :=
    mul_pos (by exact_mod_cast hn0) (by positivity)
  rw [round_false_eq_fin (by rw [hr]; exact hpos.ne') (by rw [hr]; exact hmax), hr]

theorem lit_20 : lit 20 = fin 20 := by
  rw [lit_eq_fin_of 4 10485760] <;> norm_num

theorem lit_3856 : lit (3856 / 1000) = fin (4043309 / 1048576) := by
  rw [lit_eq_fin_of 1 16173236] <;> norm_num

end F32

namespace ExampleBokeh

theorem stepsDebug_stall_step :
    F32.add (F32.fin 1) (F32.div (F32.fin (1 / 2 ^ 30)) (F32.fin 1)) = F32.fin 1 := by
  rw [F32.div_pos_fin (by norm_num) (by norm_num)]
  rw [F32.round_false_eq_of (-30) 8388608 (by norm_num) (by norm_num) (by norm_num)
    (by norm_num) (by norm_num) (by norm_num)]
  rw [F32.add_pos_fin (by norm_num) (by norm_num)]
  rw [F32.round_false_eq_of 0 8388608 (by norm_num) (by norm_num) (by norm_num)
    (by norm_num) (by norm_num) (by norm_num)]
  norm_num

theorem stepsDebug_stall_first :
    F32.add (F32.fin (1 / 2 ^ 30)) (F32.div (F32.fin (1 / 2 ^ 30)) (F32.fin (1 / 2 ^ 30)))
      = F32.fin 1 := by
  rw [F32.div_pos_fin (by norm_num) (by norm_num)]
  rw [F32.round_false_eq_of 0 8388608 (by norm_num) (by norm_num) (by norm_num)
    (by norm_num) (by norm_num) (by norm_num)]
  rw [F32.add_pos_fin (by norm_num) (by norm_num)]
  rw [F32.round_false_eq_of 0 8388608 (by norm_num) (by norm_num) (by norm_num)
    (by norm_num) (by norm_num) (by norm_num)]
  norm_num

theorem stepsDebugLoop_stalled (fuel c : ℕ) :
    stepsDebugLoop (F32.fin 20) (F32.fin (1 / 2 ^ 30)) fuel (F32.fin 1) c = none := by
  induction fuel generalizing c with
  | zero => rfl
  | succ f ih =>
    have hlt : F32.lt (F32.fin 1) (F32.fin 20) = true := by
      rw [F32.lt_fin_fin]; norm_num
    rw [stepsDebugLoop_of_lt hlt, stepsDebug_stall_step]
    exact ih (c + 1)

end ExampleBokeh

/-! ## The scenario `radiusScale = 3.856f`, `maxBlurSize = 20`, evaluated -/

namespace ExampleBokeh

/-- One iteration of the loop body evaluated from brackets of the two rounded results. -/
theorem stepsDebug_step_eval {s r : ℚ} (k n j m : ℤ) (hs : 0 < s) (hr : 0 < r)
    (h1 : (2 : ℚ) ^ k ≤ s / r) (h2 : s / r < (2 : ℚ) ^ (k + 1))
    (h3 : ((n : ℚ) - 1 / 2) * 2 ^ (max k (-126) - 23) < s / r)
    (h4 : s / r < ((n : ℚ) + 1 / 2) * 2 ^ (max k (-126) - 23))
    (h5 : 0 < n) (h6 : (n : ℚ) * 2 ^ (max k (-126) - 23) < 2 ^ 128)
    (g1 : (2 : ℚ) ^ j ≤ r + (n : ℚ) * 2 ^ (max k (-126) - 23))
    (g2 : r + (n : ℚ) * 2 ^ (max k (-126) - 23) < (2 : ℚ) ^ (j + 1))
    (g3 : ((m : ℚ) - 1 / 2) * 2 ^ (max j (-126) - 23)
      < r + (n : ℚ) * 2 ^ (max k (-126) - 23))
    (g4 : r + (n : ℚ) * 2 ^ (max k (-126) - 23)
      < ((m : ℚ) + 1 / 2) * 2 ^ (max j (-126) - 23))
    (g5 : 0 < m) (g6 : (m : ℚ) * 2 ^ (max j (-126) - 23) < 2 ^ 128) :
    F32.add (F32.fin r) (F32.div (F32.fin s) (F32.fin r))
      = F32.fin ((m : ℚ) * 2 ^ (max j (-126) - 23)) := by
  have hd : (0 : ℚ) < (n : ℚ) * 2 ^ (max k (-126) - 23) :=
    mul_pos (by exact_mod_cast h5) (by positivity)
  rw [F32.div_pos_fin hs hr, F32.round_false_eq_of k n h1 h2 h3 h4 h5 h6,
    F32.add_pos_fin hr hd, F32.round_false_eq_of j m g1 g2 g3 g4 g5 g6]

/-- Unrolling one iteration of the loop. -/
theorem stepsDebugLoop_unroll {s : F32} {mv r t : ℚ} {n : ℕ} (hlt : r < mv)
    (hstep : F32.add (F32.fin r) (F32.div s (F32.fin r)) = F32.fin t)
    (h : ∀ fuel c : ℕ, n < fuel →
      stepsDebugLoop (F32.fin mv) s fuel (F32.fin t) c = some (c + n)) :
    ∀ fuel c : ℕ, n + 1 < fuel →
      stepsDebugLoop (F32.fin mv) s fuel (F32.fin r) c = some (c + (n + 1)) := by
  intro fuel c hf
  obtain ⟨f, rfl⟩ := Nat.exists_eq_succ_of_ne_zero (by omega : fuel ≠ 0)
  have hl : F32.lt (F32.fin r) (F32.fin mv) = true := by
    rw [F32.lt_fin_fin]; simp [hlt]
  rw [stepsDebugLoop_of_lt hl, hstep, h f (c + 1) (by omega)]
  congr 1; omega

set_option maxHeartbeats 4000000 in
/-- At the scenario values the loop leaves after exactly 50 iterations. -/
theorem stepsDebug_scenario (fuel : ℕ) (h : 50 < fuel) :
    stepsDebug fuel (F32.lit 20) (F32.lit (3856 / 1000)) = some 50 := by
  have e50 : ∀ fuel c : ℕ, 0 < fuel →
      stepsDebugLoop (F32.fin 20) (F32.fin (4043309 / 1048576)) fuel (F32.fin (10578683 / 524288)) c
        = some (c + 0) := by
    intro fuel c hf
    obtain ⟨f, rfl⟩ := Nat.exists_eq_succ_of_ne_zero (by omega : fuel ≠ 0)
    exact stepsDebugLoop_of_not_lt (by rw [F32.lt_fin_fin]; norm_num) f c
  have t49 : F32.add (F32.fin (10477521 / 524288))
      (F32.div (F32.fin (4043309 / 1048576)) (F32.fin (10477521 / 524288))) = F32.fin (10578683 / 524288) := by
    rw [stepsDebug_step_eval (-3) 12948763 (4) 10578683] <;> norm_num
  have e49 := stepsDebugLoop_unroll (by norm_num) t49 e50
  clear t49 e50
  have t48 : F32.add (F32.fin (10375363 / 524288))
      (F32.div (F32.fin (4043309 / 1048576)) (F32.fin (10375363 / 524288))) = F32.fin (10477521 / 524288) := by
    rw [stepsDebug_step_eval (-3) 13076259 (4) 10477521] <;> norm_num
  have e48 := stepsDebugLoop_unroll (by norm_num) t48 e49
  clear t48 e49
  have t47 : F32.add (F32.fin (10272179 / 524288))
      (F32.div (F32.fin (4043309 / 1048576)) (F32.fin (10272179 / 524288))) = F32.fin (10375363 / 524288) := by
    rw [stepsDebug_step_eval (-3) 13207610 (4) 10375363] <;> norm_num
  have e47 := stepsDebugLoop_unroll (by norm_num) t47 e48
  clear t47 e48
  have t46 : F32.add (F32.fin (10167937 / 524288))
      (F32.div (F32.fin (4043309 / 1048576)) (F32.fin (10167937 / 524288))) = F32.fin (10272179 / 524288) := by
    rw [stepsDebug_step_eval (-3) 13343015 (4) 10272179] <;> norm_num
  have e46 := stepsDebugLoop_unroll (by norm_num) t46 e47
  clear t46 e47
  have t45 : F32.add (F32.fin (2515651 / 131072))
      (F32.div (F32.fin (4043309 / 1048576)) (F32.fin (2515651 / 131072))) = F32.fin (10167937 / 524288) := by
    rw [stepsDebug_step_eval (-3) 13482687 (4) 10167937] <;> norm_num
  have e45 := stepsDebugLoop_unroll (by norm_num) t45 e46
  clear t45 e46
  have t44 : F32.add (F32.fin (622259 / 32768))
      (F32.div (F32.fin (4043309 / 1048576)) (F32.fin (622259 / 32768))) = F32.fin (2515651 / 131072) := by
    rw [stepsDebug_step_eval (-3) 13626856 (4) 10062604] <;> norm_num
  have e44 := stepsDebugLoop_unroll (by norm_num) t44 e45
  clear t44 e45
  have t43 : F32.add (F32.fin (9848521 / 524288))
      (F32.div (F32.fin (4043309 / 1048576)) (F32.fin (9848521 / 524288))) = F32.fin (622259 / 32768) := by
    rw [stepsDebug_step_eval (-3) 13775768 (4) 9956144] <;> norm_num
  have e43 := stepsDebugLoop_unroll (by norm_num) t43 e44
  clear t43 e44
  have t42 : F32.add (F32.fin (9739695 / 524288))
      (F32.div (F32.fin (4043309 / 1048576)) (F32.fin (9739695 / 524288))) = F32.fin (9848521 / 524288) := by
    rw [stepsDebug_step_eval (-3) 13929690 (4) 9848521] <;> norm_num
  have e42 := stepsDebugLoop_unroll (by norm_num) t42 e43
  clear t42 e43
  have t41 : F32.add (F32.fin (9629625 / 524288))
      (F32.div (F32.fin (4043309 / 1048576)) (F32.fin (9629625 / 524288))) = F32.fin (9739695 / 524288) := by
    rw [stepsDebug_step_eval (-3) 14088912 (4) 9739695] <;> norm_num
  have e41 := stepsDebugLoop_unroll (by norm_num) t41 e42
  clear t41 e42
  have t40 : F32.add (F32.fin (2379567 / 131072))
      (F32.div (F32.fin (4043309 / 1048576)) (F32.fin (2379567 / 131072))) = F32.fin (9629625 / 524288) := by
    rw [stepsDebug_step_eval (-3) 14253742 (4) 9629625] <;> norm_num
  have e40 := stepsDebugLoop_unroll (by norm_num) t40 e41
  clear t40 e41
  have t39 : F32.add (F32.fin (1175697 / 65536))
      (F32.div (F32.fin (4043309 / 1048576)) (F32.fin (1175697 / 65536))) = F32.fin (2379567 / 131072) := by
    rw [stepsDebug_step_eval (-3) 14424522 (4) 9518268] <;> norm_num
  have e39 := stepsDebugLoop_unroll (by norm_num) t39 e40
  clear t39 e40
  have t38 : F32.add (F32.fin (9291501 / 524288))
      (F32.div (F32.fin (4043309 / 1048576)) (F32.fin (9291501 / 524288))) = F32.fin (1175697 / 65536) := by
    rw [stepsDebug_step_eval (-3) 14601617 (4) 9405576] <;> norm_num
  have e38 := stepsDebugLoop_unroll (by norm_num) t38 e39
  clear t38 e39
  have t37 : F32.add (F32.fin (4587995 / 262144))
      (F32.div (F32.fin (4043309 / 1048576)) (F32.fin (4587995 / 262144))) = F32.fin (9291501 / 524288) := by
    rw [stepsDebug_step_eval (-3) 14785428 (4) 9291501] <;> norm_num
  have e37 := stepsDebugLoop_unroll (by norm_num) t37 e38
  clear t37 e38
  have t36 : F32.add (F32.fin (9058987 / 524288))
      (F32.div (F32.fin (4043309 / 1048576)) (F32.fin (9058987 / 524288))) = F32.fin (4587995 / 262144) := by
    rw [stepsDebug_step_eval (-3) 14976392 (4) 9175990] <;> norm_num
  have e36 := stepsDebugLoop_unroll (by norm_num) t36 e37
  clear t36 e37
  have t35 : F32.add (F32.fin (558777 / 32768))
      (F32.div (F32.fin (4043309 / 1048576)) (F32.fin (558777 / 32768))) = F32.fin (9058987 / 524288) := by
    rw [stepsDebug_step_eval (-3) 15174987 (4) 9058987] <;> norm_num
  have e35 := stepsDebugLoop_unroll (by norm_num) t35 e36
  clear t35 e36
  have t34 : F32.add (F32.fin (4410131 / 262144))
      (F32.div (F32.fin (4043309 / 1048576)) (F32.fin (4410131 / 262144))) = F32.fin (558777 / 32768) := by
    rw [stepsDebug_step_eval (-3) 15381735 (4) 8940432] <;> norm_num
  have e34 := stepsDebugLoop_unroll (by norm_num) t34 e35
  clear t34 e35
  have t33 : F32.add (F32.fin (8698409 / 524288))
      (F32.div (F32.fin (4043309 / 1048576)) (F32.fin (8698409 / 524288))) = F32.fin (4410131 / 262144) := by
    rw [stepsDebug_step_eval (-3) 15597213 (4) 8820262] <;> norm_num
  have e33 := stepsDebugLoop_unroll (by norm_num) t33 e34
  clear t33 e34
  have t32 : F32.add (F32.fin (8574799 / 524288))
      (F32.div (F32.fin (4043309 / 1048576)) (F32.fin (8574799 / 524288))) = F32.fin (8698409 / 524288) := by
    rw [stepsDebug_step_eval (-3) 15822054 (4) 8698409] <;> norm_num
  have e32 := stepsDebugLoop_unroll (by norm_num) t32 e33
  clear t32 e33
  have t31 : F32.add (F32.fin (4224677 / 262144))
      (F32.div (F32.fin (4043309 / 1048576)) (F32.fin (4224677 / 262144))) = F32.fin (8574799 / 524288) := by
    rw [stepsDebug_step_eval (-3) 16056960 (4) 8574799] <;> norm_num
  have e31 := stepsDebugLoop_unroll (by norm_num) t31 e32
  clear t31 e32
  have t30 : F32.add (F32.fin (16643979 / 1048576))
      (F32.div (F32.fin (4043309 / 1048576)) (F32.fin (16643979 / 1048576))) = F32.fin (4224677 / 262144) := by
    rw [stepsDebug_step_eval (-3) 16302705 (4) 8449354] <;> norm_num
  have e30 := stepsDebugLoop_unroll (by norm_num) t30 e31
  clear t30 e31
  have t29 : F32.add (F32.fin (16385227 / 1048576))
      (F32.div (F32.fin (4043309 / 1048576)) (F32.fin (16385227 / 1048576))) = F32.fin (16643979 / 1048576) := by
    rw [stepsDebug_step_eval (-3) 16560153 (3) 16643979] <;> norm_num
  have e29 := stepsDebugLoop_unroll (by norm_num) t29 e30
  clear t29 e30
  have t28 : F32.add (F32.fin (8061127 / 524288))
      (F32.div (F32.fin (4043309 / 1048576)) (F32.fin (8061127 / 524288))) = F32.fin (16385227 / 1048576) := by
    rw [stepsDebug_step_eval (-2) 8415135 (3) 16385227] <;> norm_num
  have e28 := stepsDebugLoop_unroll (by norm_num) t28 e29
  clear t28 e29
  have t27 : F32.add (F32.fin (7927423 / 524288))
      (F32.div (F32.fin (4043309 / 1048576)) (F32.fin (7927423 / 524288))) = F32.fin (8061127 / 524288) := by
    rw [stepsDebug_step_eval (-2) 8557064 (3) 16122254] <;> norm_num
  have e27 := stepsDebugLoop_unroll (by norm_num) t27 e28
  clear t27 e28
  have t26 : F32.add (F32.fin (15582769 / 1048576))
      (F32.div (F32.fin (4043309 / 1048576)) (F32.fin (15582769 / 1048576))) = F32.fin (7927423 / 524288) := by
    rw [stepsDebug_step_eval (-2) 8706472 (3) 15854846] <;> norm_num
  have e26 := stepsDebugLoop_unroll (by norm_num) t26 e27
  clear t26 e27
  have t25 : F32.add (F32.fin (1913221 / 131072))
      (F32.div (F32.fin (4043309 / 1048576)) (F32.fin (1913221 / 131072))) = F32.fin (15582769 / 1048576) := by
    rw [stepsDebug_step_eval (-2) 8864040 (3) 15582769] <;> norm_num
  have e25 := stepsDebugLoop_unroll (by norm_num) t25 e26
  clear t25 e26
  have t24 : F32.add (F32.fin (3755891 / 262144))
      (F32.div (F32.fin (4043309 / 1048576)) (F32.fin (3755891 / 262144))) = F32.fin (1913221 / 131072) := by
    rw [stepsDebug_step_eval (-2) 9030543 (3) 15305768] <;> norm_num
  have e24 := stepsDebugLoop_unroll (by norm_num) t24 e25
  clear t24 e25
  have t23 : F32.add (F32.fin (7367925 / 524288))
      (F32.div (F32.fin (4043309 / 1048576)) (F32.fin (7367925 / 524288))) = F32.fin (3755891 / 262144) := by
    rw [stepsDebug_step_eval (-2) 9206862 (3) 15023564] <;> norm_num
  have e23 := stepsDebugLoop_unroll (by norm_num) t23 e24
  clear t23 e24
  have t22 : F32.add (F32.fin (14442287 / 1048576))
      (F32.div (F32.fin (4043309 / 1048576)) (F32.fin (14442287 / 1048576))) = F32.fin (7367925 / 524288) := by
    rw [stepsDebug_step_eval (-2) 9394006 (3) 14735850] <;> norm_num
  have e22 := stepsDebugLoop_unroll (by norm_num) t22 e23
  clear t22 e23
  have t21 : F32.add (F32.fin (7071251 / 524288))
      (F32.div (F32.fin (4043309 / 1048576)) (F32.fin (7071251 / 524288))) = F32.fin (14442287 / 1048576) := by
    rw [stepsDebug_step_eval (-2) 9593135 (3) 14442287] <;> norm_num
  have e21 := stepsDebugLoop_unroll (by norm_num) t21 e22
  clear t21 e22
  have t20 : F32.add (F32.fin (13836077 / 1048576))
      (F32.div (F32.fin (4043309 / 1048576)) (F32.fin (13836077 / 1048576))) = F32.fin (7071251 / 524288) := by
    rw [stepsDebug_step_eval (-2) 9805593 (3) 14142502] <;> norm_num
  have e20 := stepsDebugLoop_unroll (by norm_num) t20 e21
  clear t20 e21
  have t19 : F32.add (F32.fin (3380637 / 262144))
      (F32.div (F32.fin (4043309 / 1048576)) (F32.fin (3380637 / 262144))) = F32.fin (13836077 / 1048576) := by
    rw [stepsDebug_step_eval (-2) 10032942 (3) 13836077] <;> norm_num
  have e19 := stepsDebugLoop_unroll (by norm_num) t19 e20
  clear t19 e20
  have t18 : F32.add (F32.fin (13201391 / 1048576))
      (F32.div (F32.fin (4043309 / 1048576)) (F32.fin (13201391 / 1048576))) = F32.fin (3380637 / 262144) := by
    rw [stepsDebug_step_eval (-2) 10277018 (3) 13522548] <;> norm_num
  have e18 := stepsDebugLoop_unroll (by norm_num) t18 e19
  clear t18 e19
  have t17 : F32.add (F32.fin (804501 / 65536))
      (F32.div (F32.fin (4043309 / 1048576)) (F32.fin (804501 / 65536))) = F32.fin (13201391 / 1048576) := by
    rw [stepsDebug_step_eval (-2) 10539991 (3) 13201391] <;> norm_num
  have e17 := stepsDebugLoop_unroll (by norm_num) t17 e18
  clear t17 e18
  have t16 : F32.add (F32.fin (1566719 / 131072))
      (F32.div (F32.fin (4043309 / 1048576)) (F32.fin (1566719 / 131072))) = F32.fin (804501 / 65536) := by
    rw [stepsDebug_step_eval (-2) 10824447 (3) 12872016] <;> norm_num
  have e16 := stepsDebugLoop_unroll (by norm_num) t16 e17
  clear t16 e17
  have t15 : F32.add (F32.fin (6092915 / 524288))
      (F32.div (F32.fin (4043309 / 1048576)) (F32.fin (6092915 / 524288))) = F32.fin (1566719 / 131072) := by
    rw [stepsDebug_step_eval (-2) 11133500 (3) 12533752] <;> norm_num
  have e15 := stepsDebugLoop_unroll (by norm_num) t15 e16
  clear t15 e16
  have t14 : F32.add (F32.fin (11827363 / 1048576))
      (F32.div (F32.fin (4043309 / 1048576)) (F32.fin (11827363 / 1048576))) = F32.fin (6092915 / 524288) := by
    rw [stepsDebug_step_eval (-2) 11470937 (3) 12185830] <;> norm_num
  have e14 := stepsDebugLoop_unroll (by norm_num) t14 e15
  clear t14 e15
  have t13 : F32.add (F32.fin (11457319 / 1048576))
      (F32.div (F32.fin (4043309 / 1048576)) (F32.fin (11457319 / 1048576))) = F32.fin (11827363 / 1048576) := by
    rw [stepsDebug_step_eval (-2) 11841421 (3) 11827363] <;> norm_num
  have e13 := stepsDebugLoop_unroll (by norm_num) t13 e14
  clear t13 e14
  have t12 : F32.add (F32.fin (5537241 / 524288))
      (F32.div (F32.fin (4043309 / 1048576)) (F32.fin (5537241 / 524288))) = F32.fin (11457319 / 1048576) := by
    rw [stepsDebug_step_eval (-2) 12250770 (3) 11457319] <;> norm_num
  have e12 := stepsDebugLoop_unroll (by norm_num) t12 e13
  clear t12 e13
  have t11 : F32.add (F32.fin (333669 / 32768))
      (F32.div (F32.fin (4043309 / 1048576)) (F32.fin (333669 / 32768))) = F32.fin (5537241 / 524288) := by
    rw [stepsDebug_step_eval (-2) 12706355 (3) 11074482] <;> norm_num
  have e11 := stepsDebugLoop_unroll (by norm_num) t11 e12
  clear t11 e12
  have t10 : F32.add (F32.fin (2566089 / 262144))
      (F32.div (F32.fin (4043309 / 1048576)) (F32.fin (2566089 / 262144))) = F32.fin (333669 / 32768) := by
    rw [stepsDebug_step_eval (-2) 13217676 (3) 10677408] <;> norm_num
  have e10 := stepsDebugLoop_unroll (by norm_num) t10 e11
  clear t10 e11
  have t9 : F32.add (F32.fin (1229149 / 131072))
      (F32.div (F32.fin (4043309 / 1048576)) (F32.fin (1229149 / 131072))) = F32.fin (2566089 / 262144) := by
    rw [stepsDebug_step_eval (-2) 13797243 (3) 10264356] <;> norm_num
  have e9 := stepsDebugLoop_unroll (by norm_num) t9 e10
  clear t9 e10
  have t8 : F32.add (F32.fin (9381257 / 1048576))
      (F32.div (F32.fin (4043309 / 1048576)) (F32.fin (9381257 / 1048576))) = F32.fin (1229149 / 131072) := by
    rw [stepsDebug_step_eval (-2) 14461915 (3) 9833192] <;> norm_num
  have e8 := stepsDebugLoop_unroll (by norm_num) t8 e9
  clear t8 e9
  have t7 : F32.add (F32.fin (1113145 / 131072))
      (F32.div (F32.fin (4043309 / 1048576)) (F32.fin (1113145 / 131072))) = F32.fin (9381257 / 1048576) := by
    rw [stepsDebug_step_eval (-2) 15235093 (3) 9381257] <;> norm_num
  have e7 := stepsDebugLoop_unroll (by norm_num) t7 e8
  clear t7 e8
  have t6 : F32.add (F32.fin (8400459 / 1048576))
      (F32.div (F32.fin (4043309 / 1048576)) (F32.fin (8400459 / 1048576))) = F32.fin (1113145 / 131072) := by
    rw [stepsDebug_step_eval (-2) 16150420 (3) 8905160] <;> norm_num
  have e6 := stepsDebugLoop_unroll (by norm_num) t6 e7
  clear t6 e7
  have t5 : F32.add (F32.fin (15722265 / 2097152))
      (F32.div (F32.fin (4043309 / 1048576)) (F32.fin (15722265 / 2097152))) = F32.fin (8400459 / 1048576) := by
    rw [stepsDebug_step_eval (-1) 8629223 (3) 8400459] <;> norm_num
  have e5 := stepsDebugLoop_unroll (by norm_num) t5 e6
  clear t5 e6
  have t4 : F32.add (F32.fin (14557291 / 2097152))
      (F32.div (F32.fin (4043309 / 1048576)) (F32.fin (14557291 / 2097152))) = F32.fin (15722265 / 2097152) := by
    rw [stepsDebug_step_eval (-1) 9319793 (2) 15722265] <;> norm_num
  have e4 := stepsDebugLoop_unroll (by norm_num) t4 e5
  clear t4 e5
  have t3 : F32.add (F32.fin (1660037 / 262144))
      (F32.div (F32.fin (4043309 / 1048576)) (F32.fin (1660037 / 262144))) = F32.fin (14557291 / 2097152) := by
    rw [stepsDebug_step_eval (-1) 10215957 (2) 14557291] <;> norm_num
  have e3 := stepsDebugLoop_unroll (by norm_num) t3 e4
  clear t3 e4
  have t2 : F32.add (F32.fin (5924527 / 1048576))
      (F32.div (F32.fin (4043309 / 1048576)) (F32.fin (5924527 / 1048576))) = F32.fin (1660037 / 262144) := by
    rw [stepsDebug_step_eval (-1) 11449938 (2) 13280296] <;> norm_num
  have e2 := stepsDebugLoop_unroll (by norm_num) t2 e3
  clear t2 e3
  have t1 : F32.add (F32.fin (5091885 / 1048576))
      (F32.div (F32.fin (4043309 / 1048576)) (F32.fin (5091885 / 1048576))) = F32.fin (5924527 / 1048576) := by
    rw [stepsDebug_step_eval (-1) 13322270 (2) 11849054] <;> norm_num
  have e1 := stepsDebugLoop_unroll (by norm_num) t1 e2
  clear t1 e2
  have t0 : F32.add (F32.fin (4043309 / 1048576))
      (F32.div (F32.fin (4043309 / 1048576)) (F32.fin (4043309 / 1048576))) = F32.fin (5091885 / 1048576) := by
    rw [stepsDebug_step_eval (0) 8388608 (2) 10183770] <;> norm_num
  have e0 := stepsDebugLoop_unroll (by norm_num) t0 e1
  clear t0 e1
  rw [F32.lit_20, F32.lit_3856]
  simpa [stepsDebug] using e0 fuel 0 h

end ExampleBokeh

/-! ## Facts about frames -/

theorem toI32_of_lt {n : ℕ} (h : n < 2147483648) : toI32 n = (n : ℤ) := by
  have h1 : n % 4294967296 = n := Nat.mod_eq_of_lt (by omega)
  unfold toI32
  rw [h1, if_pos h]

theorem toU16_of_lt {n : ℕ} (h : n < 65536) : toU16 (n : ℤ) = n := by
  unfold toU16; omega

theorem toU32_of_lt {n : ℕ} (h : n < 4294967296) : toU32 (n : ℤ) = n := by
  unfold toU32; omega

theorem toU32_tdiv_two {n : ℕ} (h : n < 4294967296) :
    toU32 (Int.tdiv (n : ℤ) 2) = n / 2 := by
  rw [Int.tdiv_eq_ediv (by omega) (by norm_num)]
  unfold toU32; omega

namespace ExampleBokeh

theorem update_of_exit (env : Env) (fuel : ℕ) (s : ExampleBokeh) (inp : FrameInput)
    (h : inp.exit = true) :
    update env fuel s inp = some (s.processEvents inp,
      { passes := [], steps := none, submitted := false, result := false }) := by
  simp [update, h]

theorem update_of_minimized (env : Env) (fuel : ℕ) (s : ExampleBokeh) (inp : FrameInput)
    (h : inp.exit = false) (h0 : inp.width = 0 ∨ inp.height = 0) :
    update env fuel s inp = some (s.processEvents inp,
      { passes := [], steps := none, submitted := false, result := true }) := by
  have : (s.processEvents inp).m_width = 0 ∨ (s.processEvents inp).m_height = 0 := h0
  simp [update, h, this]

theorem update_of_render (env : Env) (fuel : ℕ) (s : ExampleBokeh) (inp : FrameInput)
    (h : inp.exit = false) (hw : inp.width ≠ 0) (hh : inp.height ≠ 0) :
    update env fuel s inp =
      (settingsPanel fuel (renderFrame env (s.processEvents inp) inp).1 inp.ui).map
        (fun p => ({ p.1 with m_currFrame := inp.frame },
          { passes := (renderFrame env (s.processEvents inp) inp).2, steps := some p.2
            submitted := true, result := true })) := by
  have : ¬ ((s.processEvents inp).m_width = 0 ∨ (s.processEvents inp).m_height = 0) := by
    intro h0; rcases h0 with h0 | h0
    · exact hw h0
    · exact hh h0
  simp only [update, h, this, if_false, Bool.false_eq_true]
  cases settingsPanel fuel (renderFrame env (s.processEvents inp) inp).1 inp.ui <;> rfl

theorem settingsPanel_pool {fuel : ℕ} {s s' : ExampleBokeh} {ui : Settings} {c : ℕ}
    (h : settingsPanel fuel s ui = some (s', c)) :
    s'.pool = s.pool ∧ s'.m_size = s.m_size ∧ s'.m_uniforms = s.m_uniforms ∧
      s'.m_proj = s.m_proj ∧ s'.m_proj2 = s.m_proj2 ∧ s'.m_view = s.m_view ∧
      stepsDebug fuel ui.m_maxBlurSize ui.m_radiusScale = some c := by
  unfold settingsPanel at h
  simp only at h
  cases hc : stepsDebug fuel ui.m_maxBlurSize ui.m_radiusScale with
  | none => rw [hc] at h; simp at h
  | some c' =>
    rw [hc] at h
    simp only [Option.some.injEq, Prod.mk.injEq] at h
    obtain ⟨h1, h2⟩ := h
    subst h1 h2
    exact ⟨rfl, rfl, rfl, rfl, rfl, rfl, rfl⟩

theorem settingsPanel_of_inRange (s : ExampleBokeh) {ui : Settings} (h : ui.InSliderRange) :
    ∃ count : ℕ, ∀ fuel : ℕ, count < fuel → ∃ s' : ExampleBokeh,
      settingsPanel fuel s ui = some (s', count) := by
  obtain ⟨h1, h2, h3, h4⟩ := h
  obtain ⟨count, hrun, -⟩ := stepsDebug_of_inRange h1 h2 h3 h4
  refine ⟨count, fun fuel hf => ?_⟩
  unfold settingsPanel
  simp only
  rw [hrun fuel hf]
  exact ⟨_, rfl⟩

/-- A frame whose settings stay inside the slider ranges finishes. -/
theorem update_returns (env : Env) (s : ExampleBokeh) (inp : FrameInput)
    (h : inp.ui.InSliderRange) :
    ∃ (fuel : ℕ) (s' : ExampleBokeh) (out : FrameOutput),
      update env fuel s inp = some (s', out) := by
  by_cases hexit : inp.exit = true
  · exact ⟨0, _, _, update_of_exit env 0 s inp hexit⟩
  have hexit' : inp.exit = false := by simpa using hexit
  by_cases h0 : inp.width = 0 ∨ inp.height = 0
  · exact ⟨0, _, _, update_of_minimized env 0 s inp hexit' h0⟩
  push_neg at h0
  obtain ⟨count, hc⟩ :=
    settingsPanel_of_inRange (renderFrame env (s.processEvents inp) inp).1 h
  obtain ⟨s', hs'⟩ := hc (count + 1) (by omega)
  have hu := update_of_render env (count + 1) s inp hexit' h0.1 h0.2
  rw [hs', Option.map_some'] at hu
  exact ⟨count + 1, _, _, hu⟩

theorem defaultSettings_inSliderRange : defaultSettings.InSliderRange := by
  refine ⟨?_, ?_, ?_, ?_⟩
  · show F32.le (F32.fin 10) (F32.lit 20) = true
    rw [F32.lit_20, F32.le_fin_fin]; exact decide_eq_true (by norm_num)
  · show F32.le (F32.lit 20) (F32.fin 50) = true
    rw [F32.lit_20, F32.le_fin_fin]; exact decide_eq_true (by norm_num)
  · show F32.le (F32.fin (1 / 2)) (F32.lit (3856 / 1000)) = true
    rw [F32.lit_3856, F32.le_fin_fin]; exact decide_eq_true (by norm_num)
  · show F32.le (F32.lit (3856 / 1000)) (F32.fin 4) = true
    rw [F32.lit_3856, F32.le_fin_fin]; exact decide_eq_true (by norm_num)

/-- What a rendered frame returns, in terms of `renderFrame`. -/
theorem update_render_inv {env : Env} {fuel : ℕ} {s s' : ExampleBokeh} {inp : FrameInput}
    {out : FrameOutput} (h : update env fuel s inp = some (s', out))
    (hexit : inp.exit = false) (hw : inp.width ≠ 0) (hh : inp.height ≠ 0) :
    out.passes = (renderFrame env (s.processEvents inp) inp).2 ∧
    out.submitted = true ∧ out.result = true ∧
    s'.pool = (renderFrame env (s.processEvents inp) inp).1.pool ∧
    s'.m_size = (renderFrame env (s.processEvents inp) inp).1.m_size ∧
    s'.m_uniforms = (renderFrame env (s.processEvents inp) inp).1.m_uniforms ∧
    s'.m_proj = (renderFrame env (s.processEvents inp) inp).1.m_proj ∧
    s'.m_proj2 = (renderFrame env (s.processEvents inp) inp).1.m_proj2 ∧
    s'.m_currFrame = inp.frame ∧
    out.steps = stepsDebug fuel inp.ui.m_maxBlurSize inp.ui.m_radiusScale := by
  rw [update_of_render env fuel s inp hexit hw hh] at h
  cases hp : settingsPanel fuel (renderFrame env (s.processEvents inp) inp).1 inp.ui with
  | none => rw [hp] at h; simp at h
  | some p =>
    obtain ⟨sp, c⟩ := p
    rw [hp] at h
    simp only [Option.map_some', Option.some.injEq, Prod.mk.injEq] at h
    obtain ⟨h1, h2⟩ := h
    obtain ⟨hp1, hp2, hp3, hp4, hp5, -, hp7⟩ := settingsPanel_pool hp
    subst h1 h2
    exact ⟨rfl, rfl, rfl, hp1, hp2, hp3, hp4, hp5, rfl, hp7.symm⟩

theorem resizeIfNeeded_m_size (s : ExampleBokeh) :
    s.resizeIfNeeded.m_size = (toI32 s.m_width, toI32 s.m_height) := by
  unfold resizeIfNeeded
  split_ifs with h
  · rfl
  · push_neg at h
    exact Prod.ext h.1 h.2.1

theorem createFramebuffers_pool_congr {t u : ExampleBokeh}
    (h : t.createFramebuffers.m_size = u.createFramebuffers.m_size) :
    t.createFramebuffers.pool = u.createFramebuffers.pool := by
  have h1 : toI32 t.m_width = toI32 u.m_width := congrArg Prod.fst h
  have h2 : toI32 t.m_height = toI32 u.m_height := congrArg Prod.snd h
  simp only [createFramebuffers, pool, h1, h2]

theorem resizeIfNeeded_allocated {s : ExampleBokeh} (h : s.Allocated) :
    s.resizeIfNeeded.pool = s.createFramebuffers.pool := by
  unfold resizeIfNeeded
  split_ifs with hc
  · rfl
  · push_neg at hc
    obtain ⟨t, ht1, ht2⟩ := h
    rw [ht2]
    apply createFramebuffers_pool_congr
    rw [← ht1]
    exact Prod.ext hc.1 hc.2.1

theorem renderFrame_pool (env : Env) (s : ExampleBokeh) (inp : FrameInput) :
    (renderFrame env s inp).1.pool = s.resizeIfNeeded.pool ∧
    (renderFrame env s inp).1.m_size = s.resizeIfNeeded.m_size := ⟨rfl, rfl⟩

end ExampleBokeh

/-! ## The sample projection, evaluated -/

namespace F32

theorem sub_pos_fin {a b : ℚ} (hb : 0 < b) (hab : b < a) :
    sub (fin a) (fin b) = round false (a - b) := by
  have h : 0 < a + -b := by linarith
  have hneg : neg (fin b) = fin (-b) := by simp [neg, hb.ne']
  unfold sub
  rw [hneg]
  simp [add, toRat, h.ne', not_lt.mpr h.le, abs_of_pos h, sub_eq_add_neg]

theorem mul_pos_fin {a b : ℚ} (ha : 0 < a) (hb : 0 < b) :
    mul (fin a) (fin b) = round false (a * b) := by
  rw [mul_of_isFinite (x := fin a) (y := fin b) rfl rfl]
  simp [signBit, mag, toRat, not_lt.mpr ha.le, not_lt.mpr hb.le, abs_of_pos ha, abs_of_pos hb]

theorem ofInt_1280 : ofInt 1280 = fin 1280 := by
  unfold ofInt
  have : ¬ ((1280 : ℤ) < 0) := by norm_num
  simp only [this, decide_False]
  rw [round_false_eq_of 10 10485760] <;> norm_num

theorem ofInt_720 : ofInt 720 = fin 720 := by
  unfold ofInt
  have : ¬ ((720 : ℤ) < 0) := by norm_num
  simp only [this, decide_False]
  rw [round_false_eq_of 9 11796480] <;> norm_num

theorem lit_cot : lit (17320508 / 10000000) = fin (14529495 / 8388608) := by
  rw [lit_eq_fin_of 0 14529495] <;> norm_num

theorem lit_near : lit (1 / 100) = fin (5368709 / 536870912) := by
  rw [lit_eq_fin_of (-7) 10737418] <;> norm_num

theorem lit_100 : lit 100 = fin 100 := by
  rw [lit_eq_fin_of 6 13107200] <;> norm_num

theorem aspect_1280_720 : div (fin 1280) (fin 720) = fin (14913081 / 8388608) := by
  rw [div_pos_fin (by norm_num) (by norm_num), round_false_eq_of 0 14913081] <;> norm_num

theorem aspect_720_1280 : div (fin 720) (fin 1280) = fin (9 / 16) := by
  rw [div_pos_fin (by norm_num) (by norm_num), round_false_eq_of (-1) 9437184] <;> norm_num

theorem width_1280_720 :
    div (fin (14529495 / 8388608)) (fin (14913081 / 8388608)) = fin (8172841 / 8388608) := by
  rw [div_pos_fin (by norm_num) (by norm_num), round_false_eq_of (-1) 16345682] <;> norm_num

theorem width_720_1280 :
    div (fin (14529495 / 8388608)) (fin (9 / 16)) = fin (12915107 / 4194304) := by
  rw [div_pos_fin (by norm_num) (by norm_num), round_false_eq_of 1 12915107] <;> norm_num

theorem far_sub_near :
    sub (fin 100) (fin (5368709 / 536870912)) = fin (13105889 / 131072) := by
  rw [sub_pos_fin (by norm_num) (by norm_num), round_false_eq_of 6 13105889] <;> norm_num

theorem far_div_diff : div (fin 100) (fin (13105889 / 131072)) = fin (8389447 / 8388608) := by
  rw [div_pos_fin (by norm_num) (by norm_num), round_false_eq_of 0 8389447] <;> norm_num

theorem near_mul_aa :
    mul (fin (5368709 / 536870912)) (fin (8389447 / 8388608)) = fin (2684623 / 268435456) := by
  rw [mul_pos_fin (by norm_num) (by norm_num), round_false_eq_of (-7) 10738492] <;> norm_num

end F32

theorem sampleMtxProj_width (fovy aspect near far : F32) (h : Bool) :
    sampleMtxProj fovy aspect near far h 0 = F32.div (F32.lit (17320508 / 10000000)) aspect := by
  simp [sampleMtxProj]

theorem sampleMtxProj_depth (fovy aspect near far : F32) :
    sampleMtxProj fovy aspect near far false 14
      = F32.neg (F32.mul near (F32.div far (F32.sub far near))) := by
  simp [sampleMtxProj]

theorem sampleMtxProj_14 (fovy aspect : F32) :
    sampleMtxProj fovy aspect (F32.lit (1 / 100)) (F32.lit 100) false 14
      = F32.fin (-(2684623 / 268435456)) := by
  rw [sampleMtxProj_depth, F32.lit_near, F32.lit_100, F32.far_sub_near, F32.far_div_diff,
    F32.near_mul_aa]
  simp [F32.neg]

namespace ExampleBokeh

theorem resizeIfNeeded_matrices (s : ExampleBokeh) :
    s.resizeIfNeeded.m_proj = s.m_proj ∧ s.resizeIfNeeded.m_proj2 = s.m_proj2 ∧
    s.resizeIfNeeded.m_fovY = s.m_fovY ∧ s.resizeIfNeeded.m_width = s.m_width ∧
    s.resizeIfNeeded.m_height = s.m_height ∧
    s.resizeIfNeeded.m_useBokehDof = s.m_useBokehDof ∧
    s.resizeIfNeeded.m_useSinglePassBokehDof = s.m_useSinglePassBokehDof := by
  unfold resizeIfNeeded
  split_ifs <;> exact ⟨rfl, rfl, rfl, rfl, rfl, rfl, rfl⟩

/-- What `updateUniforms` reads in a frame is what the previous frame (or `init`) left in
`m_proj` and `m_proj2`; the matrices for this frame's size are computed afterwards and go
to the forward view only. -/
theorem renderFrame_matrices (env : Env) (s : ExampleBokeh) (inp : FrameInput) :
    (renderFrame env s inp).1.m_uniforms.m_viewToProj = s.m_proj ∧
    (renderFrame env s inp).1.m_uniforms.m_depthUnpackConsts.1 = F32.neg (s.m_proj2 14) ∧
    (renderFrame env s inp).1.m_proj =
      env.mtxProj s.m_fovY (F32.div (F32.ofInt (toI32 s.m_width)) (F32.ofInt (toI32 s.m_height)))
        (F32.lit (1 / 100)) (F32.lit 100) inp.homogeneousDepth ∧
    (renderFrame env s inp).1.m_proj2 =
      env.mtxProj s.m_fovY (F32.div (F32.ofInt (toI32 s.m_width)) (F32.ofInt (toI32 s.m_height)))
        (F32.lit (1 / 100)) (F32.lit 100) false := by
  obtain ⟨h1, h2, h3, -⟩ := resizeIfNeeded_matrices s
  have h4 := resizeIfNeeded_m_size s
  refine ⟨?_, ?_, ?_, ?_⟩
  · show s.resizeIfNeeded.m_proj = s.m_proj
    exact h1
  · show F32.neg (s.resizeIfNeeded.m_proj2 14) = F32.neg (s.m_proj2 14)
    rw [h2]
  · show env.mtxProj s.resizeIfNeeded.m_fovY
      (F32.div (F32.ofInt s.resizeIfNeeded.m_size.1) (F32.ofInt s.resizeIfNeeded.m_size.2))
      (F32.lit (1 / 100)) (F32.lit 100) inp.homogeneousDepth = _
    rw [h3, h4]
  · show env.mtxProj s.resizeIfNeeded.m_fovY
      (F32.div (F32.ofInt s.resizeIfNeeded.m_size.1) (F32.ofInt s.resizeIfNeeded.m_size.2))
      (F32.lit (1 / 100)) (F32.lit 100) false = _
    rw [h3, h4]

theorem renderFrame_forward (env : Env) (s : ExampleBokeh) (inp : FrameInput) :
    ∃ p rest, (renderFrame env s inp).2 = p :: rest ∧ p.name = "forward scene" ∧
      p.uniforms = some (renderFrame env s inp).1.m_uniforms ∧
      p.transform = ViewTransform.scene inp.view (renderFrame env s inp).1.m_proj :=
  ⟨_, _, rfl, rfl, rfl, rfl⟩

end ExampleBokeh

namespace ExampleBokeh

/-- The views of a rendered frame with depth of field on and the multi-pass topology. -/
theorem renderFrame_passes_multipass (env : Env) (s : ExampleBokeh) (inp : FrameInput)
    (hdof : s.m_useBokehDof = true) (hmp : s.m_useSinglePassBokehDof = false) :
    (renderFrame env s inp).2.map (fun p => (p.view, p.name, p.rect, p.frameBuffer)) =
      [(0, "forward scene", (toU16 (toI32 s.m_width), toU16 (toI32 s.m_height)),
          FrameBufferRef.m_frameBuffer),
       (1, "linear depth", (toU16 s.m_width, toU16 s.m_height), FrameBufferRef.m_linearDepth),
       (2, "bokeh dof downsample", (toU16 ((s.m_width / 2 : ℕ) : ℤ),
          toU16 ((s.m_height / 2 : ℕ) : ℤ)), FrameBufferRef.m_dofQuarterInput),
       (3, "bokeh dof quarter", (toU16 ((s.m_width / 2 : ℕ) : ℤ),
          toU16 ((s.m_height / 2 : ℕ) : ℤ)), FrameBufferRef.m_dofQuarterOutput),
       (4, "bokeh dof combine", (toU16 s.m_width, toU16 s.m_height),
          FrameBufferRef.invalid)] := by
  obtain ⟨-, -, -, h4, h5, h6, h7⟩ := resizeIfNeeded_matrices s
  have h8 := resizeIfNeeded_m_size s
  simp only [renderFrame, drawDepthOfField, updateUniforms, h4, h5, h6, h7, h8, hdof, hmp,
    if_true, Bool.false_eq_true, if_false, List.map, List.cons_append, List.nil_append]

theorem resizeIfNeeded_keeps_allocated {s : ExampleBokeh} (h : s.Allocated) :
    s.resizeIfNeeded.Allocated := by
  unfold resizeIfNeeded
  split_ifs
  · exact ⟨s.destroyFramebuffers, rfl, rfl⟩
  · exact h

/-- A frame keeps `m_size` and the pool in step. -/
theorem update_allocated {env : Env} {fuel : ℕ} {s s' : ExampleBokeh} {inp : FrameInput}
    {out : FrameOutput} (ha : s.Allocated) (h : update env fuel s inp = some (s', out)) :
    s'.Allocated := by
  have hpe : (s.processEvents inp).Allocated := ha
  by_cases hexit : inp.exit = true
  · rw [update_of_exit env fuel s inp hexit] at h
    simp only [Option.some.injEq, Prod.mk.injEq] at h
    rw [← h.1]; exact hpe
  have hexit' : inp.exit = false := by simpa using hexit
  by_cases h0 : inp.width = 0 ∨ inp.height = 0
  · rw [update_of_minimized env fuel s inp hexit' h0] at h
    simp only [Option.some.injEq, Prod.mk.injEq] at h
    rw [← h.1]; exact hpe
  push_neg at h0
  obtain ⟨-, -, -, hp, hs, -⟩ := update_render_inv h hexit' h0.1 h0.2
  obtain ⟨t, ht1, ht2⟩ := resizeIfNeeded_keeps_allocated hpe
  exact ⟨t, by rw [hs]; exact ht1, by rw [hp]; exact ht2⟩

theorem init_allocated (env : Env) (w h : ℕ) (view : Mat) (hd : Bool) (mem : ExampleBokeh) :
    (init env w h view hd mem).Allocated :=
  ⟨_, rfl, rfl⟩

theorem createFramebuffers_half (s : ExampleBokeh) (hw : s.m_width < 65536)
    (hh : s.m_height < 65536) :
    s.createFramebuffers.pool.m_dofQuarterInput.m_texture =
      { width := s.m_width / 2, height := s.m_height / 2
        format := TextureFormat.RGBA16F, flags := bilinearFlags } ∧
    s.createFramebuffers.pool.m_dofQuarterOutput.m_texture =
      { width := s.m_width / 2, height := s.m_height / 2
        format := TextureFormat.RGBA16F, flags := bilinearFlags } := by
  have e1 : toU16 ((toU32 (Int.tdiv (toI32 s.m_width) 2) : ℕ) : ℤ) = s.m_width / 2 := by
    rw [toI32_of_lt (by omega), toU32_tdiv_two (by omega), toU16_of_lt (by omega)]
  have e2 : toU16 ((toU32 (Int.tdiv (toI32 s.m_height) 2) : ℕ) : ℤ) = s.m_height / 2 := by
    rw [toI32_of_lt (by omega), toU32_tdiv_two (by omega), toU16_of_lt (by omega)]
  simp only [createFramebuffers, pool, RenderTarget.init, e1, e2, and_self]

end ExampleBokeh

/-! ## Facts about what views read and write -/

namespace ExampleBokeh

/-- The views of a rendered frame, for each setting of the two toggles: name, program,
bound textures and frame buffer. -/
theorem renderFrame_passes_summary (env : Env) (s : ExampleBokeh) (inp : FrameInput) :
    (renderFrame env s inp).2.map (fun p => (p.name, p.program, p.reads, p.frameBuffer)) =
      [("forward scene", Program.m_forwardProgram,
          [TextureRef.m_groundTexture, TextureRef.m_normalTexture],
          FrameBufferRef.m_frameBuffer),
       ("linear depth", Program.m_linearDepthProgram, [TextureRef.frameBufferTexDepth],
          FrameBufferRef.m_linearDepth)] ++
      (if s.m_useBokehDof then
        (if s.m_useSinglePassBokehDof then
          [("bokeh dof single pass", Program.m_dofSinglePassProgram,
            [TextureRef.frameBufferTexColor, TextureRef.m_linearDepth],
            FrameBufferRef.invalid)]
        else
          [("bokeh dof downsample", Program.m_dofDownsampleProgram,
            [TextureRef.frameBufferTexColor, TextureRef.m_linearDepth],
            FrameBufferRef.m_dofQuarterInput),
           ("bokeh dof quarter", Program.m_dofQuarterProgram, [TextureRef.m_dofQuarterInput],
            FrameBufferRef.m_dofQuarterOutput),
           ("bokeh dof combine", Program.m_dofCombineProgram,
            [TextureRef.frameBufferTexColor, TextureRef.m_dofQuarterOutput],
            FrameBufferRef.invalid)])
      else
        [("display", Program.m_copyProgram, [TextureRef.frameBufferTexColor],
          FrameBufferRef.invalid)]) := by
  obtain ⟨-, -, -, -, -, h6, h7⟩ := resizeIfNeeded_matrices s
  cases hdof : s.m_useBokehDof <;> cases hsp : s.m_useSinglePassBokehDof <;>
    simp only [renderFrame, drawDepthOfField, updateUniforms, h6, h7, hdof, hsp, Pass.reads,
      if_true, Bool.false_eq_true, if_false, List.map, List.cons_append, List.nil_append]

/-- In the views of a rendered frame every render-target image sampled was written by an
earlier view. -/
theorem renderFrame_readsAfterWrites (env : Env) (s : ExampleBokeh) (inp : FrameInput) :
    readsAfterWrites [] (renderFrame env s inp).2 = true := by
  obtain ⟨-, -, -, -, -, h6, h7⟩ := resizeIfNeeded_matrices s
  cases hdof : s.m_useBokehDof <;> cases hsp : s.m_useSinglePassBokehDof <;>
    simp only [renderFrame, drawDepthOfField, updateUniforms, h6, h7, hdof, hsp,
      if_true, Bool.false_eq_true, if_false, List.cons_append, List.nil_append] <;> rfl

end ExampleBokeh

/-- What `readsAfterWrites` checks, said of every position of the list. -/
theorem readsAfterWrites_sound (l : List Pass) :
    ∀ written : List FrameBufferRef, readsAfterWrites written l = true →
      ∀ (pre : List Pass) (p : Pass) (post : List Pass), l = pre ++ p :: post →
        ∀ fb ∈ p.readsTargets,
          fb ≠ p.frameBuffer ∧ (fb ∈ written ∨ ∃ q ∈ pre, q.frameBuffer = fb) := by
  induction l with
  | nil =>
    intro written _ pre p post h
    simp at h
  | cons a l ih =>
    intro written hc pre p post h fb hfb
    simp only [readsAfterWrites, Bool.and_eq_true, List.all_eq_true, decide_eq_true_eq] at hc
    obtain ⟨ha, hl⟩ := hc
    cases pre with
    | nil =>
      simp only [List.nil_append, List.cons.injEq] at h
      obtain ⟨h1, -⟩ := h
      subst h1
      exact ⟨(ha fb hfb).2, Or.inl (ha fb hfb).1⟩
    | cons b pre =>
      simp only [List.cons_append, List.cons.injEq] at h
      obtain ⟨h1, h2⟩ := h
      subst h1
      obtain ⟨hne, hw⟩ := ih _ hl pre p post h2 fb hfb
      refine ⟨hne, ?_⟩
      rcases hw with hw | ⟨q, hq, hqf⟩
      · rcases List.mem_cons.1 hw with hw | hw
        · exact Or.inr ⟨a, List.mem_cons_self _ _, hw.symm⟩
        · exact Or.inl hw
      · exact Or.inr ⟨q, List.mem_cons_of_mem _ hq, hqf⟩

namespace ExampleBokeh

/-- The sizes `createFramebuffers` creates its seven textures at, for a window below
65536 in both directions. -/
theorem createFramebuffers_pool_sizes (s : ExampleBokeh) (hw : s.m_width < 65536)
    (hh : s.m_height < 65536) :
    s.createFramebuffers.pool.textures.map (fun t => (t.width, t.height)) =
      [(s.m_width, s.m_height), (s.m_width, s.m_height), (s.m_width, s.m_height),
       (s.m_width, s.m_height), (s.m_width, s.m_height),
       (s.m_width / 2, s.m_height / 2), (s.m_width / 2, s.m_height / 2)] ∧
    ∀ fb ∈ s.createFramebuffers.pool.frameBuffers, fb.alive = true := by
  have a1 : toU16 (toI32 s.m_width) = s.m_width := by
    rw [toI32_of_lt (by omega), toU16_of_lt hw]
  have a2 : toU16 (toI32 s.m_height) = s.m_height := by
    rw [toI32_of_lt (by omega), toU16_of_lt hh]
  have b1 : toU16 ((toU32 (toI32 s.m_width) : ℕ) : ℤ) = s.m_width := by
    rw [toI32_of_lt (by omega), toU32_of_lt (by omega), toU16_of_lt hw]
  have b2 : toU16 ((toU32 (toI32 s.m_height) : ℕ) : ℤ) = s.m_height := by
    rw [toI32_of_lt (by omega), toU32_of_lt (by omega), toU16_of_lt hh]
  have e1 : toU16 ((toU32 (Int.tdiv (toI32 s.m_width) 2) : ℕ) : ℤ) = s.m_width / 2 := by
    rw [toI32_of_lt (by omega), toU32_tdiv_two (by omega), toU16_of_lt (by omega)]
  have e2 : toU16 ((toU32 (Int.tdiv (toI32 s.m_height) 2) : ℕ) : ℤ) = s.m_height / 2 := by
    rw [toI32_of_lt (by omega), toU32_tdiv_two (by omega), toU16_of_lt (by omega)]
  constructor
  · simp only [createFramebuffers, pool, Pool.textures, RenderTarget.init, a1, a2, b1, b2,
      e1, e2, List.map]
  · intro fb hfb
    simp only [createFramebuffers, pool, Pool.frameBuffers, RenderTarget.init,
      List.mem_cons, List.mem_singleton, List.not_mem_nil, or_false] at hfb
    rcases hfb with h | h | h | h | h | h <;> rw [h]

end ExampleBokeh

/-! ## Facts about the sign of a binary32 product -/

/-- A magnitude of at least the smallest positive binary32 value does not round to zero. -/
theorem roundMag_pos_of_ge {q : ℚ} (h : (2 : ℚ) ^ (-149 : ℤ) ≤ q) : 0 < roundMag q := by
  have hq : 0 < q := lt_of_lt_of_le (by positivity) h
  have h1 := (floorLog2_spec hq).1
  have herr := abs_roundMag_sub_le q
  have hu : (2 : ℚ) ^ ulpExp q ≤ q := by
    unfold ulpExp
    rcases le_total (floorLog2 q) (-126) with hc | hc
    · rw [max_eq_right hc]
      exact le_trans (by norm_num) h
    · rw [max_eq_left hc]
      have h2 : (2 : ℚ) ^ (floorLog2 q - 23) ≤ 2 ^ floorLog2 q :=
        zpow_le_zpow_right₀ (by norm_num) (by omega)
      exact le_trans h2 h1
  have h3 := (abs_le.1 herr).1
  linarith

namespace F32

theorem toRat_signedZero (neg : Bool) : (signedZero neg).toRat = 0 := by
  cases neg <;> rfl

/-- A product that rounds to a zero does not compare below zero. -/
theorem lt_round_zero_of_zero (neg : Bool) {q : ℚ} (h : roundMag q = 0) :
    lt (round neg q) zero = false := by
  have e : round neg q = signedZero neg := by simp [round, h]
  rw [e]
  cases neg <;> simp [signedZero, lt, zero, toRat]

/-- A product that does not round to a zero compares below zero exactly when its sign
is negative. -/
theorem lt_round_zero_of_pos (neg : Bool) {q : ℚ} (h : 0 < roundMag q) :
    lt (round neg q) zero = neg := by
  have h0 : roundMag q ≠ 0 := h.ne'
  by_cases hbig : (2 : ℚ) ^ 128 ≤ roundMag q
  · have e : round neg q = inf neg := by simp [round, h0, hbig]
    rw [e]; rfl
  · cases neg with
    | false =>
      have e : round false q = fin (roundMag q) := by simp [round, h0, hbig]
      rw [e]
      simp [lt, zero, toRat, h.le]
    | true =>
      have e : round true q = fin (-roundMag q) := by simp [round, h0, hbig]
      rw [e]
      simp [lt, zero, toRat, h]

theorem toRat_neg {x : F32} (hx : x.isFinite = true) : (neg x).toRat = -x.toRat := by
  cases x with
  | fin v => by_cases h : v = 0 <;> simp [neg, h, toRat]
  | negZero => simp [neg, toRat]
  | inf s => simp [isFinite] at hx
  | nan => simp [isFinite] at hx

theorem neg_ne_self {x : F32} (hx : x.isFinite = true) : neg x ≠ x := by
  cases x with
  | fin v =>
    by_cases h : v = 0
    · simp [neg, h]
    · simp only [neg, h, if_false, ne_eq, fin.injEq]
      intro hv
      apply h
      linarith
  | negZero => simp [neg]
  | inf s => simp [isFinite] at hx
  | nan => simp [isFinite] at hx

theorem signBit_of_toRat_ne_zero {x : F32} (hx : x.toRat ≠ 0) :
    x.signBit = decide (x.toRat < 0) := by
  cases x with
  | fin v => rfl
  | negZero => exact absurd rfl hx
  | inf s => exact absurd rfl hx
  | nan => exact absurd rfl hx

/-- When the exact product is zero or does not underflow, the binary32 product compares
below zero exactly when the exact product is negative. -/
theorem mul_lt_zero_iff {m a : F32} (hm : m.isFinite = true) (ha : a.isFinite = true)
    (h : m.toRat * a.toRat = 0 ∨ (2 : ℚ) ^ (-149 : ℤ) ≤ |m.toRat * a.toRat|) :
    lt (mul m a) zero = true ↔ m.toRat * a.toRat < 0 := by
  rw [mul_of_isFinite hm ha]
  have hq : m.mag * a.mag = |m.toRat * a.toRat| := (abs_mul _ _).symm
  rcases h with h | h
  · have h0 : m.mag * a.mag = 0 := by rw [hq, h, abs_zero]
    rw [h0, lt_round_zero_of_zero _ roundMag_zero, h]
    simp
  · have hpos : 0 < |m.toRat * a.toRat| := lt_of_lt_of_le (by positivity) h
    have hne : m.toRat * a.toRat ≠ 0 := abs_pos.1 hpos
    have hm0 : m.toRat ≠ 0 := left_ne_zero_of_mul hne
    have ha0 : a.toRat ≠ 0 := right_ne_zero_of_mul hne
    rw [lt_round_zero_of_pos _ (roundMag_pos_of_ge (by rw [hq]; exact h)),
      signBit_of_toRat_ne_zero hm0, signBit_of_toRat_ne_zero ha0]
    rcases lt_or_gt_of_ne hm0 with h1 | h1 <;> rcases lt_or_gt_of_ne ha0 with h2 | h2
    · have : 0 < m.toRat * a.toRat := mul_pos_of_neg_of_neg h1 h2
      simp [h1, h2, not_lt.mpr this.le]
    · have : m.toRat * a.toRat < 0 := mul_neg_of_neg_of_pos h1 h2
      simp [h1, not_lt.mpr h2.le, this]
    · have : m.toRat * a.toRat < 0 := mul_neg_of_pos_of_neg h1 h2
      simp [h2, not_lt.mpr h1.le, this]
    · have : 0 < m.toRat * a.toRat := mul_pos h1 h2
      simp [not_lt.mpr h1.le, not_lt.mpr h2.le, not_lt.mpr this.le]

/-- The binary32 product `-2^-100 * 2^-100` underflows to `-0`. -/
theorem mul_tiny : mul (fin (-(1 / 2 ^ 100))) (fin (1 / 2 ^ 100)) = negZero := by
  have hr : roundMag ((1 / 2 ^ 100 : ℚ) * (1 / 2 ^ 100)) = 0 := by
    have h := roundMag_eq_of (q := (1 / 2 ^ 100 : ℚ) * (1 / 2 ^ 100)) (-200) 0
      (by norm_num) (by norm_num) (by norm_num) (by norm_num)
    simpa using h
  have e := mul_of_isFinite (x := fin (-(1 / 2 ^ 100))) (y := fin (1 / 2 ^ 100)) rfl rfl
  have hs : (fin (-(1 / 2 ^ 100))).signBit = true := by simp [signBit]
  have hs' : (fin (1 / 2 ^ 100)).signBit = false := by simp [signBit]
  have hm : (fin (-(1 / 2 ^ 100))).mag = 1 / 2 ^ 100 := by
    simp only [mag, toRat]; rw [abs_neg, abs_of_pos (by positivity)]
  have hm' : (fin (1 / 2 ^ 100)).mag = 1 / 2 ^ 100 := by
    simp only [mag, toRat]; rw [abs_of_pos (by positivity)]
  rw [hs, hs', hm, hm'] at e
  rw [e]
  unfold round
  simp only [hr, if_true]
  rfl

/-- The binary32 product of an infinity and `0` is NaN. -/
theorem mul_inf_zero (s : Bool) : mul (inf s) zero = nan := by
  have h : (zero).isZero = true := by simp [zero, isZero]
  show (if (zero).isZero = true then nan else inf (xor s (zero).signBit)) = nan
  rw [if_pos h]

end F32

/-! ## Claims -/

/-- C1 as stated fails. With `P[3][2] = P[2][2] = 2^-100`, two non-zero binary32 values,
`mul * P[2][2]` is negative but the binary32 product underflows to `-0`, which does not
compare below zero: `add` is not negated and the written pair `(-2^-100, 2^-100)` has a
negative product. With `P[3][2] = +inf` and `P[2][2] = 0` the binary32 product of the
written pair is NaN, and `mul * add >= 0` is false. -/
theorem ExampleBokeh.depthUnpackConsts_sign_not_repaired :
    ((sampleTiny.m_proj2 14).isZero = false ∧
      (sampleTiny.m_proj2 14).Rep ∧ (sampleTiny.m_proj2 10).Rep ∧
      (sampleTiny.updateUniforms RendererType.Direct3D11).m_uniforms.m_depthUnpackConsts =
        (F32.fin (-(1 / 2 ^ 100)), F32.fin (1 / 2 ^ 100)) ∧
      (sampleTiny.updateUniforms RendererType.Direct3D11).m_uniforms.m_depthUnpackConsts.1.toRat
        * (sampleTiny.m_proj2 10).toRat < 0 ∧
      (sampleTiny.updateUniforms RendererType.Direct3D11).m_uniforms.m_depthUnpackConsts.2 =
        sampleTiny.m_proj2 10 ∧
      (sampleTiny.updateUniforms RendererType.Direct3D11).m_uniforms.m_depthUnpackConsts.1.toRat
        * (sampleTiny.updateUniforms
            RendererType.Direct3D11).m_uniforms.m_depthUnpackConsts.2.toRat < 0) ∧
    ((sampleInfinite.m_proj2 14).isZero = false ∧
      F32.mul
        (sampleInfinite.updateUniforms RendererType.Direct3D11).m_uniforms.m_depthUnpackConsts.1
        (sampleInfinite.updateUniforms RendererType.Direct3D11).m_uniforms.m_depthUnpackConsts.2
        = F32.nan ∧
      F32.ge (F32.mul
        (sampleInfinite.updateUniforms RendererType.Direct3D11).m_uniforms.m_depthUnpackConsts.1
        (sampleInfinite.updateUniforms RendererType.Direct3D11).m_uniforms.m_depthUnpackConsts.2)
        F32.zero = false) := by
  have t14 : sampleTiny.m_proj2 14 = F32.fin (1 / 2 ^ 100) := by simp [sampleTiny]
  have t10 : sampleTiny.m_proj2 10 = F32.fin (1 / 2 ^ 100) := by simp [sampleTiny]
  have hneg : F32.neg (F32.fin (1 / 2 ^ 100)) = F32.fin (-(1 / 2 ^ 100)) := by
    simp [F32.neg]
  have hrep : (F32.fin (1 / 2 ^ 100)).Rep := by
    apply F32.rep_fin_of
    · rw [abs_of_pos (by positivity)]
      exact roundMag_of_int_mul (m := 1) (e := -100) (by norm_num) (by
        have h := ulpExp_le_of_lt (q := (1 / 2 ^ 100 : ℚ)) (K := -99) (by positivity)
          (by norm_num)
        have e : max ((-99 : ℤ) - 1) (-126) - 23 = -123 := by decide
        rw [e] at h
        omega)
    · rw [abs_of_pos (by positivity)]
      exact lt_of_le_of_lt (b := (1 : ℚ)) (by norm_num) (by norm_num)
  have hpair :
      (sampleTiny.updateUniforms RendererType.Direct3D11).m_uniforms.m_depthUnpackConsts =
        (F32.fin (-(1 / 2 ^ 100)), F32.fin (1 / 2 ^ 100)) := by
    have hlt : F32.lt (F32.mul (F32.neg (sampleTiny.m_proj2 14)) (sampleTiny.m_proj2 10))
        F32.zero = false := by
      rw [t14, t10, hneg, F32.mul_tiny]; rfl
    show (F32.neg (sampleTiny.m_proj2 14),
      if F32.lt (F32.mul (F32.neg (sampleTiny.m_proj2 14)) (sampleTiny.m_proj2 10)) F32.zero
        = true
      then F32.neg (sampleTiny.m_proj2 10) else sampleTiny.m_proj2 10) = _
    rw [hlt, t14, t10, hneg]
    rfl
  have i14 : sampleInfinite.m_proj2 14 = F32.inf false := by simp [sampleInfinite]
  have i10 : sampleInfinite.m_proj2 10 = F32.zero := by simp [sampleInfinite]
  have hipair :
      (sampleInfinite.updateUniforms RendererType.Direct3D11).m_uniforms.m_depthUnpackConsts =
        (F32.inf true, F32.zero) := by
    show (F32.neg (sampleInfinite.m_proj2 14),
      if F32.lt (F32.mul (F32.neg (sampleInfinite.m_proj2 14)) (sampleInfinite.m_proj2 10))
        F32.zero = true
      then F32.neg (sampleInfinite.m_proj2 10) else sampleInfinite.m_proj2 10) = _
    rw [i14, i10]
    have hn : F32.mul (F32.neg (F32.inf false)) F32.zero = F32.nan := F32.mul_inf_zero true
    rw [hn]
    rfl
  have hn : F32.mul (F32.inf true) F32.zero = F32.nan := F32.mul_inf_zero true
  refine ⟨⟨?_, ?_, ?_, hpair, ?_, ?_, ?_⟩, ?_, ?_, ?_⟩
  · rw [t14]; simp [F32.isZero]
  · rw [t14]; exact hrep
  · rw [t10]; exact hrep
  · rw [hpair, t10]
    show (-(1 / 2 ^ 100) : ℚ) * (1 / 2 ^ 100) < 0
    norm_num
  · rw [hpair, t10]
  · rw [hpair]
    show (-(1 / 2 ^ 100) : ℚ) * (1 / 2 ^ 100) < 0
    norm_num
  · rw [i14]; rfl
  · rw [hipair]; exact hn
  · rw [hipair, hn]; rfl

/-- C1, amended: for a projection matrix whose entries `P[3][2]` (index 14 of the flat
array) and `P[2][2]` (index 10) are finite floats, with `P[3][2] ≠ 0`, `updateUniforms`
writes `mul = -P[3][2]` and `add = P[2][2]`, the latter negated exactly when the binary32
product `mul * P[2][2]` compares below zero, and the binary32 product `mul * add` of the
written pair compares `≥ 0` (it may be `-0`). When the exact product `mul * P[2][2]` is
zero or at least `2^-149` in magnitude, so that it does not underflow, `add` is negated
exactly when the exact product is negative, and the exact product of the written pair is
`≥ 0`. -/
theorem ExampleBokeh.depthUnpackConsts_sign_repaired (renderer : RendererType)
    (s : ExampleBokeh) (_h32 : (s.m_proj2 14).isZero = false)
    (hf32 : (s.m_proj2 14).isFinite = true) (hf22 : (s.m_proj2 10).isFinite = true) :
    ((s.updateUniforms renderer).m_uniforms.m_depthUnpackConsts.1 = F32.neg (s.m_proj2 14)) ∧
    ((s.updateUniforms renderer).m_uniforms.m_depthUnpackConsts.2 =
      if F32.lt (F32.mul (F32.neg (s.m_proj2 14)) (s.m_proj2 10)) F32.zero
      then F32.neg (s.m_proj2 10) else s.m_proj2 10) ∧
    F32.ge (F32.mul (s.updateUniforms renderer).m_uniforms.m_depthUnpackConsts.1
      (s.updateUniforms renderer).m_uniforms.m_depthUnpackConsts.2) F32.zero = true ∧
    ((F32.neg (s.m_proj2 14)).toRat * (s.m_proj2 10).toRat = 0 ∨
        (2 : ℚ) ^ (-149 : ℤ) ≤ |(F32.neg (s.m_proj2 14)).toRat * (s.m_proj2 10).toRat| →
      ((s.updateUniforms renderer).m_uniforms.m_depthUnpackConsts.2 = F32.neg (s.m_proj2 10)
        ↔ (F32.neg (s.m_proj2 14)).toRat * (s.m_proj2 10).toRat < 0) ∧
      0 ≤ (s.updateUniforms renderer).m_uniforms.m_depthUnpackConsts.1.toRat *
        (s.updateUniforms renderer).m_uniforms.m_depthUnpackConsts.2.toRat) := by
  refine ⟨rfl, rfl, F32.mul_sign_repair (F32.isFinite_neg hf32) hf22, ?_⟩
  intro h
  have hiff := F32.mul_lt_zero_iff (F32.isFinite_neg hf32) hf22 h
  have h1 : (s.updateUniforms renderer).m_uniforms.m_depthUnpackConsts.1 =
      F32.neg (s.m_proj2 14) := rfl
  have h2 : (s.updateUniforms renderer).m_uniforms.m_depthUnpackConsts.2 =
      if F32.lt (F32.mul (F32.neg (s.m_proj2 14)) (s.m_proj2 10)) F32.zero = true
      then F32.neg (s.m_proj2 10) else s.m_proj2 10 := rfl
  rw [h1, h2]
  by_cases hlt : F32.lt (F32.mul (F32.neg (s.m_proj2 14)) (s.m_proj2 10)) F32.zero = true
  · have hneg := hiff.1 hlt
    rw [if_pos hlt, F32.toRat_neg hf22]
    exact ⟨⟨fun _ => hneg, fun _ => rfl⟩, by nlinarith⟩
  · have hnn : ¬ (F32.neg (s.m_proj2 14)).toRat * (s.m_proj2 10).toRat < 0 :=
      fun hc => hlt (hiff.2 hc)
    rw [if_neg hlt]
    exact ⟨⟨fun he => absurd he.symm (F32.neg_ne_self hf22), fun hc => absurd hc hnn⟩,
      not_lt.1 hnn⟩

/-- C1, amended, at a concrete state: `P[3][2] = 1/4`, `P[2][2] = 1`, so `mul = -1/4`,
the product `-1/4` does not underflow and is negative, and `add` is written as `-1`. -/
theorem ExampleBokeh.depthUnpackConsts_sign_repaired_witness :
    (sampleFlipped.m_proj2 14).isZero = false ∧
    F32.ge (F32.mul
      (sampleFlipped.updateUniforms RendererType.OpenGL).m_uniforms.m_depthUnpackConsts.1
      (sampleFlipped.updateUniforms RendererType.OpenGL).m_uniforms.m_depthUnpackConsts.2)
      F32.zero = true ∧
    (sampleFlipped.updateUniforms RendererType.OpenGL).m_uniforms.m_depthUnpackConsts.2 =
      F32.neg (sampleFlipped.m_proj2 10) ∧
    0 ≤ (sampleFlipped.updateUniforms RendererType.OpenGL).m_uniforms.m_depthUnpackConsts.1.toRat
      * (sampleFlipped.updateUniforms
          RendererType.OpenGL).m_uniforms.m_depthUnpackConsts.2.toRat := by
  have h1 : (sampleFlipped.m_proj2 14).isZero = false := by
    simp [sampleFlipped, F32.isZero]
  have e14 : sampleFlipped.m_proj2 14 = F32.fin (1 / 4) := by simp [sampleFlipped]
  have e10 : sampleFlipped.m_proj2 10 = F32.fin 1 := by simp [sampleFlipped]
  have en : F32.neg (F32.fin (1 / 4)) = F32.fin (-(1 / 4)) := by simp [F32.neg]
  have hprod : (F32.neg (sampleFlipped.m_proj2 14)).toRat * (sampleFlipped.m_proj2 10).toRat
      = -(1 / 4) := by
    rw [e14, e10, en]
    show (-(1 / 4) : ℚ) * 1 = -(1 / 4)
    norm_num
  have t := ExampleBokeh.depthUnpackConsts_sign_repaired RendererType.OpenGL sampleFlipped h1
    (by simp [sampleFlipped, F32.isFinite]) (by simp [sampleFlipped, F32.isFinite])
  have t4 := t.2.2.2 (Or.inr (by rw [hprod]; norm_num [abs_of_pos]))
  exact ⟨h1, t.2.2.1, t4.1.2 (by rw [hprod]; norm_num), t4.2⟩

/-- C2 (the code departs from the claim): `init` at 1280x720 followed by a first frame at
720x1280. The projection computed for the frame has `P[0][0] = 12915107/4194304` and
`P[3][2] = -2684623/268435456`, but the uniform block submitted with the forward view
carries the 1280x720 matrix (`8172841/8388608`) as view-to-projection and a depth
multiplier read from the never-written `m_proj2` (here zero memory, giving `-0`). -/
theorem ExampleBokeh.first_frame_uniforms_stale :
    ∃ (fuel : ℕ) (s' : ExampleBokeh) (out : FrameOutput),
      ExampleBokeh.update sampleEnv fuel (sampleApp 1280 720)
        (sampleInput 720 1280 defaultSettings) = some (s', out) ∧
      s'.m_proj 0 = F32.fin (12915107 / 4194304) ∧
      s'.m_proj2 14 = F32.fin (-(2684623 / 268435456)) ∧
      s'.m_uniforms.m_viewToProj 0 = F32.fin (8172841 / 8388608) ∧
      s'.m_uniforms.m_depthUnpackConsts.1 = F32.negZero ∧
      s'.m_uniforms.m_viewToProj 0 ≠ s'.m_proj 0 ∧
      s'.m_uniforms.m_depthUnpackConsts.1 ≠ F32.neg (s'.m_proj2 14) ∧
      (∃ p rest, out.passes = p :: rest ∧ p.name = "forward scene" ∧
        p.uniforms = some s'.m_uniforms ∧
        p.transform = ViewTransform.scene sampleView s'.m_proj) := by
  obtain ⟨fuel, s', out, h⟩ := ExampleBokeh.update_returns sampleEnv (sampleApp 1280 720)
    (sampleInput 720 1280 defaultSettings) ExampleBokeh.defaultSettings_inSliderRange
  obtain ⟨hp, -, -, -, -, hu, hproj, hproj2, -, -⟩ :=
    ExampleBokeh.update_render_inv h rfl (by decide) (by decide)
  obtain ⟨m1, m2, m3, m4⟩ := ExampleBokeh.renderFrame_matrices sampleEnv
    ((sampleApp 1280 720).processEvents (sampleInput 720 1280 defaultSettings))
    (sampleInput 720 1280 defaultSettings)
  have e1 : s'.m_proj 0 = F32.fin (12915107 / 4194304) := by
    rw [hproj, m3]
    show sampleMtxProj (F32.lit 60) (F32.div (F32.ofInt (toI32 720)) (F32.ofInt (toI32 1280)))
      (F32.lit (1 / 100)) (F32.lit 100) false 0 = _
    rw [sampleMtxProj_width, toI32_of_lt (by norm_num), toI32_of_lt (by norm_num)]
    simp only [Nat.cast_ofNat]
    rw [F32.ofInt_720, F32.ofInt_1280, F32.aspect_720_1280, F32.lit_cot, F32.width_720_1280]
  have e2 : s'.m_proj2 14 = F32.fin (-(2684623 / 268435456)) := by
    rw [hproj2, m4]
    show sampleMtxProj (F32.lit 60) (F32.div (F32.ofInt (toI32 720)) (F32.ofInt (toI32 1280)))
      (F32.lit (1 / 100)) (F32.lit 100) false 14 = _
    exact sampleMtxProj_14 _ _
  have e3 : s'.m_uniforms.m_viewToProj 0 = F32.fin (8172841 / 8388608) := by
    rw [hu, m1]
    show sampleMtxProj (F32.lit 60) (F32.div (F32.ofInt (toI32 1280)) (F32.ofInt (toI32 720)))
      (F32.lit (1 / 100)) (F32.lit 100) false 0 = _
    rw [sampleMtxProj_width, toI32_of_lt (by norm_num), toI32_of_lt (by norm_num)]
    simp only [Nat.cast_ofNat]
    rw [F32.ofInt_720, F32.ofInt_1280, F32.aspect_1280_720, F32.lit_cot, F32.width_1280_720]
  have e4 : s'.m_uniforms.m_depthUnpackConsts.1 = F32.negZero := by
    rw [hu, m2]
    show F32.neg (F32.fin 0) = F32.negZero
    simp [F32.neg]
  refine ⟨fuel, s', out, h, e1, e2, e3, e4, ?_, ?_, ?_⟩
  · rw [e1, e3]
    intro hEq
    have := F32.fin.inj hEq
    norm_num at this
  · rw [e2, e4]
    simp [F32.neg]
  · obtain ⟨p, rest, q1, q2, q3, q4⟩ := ExampleBokeh.renderFrame_forward sampleEnv
      ((sampleApp 1280 720).processEvents (sampleInput 720 1280 defaultSettings))
      (sampleInput 720 1280 defaultSettings)
    refine ⟨p, rest, by rw [hp, q1], q2, ?_, ?_⟩
    · rw [q3, hu]
    · rw [q4, hproj]; rfl

/-- C3: `updateUniforms` writes `m_maxBlurSize * blurScale` and `m_radiusScale * blurScale`
with `blurScale = 1.0f` for the single-pass topology and `0.5f` for the multi-pass one.
For binary32 inputs the single-pass values are the inputs themselves, and the multi-pass
values of inputs of magnitude at least `2^-125` are exactly half the inputs. -/
theorem ExampleBokeh.blur_scale_by_topology (renderer : RendererType) (s : ExampleBokeh)
    (hb : s.m_maxBlurSize.Rep) (hr : s.m_radiusScale.Rep) :
    (s.m_useSinglePassBokehDof = true →
      (s.updateUniforms renderer).m_uniforms.m_maxBlurSize
        = F32.mul s.m_maxBlurSize F32.one ∧
      (s.updateUniforms renderer).m_uniforms.m_radiusScale
        = F32.mul s.m_radiusScale F32.one ∧
      (s.updateUniforms renderer).m_uniforms.m_maxBlurSize = s.m_maxBlurSize ∧
      (s.updateUniforms renderer).m_uniforms.m_radiusScale = s.m_radiusScale) ∧
    (s.m_useSinglePassBokehDof = false →
      (s.updateUniforms renderer).m_uniforms.m_maxBlurSize
        = F32.mul s.m_maxBlurSize F32.half ∧
      (s.updateUniforms renderer).m_uniforms.m_radiusScale
        = F32.mul s.m_radiusScale F32.half ∧
      (∀ v : ℚ, s.m_maxBlurSize = F32.fin v → (2 : ℚ) ^ (-125 : ℤ) ≤ |v| →
        (s.updateUniforms renderer).m_uniforms.m_maxBlurSize = F32.fin (v / 2)) ∧
      (∀ v : ℚ, s.m_radiusScale = F32.fin v → (2 : ℚ) ^ (-125 : ℤ) ≤ |v| →
        (s.updateUniforms renderer).m_uniforms.m_radiusScale = F32.fin (v / 2))) := by
  constructor
  · intro h
    have e1 : (s.updateUniforms renderer).m_uniforms.m_maxBlurSize
        = F32.mul s.m_maxBlurSize F32.one := by
      simp [ExampleBokeh.updateUniforms, h]
    have e2 : (s.updateUniforms renderer).m_uniforms.m_radiusScale
        = F32.mul s.m_radiusScale F32.one := by
      simp [ExampleBokeh.updateUniforms, h]
    exact ⟨e1, e2, by rw [e1, F32.mul_one_of_rep hb], by rw [e2, F32.mul_one_of_rep hr]⟩
  · intro h
    have e1 : (s.updateUniforms renderer).m_uniforms.m_maxBlurSize
        = F32.mul s.m_maxBlurSize F32.half := by
      simp [ExampleBokeh.updateUniforms, h]
    have e2 : (s.updateUniforms renderer).m_uniforms.m_radiusScale
        = F32.mul s.m_radiusScale F32.half := by
      simp [ExampleBokeh.updateUniforms, h]
    refine ⟨e1, e2, ?_, ?_⟩
    · intro v hv hmag
      rw [e1, hv]
      exact F32.mul_half_of_rep (by rw [← hv]; exact hb) hmag
    · intro v hv hmag
      rw [e2, hv]
      exact F32.mul_half_of_rep (by rw [← hv]; exact hr) hmag

/-- C3 at the default settings (max blur size 20, radius scale 3.856f), single pass. -/
theorem ExampleBokeh.blur_scale_by_topology_witness :
    ((sampleApp 1280 720).updateUniforms RendererType.Direct3D11).m_uniforms.m_maxBlurSize
      = F32.lit 20 ∧
    ((sampleApp 1280 720).updateUniforms RendererType.Direct3D11).m_uniforms.m_radiusScale
      = F32.lit (3856 / 1000) :=
  have h := (ExampleBokeh.blur_scale_by_topology RendererType.Direct3D11 (sampleApp 1280 720)
    (F32.rep_round _ (abs_nonneg _)) (F32.rep_round _ (abs_nonneg _))).1 rfl
  ⟨h.2.2.1, h.2.2.2⟩

/-- C4 as stated fails: a 1920x1080 frame with depth of field on and the multi-pass
topology submits five views, not six. -/
theorem ExampleBokeh.multipass_frame_not_six_passes :
    ∃ (fuel : ℕ) (s' : ExampleBokeh) (out : FrameOutput),
      ExampleBokeh.update sampleEnv fuel (sampleMultiPassApp 1920 1080)
        (sampleInput 1920 1080 defaultSettings) = some (s', out) ∧
      out.submitted = true ∧ out.passes.length = 5 ∧ out.passes.length ≠ 6 := by
  obtain ⟨fuel, s', out, h⟩ := ExampleBokeh.update_returns sampleEnv
    (sampleMultiPassApp 1920 1080) (sampleInput 1920 1080 defaultSettings)
    ExampleBokeh.defaultSettings_inSliderRange
  obtain ⟨hp, hsub, -⟩ := ExampleBokeh.update_render_inv h rfl (by decide) (by decide)
  have hl := congrArg List.length (ExampleBokeh.renderFrame_passes_multipass sampleEnv
    ((sampleMultiPassApp 1920 1080).processEvents (sampleInput 1920 1080 defaultSettings))
    (sampleInput 1920 1080 defaultSettings) rfl rfl)
  rw [List.length_map, ← hp] at hl
  have h5 : out.passes.length = 5 := by simpa using hl
  exact ⟨fuel, s', out, h, hsub, h5, by omega⟩

/-- C4, amended: with depth of field on and the multi-pass topology, a frame at any
non-zero viewport that is not the exit frame submits exactly five views before
`bgfx::frame()`, in the order forward scene, linear depth, downsample, quarter, combine;
and such a frame does finish when the settings stay inside their slider ranges. -/
theorem ExampleBokeh.multipass_frame_passes (env : Env) (s : ExampleBokeh)
    (inp : FrameInput) (hexit : inp.exit = false)
    (hw : inp.width ≠ 0) (hh : inp.height ≠ 0) (hdof : s.m_useBokehDof = true)
    (hmp : s.m_useSinglePassBokehDof = false) :
    (∀ (fuel : ℕ) (s' : ExampleBokeh) (out : FrameOutput),
      ExampleBokeh.update env fuel s inp = some (s', out) →
      out.passes.map (fun p => (p.view, p.name)) =
        [(0, "forward scene"), (1, "linear depth"), (2, "bokeh dof downsample"),
         (3, "bokeh dof quarter"), (4, "bokeh dof combine")] ∧
      out.passes.length = 5 ∧ out.submitted = true) ∧
    (inp.ui.InSliderRange →
      ∃ (fuel : ℕ) (s' : ExampleBokeh) (out : FrameOutput),
        ExampleBokeh.update env fuel s inp = some (s', out)) := by
  refine ⟨?_, ExampleBokeh.update_returns env s inp⟩
  intro fuel s' out h
  obtain ⟨hp, hsub, -⟩ := ExampleBokeh.update_render_inv h hexit hw hh
  have hl := ExampleBokeh.renderFrame_passes_multipass env (s.processEvents inp) inp hdof hmp
  rw [← hp] at hl
  have hm := congrArg
    (List.map (fun t : ℕ × String × (ℕ × ℕ) × FrameBufferRef => (t.1, t.2.1))) hl
  rw [List.map_map] at hm
  have hlen := congrArg List.length hl
  rw [List.length_map] at hlen
  exact ⟨by simpa [Function.comp] using hm, by simpa using hlen, hsub⟩

/-- C4, amended, at 1920x1080 with the default settings. -/
theorem ExampleBokeh.multipass_frame_passes_witness :
    ∃ (fuel : ℕ) (s' : ExampleBokeh) (out : FrameOutput),
      ExampleBokeh.update sampleEnv fuel (sampleMultiPassApp 1920 1080)
        (sampleInput 1920 1080 defaultSettings) = some (s', out) ∧
      out.passes.length = 5 ∧ out.submitted = true := by
  have t := ExampleBokeh.multipass_frame_passes sampleEnv (sampleMultiPassApp 1920 1080)
    (sampleInput 1920 1080 defaultSettings) rfl (by decide) (by decide) rfl rfl
  obtain ⟨fuel, s', out, h⟩ := t.2 ExampleBokeh.defaultSettings_inSliderRange
  exact ⟨fuel, s', out, h, (t.1 fuel s' out h).2⟩

/-- C5 as stated fails: at a 65536x1080 viewport the full-resolution views get a view
rectangle of width `uint16_t(65536) = 0`, not 65536. -/
theorem ExampleBokeh.wide_viewport_rect_truncated :
    ∃ (fuel : ℕ) (s' : ExampleBokeh) (out : FrameOutput),
      ExampleBokeh.update sampleEnv fuel (sampleMultiPassApp 65536 1080)
        (sampleInput 65536 1080 defaultSettings) = some (s', out) ∧
      out.passes.map (fun p => (p.name, p.rect)) =
        [("forward scene", (0, 1080)), ("linear depth", (0, 1080)),
         ("bokeh dof downsample", (32768, 540)), ("bokeh dof quarter", (32768, 540)),
         ("bokeh dof combine", (0, 1080))] ∧
      out.passes.map (fun p => (p.name, p.rect)) ≠
        [("forward scene", (65536, 1080)), ("linear depth", (65536, 1080)),
         ("bokeh dof downsample", (32768, 540)), ("bokeh dof quarter", (32768, 540)),
         ("bokeh dof combine", (65536, 1080))] := by
  obtain ⟨fuel, s', out, h⟩ := ExampleBokeh.update_returns sampleEnv
    (sampleMultiPassApp 65536 1080) (sampleInput 65536 1080 defaultSettings)
    ExampleBokeh.defaultSettings_inSliderRange
  obtain ⟨hp, -⟩ := ExampleBokeh.update_render_inv h rfl (by decide) (by decide)
  have hl := ExampleBokeh.renderFrame_passes_multipass sampleEnv
    ((sampleMultiPassApp 65536 1080).processEvents (sampleInput 65536 1080 defaultSettings))
    (sampleInput 65536 1080 defaultSettings) rfl rfl
  rw [← hp] at hl
  have hm := congrArg
    (List.map (fun t : ℕ × String × (ℕ × ℕ) × FrameBufferRef => (t.2.1, t.2.2.1))) hl
  rw [List.map_map] at hm
  have e : out.passes.map (fun p => (p.name, p.rect)) =
      [("forward scene", (0, 1080)), ("linear depth", (0, 1080)),
       ("bokeh dof downsample", (32768, 540)), ("bokeh dof quarter", (32768, 540)),
       ("bokeh dof combine", (0, 1080))] := by
    have hm' : out.passes.map (fun p => (p.name, p.rect)) = _ := hm
    rw [hm']
    decide
  refine ⟨fuel, s', out, h, e, ?_⟩
  rw [e]
  decide

/-- C5, amended: for a viewport `W x H` with `0 < W, H < 65536`, depth of field on and the
multi-pass topology, the downsample and quarter views have the view rectangle
`W/2 x H/2` and write `m_dofQuarterInput` and `m_dofQuarterOutput`, whose textures were
created at `W/2 x H/2`; the forward, linear-depth and combine views have `W x H`. Such a
frame does finish when the settings stay inside their slider ranges. -/
theorem ExampleBokeh.multipass_frame_rects (env : Env) (s : ExampleBokeh)
    (inp : FrameInput) (hexit : inp.exit = false)
    (hw : 0 < inp.width) (hw' : inp.width < 65536) (hh : 0 < inp.height)
    (hh' : inp.height < 65536) (hdof : s.m_useBokehDof = true)
    (hmp : s.m_useSinglePassBokehDof = false) (ha : s.Allocated) :
    (∀ (fuel : ℕ) (s' : ExampleBokeh) (out : FrameOutput),
      ExampleBokeh.update env fuel s inp = some (s', out) →
      out.passes.map (fun p => (p.name, p.rect, p.frameBuffer)) =
        [("forward scene", (inp.width, inp.height), FrameBufferRef.m_frameBuffer),
         ("linear depth", (inp.width, inp.height), FrameBufferRef.m_linearDepth),
         ("bokeh dof downsample", (inp.width / 2, inp.height / 2),
            FrameBufferRef.m_dofQuarterInput),
         ("bokeh dof quarter", (inp.width / 2, inp.height / 2),
            FrameBufferRef.m_dofQuarterOutput),
         ("bokeh dof combine", (inp.width, inp.height), FrameBufferRef.invalid)] ∧
      s'.m_dofQuarterInput.m_texture =
        { width := inp.width / 2, height := inp.height / 2
          format := TextureFormat.RGBA16F, flags := bilinearFlags } ∧
      s'.m_dofQuarterOutput.m_texture =
        { width := inp.width / 2, height := inp.height / 2
          format := TextureFormat.RGBA16F, flags := bilinearFlags }) ∧
    (inp.ui.InSliderRange →
      ∃ (fuel : ℕ) (s' : ExampleBokeh) (out : FrameOutput),
        ExampleBokeh.update env fuel s inp = some (s', out)) := by
  refine ⟨?_, ExampleBokeh.update_returns env s inp⟩
  intro fuel s' out h
  obtain ⟨hp, -, -, hpool, -⟩ :=
    ExampleBokeh.update_render_inv h hexit (by omega) (by omega)
  have hl := ExampleBokeh.renderFrame_passes_multipass env (s.processEvents inp) inp hdof hmp
  rw [← hp] at hl
  have hm := congrArg
    (List.map (fun t : ℕ × String × (ℕ × ℕ) × FrameBufferRef => (t.2.1, t.2.2.1, t.2.2.2)))
    hl
  rw [List.map_map] at hm
  have w1 : (s.processEvents inp).m_width = inp.width := rfl
  have w2 : (s.processEvents inp).m_height = inp.height := rfl
  have c1 : toU16 (toI32 inp.width) = inp.width := by
    rw [toI32_of_lt (by omega), toU16_of_lt hw']
  have c2 : toU16 (toI32 inp.height) = inp.height := by
    rw [toI32_of_lt (by omega), toU16_of_lt hh']
  have c3 : toU16 ((inp.width : ℕ) : ℤ) = inp.width := toU16_of_lt hw'
  have c4 : toU16 ((inp.height : ℕ) : ℤ) = inp.height := toU16_of_lt hh'
  have c5 : toU16 ((inp.width / 2 : ℕ) : ℤ) = inp.width / 2 := toU16_of_lt (by omega)
  have c6 : toU16 ((inp.height / 2 : ℕ) : ℤ) = inp.height / 2 := toU16_of_lt (by omega)
  have hpe : (s.processEvents inp).Allocated := ha
  have hpool' : s'.pool = (s.processEvents inp).createFramebuffers.pool := by
    rw [hpool]; exact ExampleBokeh.resizeIfNeeded_allocated hpe
  obtain ⟨t1, t2⟩ := ExampleBokeh.createFramebuffers_half (s.processEvents inp)
    (by rw [w1]; exact hw') (by rw [w2]; exact hh')
  rw [← hpool', w1, w2] at t1 t2
  refine ⟨?_, t1, t2⟩
  have hm' : out.passes.map (fun p => (p.name, p.rect, p.frameBuffer)) = _ := hm
  rw [hm']
  simp only [List.map, w1, w2, c1, c2, c3, c4, c5, c6]

/-- C5, amended, at 1920x1080: the half-resolution views and targets are 960x540. -/
theorem ExampleBokeh.multipass_frame_rects_witness :
    ∃ (fuel : ℕ) (s' : ExampleBokeh) (out : FrameOutput),
      ExampleBokeh.update sampleEnv fuel (sampleMultiPassApp 1920 1080)
        (sampleInput 1920 1080 defaultSettings) = some (s', out) ∧
      out.passes.map (fun p => (p.name, p.rect, p.frameBuffer)) =
        [("forward scene", (1920, 1080), FrameBufferRef.m_frameBuffer),
         ("linear depth", (1920, 1080), FrameBufferRef.m_linearDepth),
         ("bokeh dof downsample", (960, 540), FrameBufferRef.m_dofQuarterInput),
         ("bokeh dof quarter", (960, 540), FrameBufferRef.m_dofQuarterOutput),
         ("bokeh dof combine", (1920, 1080), FrameBufferRef.invalid)] ∧
      s'.m_dofQuarterInput.m_texture =
        { width := 960, height := 540
          format := TextureFormat.RGBA16F, flags := bilinearFlags } := by
  have t := ExampleBokeh.multipass_frame_rects sampleEnv (sampleMultiPassApp 1920 1080)
    (sampleInput 1920 1080 defaultSettings) rfl (by decide) (by decide) (by decide)
    (by decide) rfl rfl
    (ExampleBokeh.init_allocated sampleEnv 1920 1080 sampleView false zeroMemory)
  obtain ⟨fuel, s', out, h⟩ := t.2 ExampleBokeh.defaultSettings_inSliderRange
  obtain ⟨r1, r2, -⟩ := t.1 fuel s' out h
  exact ⟨fuel, s', out, h, r1, r2⟩

/-- C6 as stated fails for small radius scales: `radiusScale = 2^-30` is a positive
binary32 value, the first iteration takes the radius to `1.0f`, and from there
`1.0f + 2^-30f / 1.0f` rounds back to `1.0f`: the radius stops growing below
`maxBlurSize = 20` and the loop never leaves. -/
theorem ExampleBokeh.stepsDebug_stalls :
    F32.lt F32.zero (F32.fin (1 / 2 ^ 30)) = true ∧ F32.Rep (F32.fin (1 / 2 ^ 30)) ∧
    (∀ fuel : ℕ, ExampleBokeh.stepsDebug fuel (F32.fin 20) (F32.fin (1 / 2 ^ 30)) = none) ∧
    ExampleBokeh.stepsRadius (F32.fin (1 / 2 ^ 30)) 1 = F32.fin 1 ∧
    ExampleBokeh.stepsRadius (F32.fin (1 / 2 ^ 30)) 2 = F32.fin 1 ∧
    F32.lt (ExampleBokeh.stepsRadius (F32.fin (1 / 2 ^ 30)) 1)
      (ExampleBokeh.stepsRadius (F32.fin (1 / 2 ^ 30)) 2) = false := by
  have r1 : ExampleBokeh.stepsRadius (F32.fin (1 / 2 ^ 30)) 1 = F32.fin 1 :=
    ExampleBokeh.stepsDebug_stall_first
  have r2 : ExampleBokeh.stepsRadius (F32.fin (1 / 2 ^ 30)) 2 = F32.fin 1 := by
    show F32.add (ExampleBokeh.stepsRadius (F32.fin (1 / 2 ^ 30)) 1)
      (F32.div (F32.fin (1 / 2 ^ 30)) (ExampleBokeh.stepsRadius (F32.fin (1 / 2 ^ 30)) 1)) = _
    rw [r1]; exact ExampleBokeh.stepsDebug_stall_step
  refine ⟨?_, ?_, ?_, r1, r2, ?_⟩
  · rw [F32.zero, F32.lt_fin_fin]; norm_num
  · refine F32.rep_fin_of ?_ ?_
    · rw [abs_of_pos (by norm_num), roundMag_eq_of (-30) 8388608] <;> norm_num
    · rw [abs_of_pos (by norm_num)]; norm_num
  · intro fuel
    cases fuel with
    | zero => rfl
    | succ f =>
      have hlt : F32.lt (F32.fin (1 / 2 ^ 30)) (F32.fin 20) = true := by
        rw [F32.lt_fin_fin]; norm_num
      unfold ExampleBokeh.stepsDebug
      rw [ExampleBokeh.stepsDebugLoop_of_lt hlt, ExampleBokeh.stepsDebug_stall_first]
      exact ExampleBokeh.stepsDebugLoop_stalled f 1
  · rw [r1, r2, F32.lt_fin_fin]; norm_num

/-- C6, amended: for `maxBlurSize` and `radiusScale` inside the ranges of their sliders
(10..50 and 0.5..4) the "steps debug" loop terminates: with enough fuel it returns a
count, the count is positive and below `2^31`, the loop condition holds before each of
its iterations and fails after the last, and the radius strictly increases in every
iteration. -/
theorem ExampleBokeh.stepsDebug_terminates_in_slider_range (m_maxBlurSize m_radiusScale : F32)
    (hm1 : F32.le (F32.fin 10) m_maxBlurSize = true)
    (hm2 : F32.le m_maxBlurSize (F32.fin 50) = true)
    (hr1 : F32.le (F32.fin (1 / 2)) m_radiusScale = true)
    (hr2 : F32.le m_radiusScale (F32.fin 4) = true) :
    ∃ count : ℕ,
      (∀ fuel : ℕ, count < fuel →
        ExampleBokeh.stepsDebug fuel m_maxBlurSize m_radiusScale = some count) ∧
      0 < count ∧ count < 2147483648 ∧
      (∀ i : ℕ, i < count →
        F32.lt (ExampleBokeh.stepsRadius m_radiusScale i) m_maxBlurSize = true ∧
        F32.lt (ExampleBokeh.stepsRadius m_radiusScale i)
          (ExampleBokeh.stepsRadius m_radiusScale (i + 1)) = true) ∧
      F32.lt (ExampleBokeh.stepsRadius m_radiusScale count) m_maxBlurSize = false := by
  obtain ⟨count, h1, h2, h3, h4, h5⟩ := ExampleBokeh.stepsDebug_of_inRange hm1 hm2 hr1 hr2
  exact ⟨count, h1, h2, by omega, h4, h5⟩

/-- C6, amended, at the scenario values `maxBlurSize = 20`, `radiusScale = 3.856f`: the
loop terminates with the count 50. -/
theorem ExampleBokeh.stepsDebug_terminates_in_slider_range_witness :
    ∃ count : ℕ, count = 50 ∧ 0 < count ∧
      (∀ fuel : ℕ, count < fuel →
        ExampleBokeh.stepsDebug fuel (F32.lit 20) (F32.lit (3856 / 1000)) = some count) := by
  obtain ⟨count, h1, h2, -⟩ := ExampleBokeh.stepsDebug_terminates_in_slider_range
    (F32.lit 20) (F32.lit (3856 / 1000))
    ExampleBokeh.defaultSettings_inSliderRange.1
    ExampleBokeh.defaultSettings_inSliderRange.2.1
    ExampleBokeh.defaultSettings_inSliderRange.2.2.1
    ExampleBokeh.defaultSettings_inSliderRange.2.2.2
  have e1 := h1 (count + 51) (by omega)
  have e2 := ExampleBokeh.stepsDebug_scenario (count + 51) (by omega)
  rw [e1] at e2
  exact ⟨count, Option.some.inj e2, h2, h1⟩

/-- C8 as stated fails: when the exit request arrives while the window is minimized,
`update` returns `false`. -/
theorem ExampleBokeh.minimized_exit_frame_returns_false :
    (ExampleBokeh.update sampleEnv 0 (sampleApp 1280 720)
      { sampleInput 0 0 defaultSettings with exit := true }).map (fun r => r.2.result)
      = some false := by
  rw [ExampleBokeh.update_of_exit sampleEnv 0 (sampleApp 1280 720) _ rfl]
  rfl

/-- C8, amended: in a frame whose viewport width or height is zero, `update` records no
view, does not call `bgfx::frame()` (the frame counter is not advanced), leaves the
render-target pool, `m_size`, the uniform block and `m_currFrame` as they were, and
returns `true` unless the exit was requested, in which case it returns `false`. -/
theorem ExampleBokeh.update_minimized_noop (env : Env) (fuel : ℕ) (s : ExampleBokeh)
    (inp : FrameInput) (h0 : inp.width = 0 ∨ inp.height = 0) :
    ExampleBokeh.update env fuel s inp = some (s.processEvents inp,
      { passes := [], steps := none, submitted := false, result := !inp.exit }) ∧
    (s.processEvents inp).pool = s.pool ∧
    (s.processEvents inp).m_size = s.m_size ∧
    (s.processEvents inp).m_uniforms = s.m_uniforms ∧
    (s.processEvents inp).m_currFrame = s.m_currFrame := by
  refine ⟨?_, rfl, rfl, rfl, rfl⟩
  by_cases hexit : inp.exit = true
  · rw [ExampleBokeh.update_of_exit env fuel s inp hexit, hexit]; rfl
  · have hexit' : inp.exit = false := by simpa using hexit
    rw [ExampleBokeh.update_of_minimized env fuel s inp hexit' h0, hexit']; rfl

/-- C8, amended, at a 0x0 viewport. -/
theorem ExampleBokeh.update_minimized_noop_witness :
    ExampleBokeh.update sampleEnv 0 (sampleApp 1280 720) (sampleInput 0 0 defaultSettings)
      = some ((sampleApp 1280 720).processEvents (sampleInput 0 0 defaultSettings),
        { passes := [], steps := none, submitted := false, result := true }) :=
  (ExampleBokeh.update_minimized_noop sampleEnv 0 (sampleApp 1280 720)
    (sampleInput 0 0 defaultSettings) (Or.inl rfl)).1

/-- C9 as stated fails for a minimized size: starting at 0x0, resizing to 1280x720 and
back to 0x0 leaves the 1280x720 pool in place, not the pool `init` created at 0x0. -/
theorem ExampleBokeh.resize_back_to_minimized_keeps_pool :
    ∃ (f1 f2 : ℕ) (s1 s2 : ExampleBokeh) (o1 o2 : FrameOutput),
      ExampleBokeh.update sampleEnv f1 (sampleApp 0 0)
        (sampleInput 1280 720 defaultSettings) = some (s1, o1) ∧ o1.result = true ∧
      ExampleBokeh.update sampleEnv f2 s1 (sampleInput 0 0 defaultSettings)
        = some (s2, o2) ∧ o2.result = true ∧
      (sampleApp 0 0).pool.m_frameBufferTex.1.width = 0 ∧
      s2.pool.m_frameBufferTex.1.width = 1280 ∧
      s2.pool ≠ (sampleApp 0 0).pool := by
  obtain ⟨f1, s1, o1, h1⟩ := ExampleBokeh.update_returns sampleEnv (sampleApp 0 0)
    (sampleInput 1280 720 defaultSettings) ExampleBokeh.defaultSettings_inSliderRange
  obtain ⟨-, -, hres, hpool, -⟩ := ExampleBokeh.update_render_inv h1 rfl (by decide) (by decide)
  have ha : (sampleApp 0 0).Allocated :=
    ExampleBokeh.init_allocated sampleEnv 0 0 sampleView false zeroMemory
  have hpe : ((sampleApp 0 0).processEvents (sampleInput 1280 720 defaultSettings)).Allocated :=
    ha
  have hpool1 : s1.pool =
      ((sampleApp 0 0).processEvents
        (sampleInput 1280 720 defaultSettings)).createFramebuffers.pool := by
    rw [hpool]; exact ExampleBokeh.resizeIfNeeded_allocated hpe
  have h2 := ExampleBokeh.update_of_minimized sampleEnv 0 s1
    (sampleInput 0 0 defaultSettings) rfl (Or.inl rfl)
  have e0 : (sampleApp 0 0).pool.m_frameBufferTex.1.width = 0 := by decide
  have e1 : (s1.processEvents (sampleInput 0 0 defaultSettings)).pool.m_frameBufferTex.1.width
      = 1280 := by
    show s1.pool.m_frameBufferTex.1.width = 1280
    rw [hpool1]; decide
  refine ⟨f1, 0, s1, _, o1, _, h1, hres, h2, rfl, e0, e1, ?_⟩
  intro hEq
  rw [hEq, e0] at e1
  exact absurd e1 (by decide)

/-- C9, amended: for a non-zero size `W x H`, after `init` at `W x H`, a frame at any
other size and a frame back at `W x H` that is not the exit frame, the pool has the
textures (sizes, formats, flags) and live frame buffers of the pool `init` created.
Both frames do finish when the settings stay inside their slider ranges. -/
theorem ExampleBokeh.resize_round_trip_pool (env : Env) (W H : ℕ) (view : Mat)
    (hd : Bool) (mem : ExampleBokeh) (inp1 inp2 : FrameInput) (hW : W ≠ 0) (hH : H ≠ 0)
    (hw2 : inp2.width = W) (hh2 : inp2.height = H) :
    (∀ (f1 f2 : ℕ) (s1 s2 : ExampleBokeh) (o1 o2 : FrameOutput),
      ExampleBokeh.update env f1 (ExampleBokeh.init env W H view hd mem) inp1
        = some (s1, o1) →
      ExampleBokeh.update env f2 s1 inp2 = some (s2, o2) → o2.result = true →
      s2.pool = (ExampleBokeh.init env W H view hd mem).pool) ∧
    (inp1.ui.InSliderRange → inp2.ui.InSliderRange → inp2.exit = false →
      ∃ (f1 f2 : ℕ) (s1 s2 : ExampleBokeh) (o1 o2 : FrameOutput),
        ExampleBokeh.update env f1 (ExampleBokeh.init env W H view hd mem) inp1
          = some (s1, o1) ∧
        ExampleBokeh.update env f2 s1 inp2 = some (s2, o2) ∧ o2.result = true) := by
  constructor
  · intro f1 f2 s1 s2 o1 o2 h1 h2 hres
    have ha1 : s1.Allocated :=
      ExampleBokeh.update_allocated (ExampleBokeh.init_allocated env W H view hd mem) h1
    have hexit : inp2.exit = false := by
      by_contra hc
      have hc' : inp2.exit = true := by simpa using hc
      rw [ExampleBokeh.update_of_exit env f2 s1 inp2 hc'] at h2
      simp only [Option.some.injEq, Prod.mk.injEq] at h2
      rw [← h2.2] at hres
      simp at hres
    obtain ⟨-, -, -, hpool, -⟩ := ExampleBokeh.update_render_inv h2 hexit
      (by rw [hw2]; exact hW) (by rw [hh2]; exact hH)
    have hpe : (s1.processEvents inp2).Allocated := ha1
    rw [hpool, (ExampleBokeh.renderFrame_pool env (s1.processEvents inp2) inp2).1,
      ExampleBokeh.resizeIfNeeded_allocated hpe]
    apply ExampleBokeh.createFramebuffers_pool_congr
    show (toI32 inp2.width, toI32 inp2.height) = (toI32 W, toI32 H)
    rw [hw2, hh2]
  · intro hr1 hr2 hexit
    obtain ⟨f1, s1, o1, h1⟩ :=
      ExampleBokeh.update_returns env (ExampleBokeh.init env W H view hd mem) inp1 hr1
    obtain ⟨f2, s2, o2, h2⟩ := ExampleBokeh.update_returns env s1 inp2 hr2
    obtain ⟨-, -, hres, -⟩ := ExampleBokeh.update_render_inv h2 hexit
      (by rw [hw2]; exact hW) (by rw [hh2]; exact hH)
    exact ⟨f1, f2, s1, s2, o1, o2, h1, h2, hres⟩

/-- C9, amended, for 1280x720 -> 800x600 -> 1280x720. -/
theorem ExampleBokeh.resize_round_trip_pool_witness :
    ∃ (f1 f2 : ℕ) (s1 s2 : ExampleBokeh) (o1 o2 : FrameOutput),
      ExampleBokeh.update sampleEnv f1 (sampleApp 1280 720)
        (sampleInput 800 600 defaultSettings) = some (s1, o1) ∧
      ExampleBokeh.update sampleEnv f2 s1 (sampleInput 1280 720 defaultSettings)
        = some (s2, o2) ∧
      s2.pool = (sampleApp 1280 720).pool := by
  have t := ExampleBokeh.resize_round_trip_pool sampleEnv 1280 720 sampleView false
    zeroMemory (sampleInput 800 600 defaultSettings) (sampleInput 1280 720 defaultSettings)
    (by decide) (by decide) rfl rfl
  obtain ⟨f1, f2, s1, s2, o1, o2, h1, h2, hres⟩ :=
    t.2 ExampleBokeh.defaultSettings_inSliderRange
      ExampleBokeh.defaultSettings_inSliderRange rfl
  exact ⟨f1, f2, s1, s2, o1, o2, h1, h2, t.1 f1 f2 s1 s2 o1 o2 h1 h2 hres⟩

/-- C10: with `tanX = 1.0f / P[0][0]` (index 0) and `tanY = 1.0f / P[1][1]` (index 5),
`updateUniforms` writes the multiply pair `(tanX * 2, tanY * 2)` and the add pair
`(-tanX, -tanY)` when the renderer is OpenGL, and `(tanX * 2, tanY * -2)` with
`(-tanX, tanY)` for every other renderer. -/
theorem ExampleBokeh.ndcToView_by_backend (renderer : RendererType) (s : ExampleBokeh)
    (_h0 : (s.m_proj2 0).isZero = false) (_h5 : (s.m_proj2 5).isZero = false) :
    (renderer = RendererType.OpenGL →
      (s.updateUniforms renderer).m_uniforms.m_ndcToViewMul =
        (F32.mul (F32.div F32.one (s.m_proj2 0)) F32.two,
         F32.mul (F32.div F32.one (s.m_proj2 5)) F32.two) ∧
      (s.updateUniforms renderer).m_uniforms.m_ndcToViewAdd =
        (F32.neg (F32.div F32.one (s.m_proj2 0)),
         F32.neg (F32.div F32.one (s.m_proj2 5)))) ∧
    (renderer ≠ RendererType.OpenGL →
      (s.updateUniforms renderer).m_uniforms.m_ndcToViewMul =
        (F32.mul (F32.div F32.one (s.m_proj2 0)) F32.two,
         F32.mul (F32.div F32.one (s.m_proj2 5)) (F32.fin (-2))) ∧
      (s.updateUniforms renderer).m_uniforms.m_ndcToViewAdd =
        (F32.neg (F32.div F32.one (s.m_proj2 0)), F32.div F32.one (s.m_proj2 5))) := by
  have hx := F32.mul_negOne_of_rep (F32.rep_div F32.one (s.m_proj2 0))
  have hy := F32.mul_negOne_of_rep (F32.rep_div F32.one (s.m_proj2 5))
  have hy1 := F32.mul_one_of_rep (F32.rep_div F32.one (s.m_proj2 5))
  constructor
  · intro h
    constructor
    · simp [ExampleBokeh.updateUniforms, h]
    · rw [← hx, ← hy]; simp [ExampleBokeh.updateUniforms, h]
  · intro h
    constructor
    · simp [ExampleBokeh.updateUniforms, h]
    · rw [← hx, ← hy1]; simp [ExampleBokeh.updateUniforms, h]

/-- C10 at a concrete matrix with `P[0][0] = P[1][1] = 2` on Direct3D 11. -/
theorem ExampleBokeh.ndcToView_by_backend_witness :
    (sampleFlipped.updateUniforms RendererType.Direct3D11).m_uniforms.m_ndcToViewAdd =
      (F32.neg (F32.div F32.one (sampleFlipped.m_proj2 0)),
       F32.div F32.one (sampleFlipped.m_proj2 5)) :=
  ((ExampleBokeh.ndcToView_by_backend RendererType.Direct3D11 sampleFlipped
    (by simp [sampleFlipped, F32.isZero]) (by simp [sampleFlipped, F32.isZero])).2
      (by decide)).2

/-- C11 as stated fails: `RenderTarget::init` at 0x0 creates a texture and a frame buffer,
and a frame that resizes a 1280x720 window to 1x720 creates both half-resolution DoF
targets at width 0. -/
theorem ExampleBokeh.zero_size_targets_created :
    RenderTarget.init 0 0 TextureFormat.RGBA16F bilinearFlags =
      { m_texture := { width := 0, height := 0, format := TextureFormat.RGBA16F
                       flags := bilinearFlags }
        m_buffer := { attachments := [{ width := 0, height := 0
                                        format := TextureFormat.RGBA16F
                                        flags := bilinearFlags }], alive := true } } ∧
    ∃ (fuel : ℕ) (s' : ExampleBokeh) (out : FrameOutput),
      ExampleBokeh.update sampleEnv fuel (sampleApp 1280 720)
        (sampleInput 1 720 defaultSettings) = some (s', out) ∧
      out.submitted = true ∧
      s'.m_dofQuarterInput =
        { m_texture := { width := 0, height := 360, format := TextureFormat.RGBA16F
                         flags := bilinearFlags }
          m_buffer := { attachments := [{ width := 0, height := 360
                                          format := TextureFormat.RGBA16F
                                          flags := bilinearFlags }], alive := true } } ∧
      s'.m_dofQuarterOutput = s'.m_dofQuarterInput := by
  refine ⟨by decide, ?_⟩
  obtain ⟨fuel, s', out, h⟩ := ExampleBokeh.update_returns sampleEnv
    (sampleApp 1280 720) (sampleInput 1 720 defaultSettings)
    ExampleBokeh.defaultSettings_inSliderRange
  obtain ⟨-, hsub, -, hpool, -⟩ := ExampleBokeh.update_render_inv h rfl (by decide) (by decide)
  have ha : ((sampleApp 1280 720).processEvents (sampleInput 1 720 defaultSettings)).Allocated :=
    ExampleBokeh.init_allocated sampleEnv 1280 720 sampleView false zeroMemory
  have hpool' : s'.pool = ((sampleApp 1280 720).processEvents
      (sampleInput 1 720 defaultSettings)).createFramebuffers.pool := by
    rw [hpool]; exact ExampleBokeh.resizeIfNeeded_allocated ha
  have e1 : s'.m_dofQuarterInput = RenderTarget.init (toU32 (Int.tdiv (toI32 1) 2))
      (toU32 (Int.tdiv (toI32 720) 2)) TextureFormat.RGBA16F bilinearFlags :=
    congrArg ExampleBokeh.Pool.m_dofQuarterInput hpool'
  have e2 : s'.m_dofQuarterOutput = RenderTarget.init (toU32 (Int.tdiv (toI32 1) 2))
      (toU32 (Int.tdiv (toI32 720) 2)) TextureFormat.RGBA16F bilinearFlags :=
    congrArg ExampleBokeh.Pool.m_dofQuarterOutput hpool'
  refine ⟨fuel, s', out, h, hsub, ?_, ?_⟩
  · rw [e1]; decide
  · rw [e1, e2]

/-- C11, amended: `RenderTarget::init` rejects nothing: whatever size it is given, it
creates the texture at that size (as `uint16_t`) and a frame buffer over it. What keeps
zero sizes away from the device is the frame loop: a frame whose viewport width or height
is zero returns before anything is created or destroyed, and after a rendered frame at a
viewport `W x H` with `2 <= W, H < 65536` the pool holds five textures of `W x H` and two
of `W/2 x H/2`, none of them of zero width or height, each under a live frame buffer. Such
a frame does finish when the settings stay inside their slider ranges. -/
theorem ExampleBokeh.allocation_sizes (env : Env) (s : ExampleBokeh) (ha : s.Allocated) :
    (∀ (w h : ℕ) (format : TextureFormat) (flags : List TexFlag),
      RenderTarget.init w h format flags =
        { m_texture := { width := w % 65536, height := h % 65536, format := format
                         flags := flags }
          m_buffer := { attachments := [{ width := w % 65536, height := h % 65536
                                          format := format, flags := flags }]
                        alive := true } }) ∧
    (∀ (inp : FrameInput) (fuel : ℕ), inp.width = 0 ∨ inp.height = 0 →
      ∃ (s' : ExampleBokeh) (out : FrameOutput),
        ExampleBokeh.update env fuel s inp = some (s', out) ∧
        out.passes = [] ∧ out.submitted = false ∧ s'.pool = s.pool) ∧
    (∀ inp : FrameInput, inp.exit = false →
      2 ≤ inp.width → inp.width < 65536 → 2 ≤ inp.height → inp.height < 65536 →
      (∀ (fuel : ℕ) (s' : ExampleBokeh) (out : FrameOutput),
        ExampleBokeh.update env fuel s inp = some (s', out) →
        out.submitted = true ∧
        s'.pool.textures.map (fun t => (t.width, t.height)) =
          [(inp.width, inp.height), (inp.width, inp.height), (inp.width, inp.height),
           (inp.width, inp.height), (inp.width, inp.height),
           (inp.width / 2, inp.height / 2), (inp.width / 2, inp.height / 2)] ∧
        (∀ t ∈ s'.pool.textures, 0 < t.width ∧ 0 < t.height) ∧
        (∀ fb ∈ s'.pool.frameBuffers, fb.alive = true)) ∧
      (inp.ui.InSliderRange →
        ∃ (fuel : ℕ) (s' : ExampleBokeh) (out : FrameOutput),
          ExampleBokeh.update env fuel s inp = some (s', out))) := by
  refine ⟨?_, ?_, ?_⟩
  · intro w h format flags
    have e : ∀ n : ℕ, toU16 (n : ℤ) = n % 65536 := by
      intro n; unfold toU16; omega
    simp only [RenderTarget.init, e]
  · intro inp fuel h0
    by_cases hexit : inp.exit = true
    · exact ⟨_, _, ExampleBokeh.update_of_exit env fuel s inp hexit, rfl, rfl, rfl⟩
    · have hexit' : inp.exit = false := by simpa using hexit
      exact ⟨_, _, ExampleBokeh.update_of_minimized env fuel s inp hexit' h0, rfl, rfl, rfl⟩
  · intro inp hexit hw hw' hh hh'
    refine ⟨?_, ExampleBokeh.update_returns env s inp⟩
    intro fuel s' out h
    obtain ⟨-, hsub, -, hpool, -⟩ :=
      ExampleBokeh.update_render_inv h hexit (by omega) (by omega)
    have hpe : (s.processEvents inp).Allocated := ha
    have hpool' : s'.pool = (s.processEvents inp).createFramebuffers.pool := by
      rw [hpool]; exact ExampleBokeh.resizeIfNeeded_allocated hpe
    have w1 : (s.processEvents inp).m_width = inp.width := rfl
    have w2 : (s.processEvents inp).m_height = inp.height := rfl
    obtain ⟨t1, t2⟩ := ExampleBokeh.createFramebuffers_pool_sizes (s.processEvents inp)
      (by rw [w1]; exact hw') (by rw [w2]; exact hh')
    rw [← hpool', w1, w2] at t1
    rw [← hpool'] at t2
    refine ⟨hsub, t1, ?_, t2⟩
    intro t ht
    have hm : (t.width, t.height) ∈ s'.pool.textures.map (fun t => (t.width, t.height)) :=
      List.mem_map_of_mem _ ht
    rw [t1] at hm
    simp only [List.mem_cons, Prod.mk.injEq, List.mem_singleton, List.not_mem_nil,
      or_false] at hm
    have h2w : 0 < inp.width / 2 := Nat.div_pos hw (by norm_num)
    have h2h : 0 < inp.height / 2 := Nat.div_pos hh (by norm_num)
    rcases hm with h | h | h | h | h | h | h <;> obtain ⟨h1, h2⟩ := h <;> omega

/-- C11, amended, on the application initialised at 1280x720: a minimized frame leaves the
pool alone, and a frame resized to 640x360 leaves no texture of zero width or height. -/
theorem ExampleBokeh.allocation_sizes_witness :
    (∃ (s' : ExampleBokeh) (out : FrameOutput),
      ExampleBokeh.update sampleEnv 1 (sampleApp 1280 720)
        (sampleInput 0 0 defaultSettings) = some (s', out) ∧
      s'.pool = (sampleApp 1280 720).pool) ∧
    ∃ (fuel : ℕ) (s' : ExampleBokeh) (out : FrameOutput),
      ExampleBokeh.update sampleEnv fuel (sampleApp 1280 720)
        (sampleInput 640 360 defaultSettings) = some (s', out) ∧
      s'.pool.textures.map (fun t => (t.width, t.height)) =
        [(640, 360), (640, 360), (640, 360), (640, 360), (640, 360), (320, 180),
         (320, 180)] := by
  have t := ExampleBokeh.allocation_sizes sampleEnv (sampleApp 1280 720)
    (ExampleBokeh.init_allocated sampleEnv 1280 720 sampleView false zeroMemory)
  obtain ⟨s0, out0, h0, -, -, hp0⟩ :=
    t.2.1 (sampleInput 0 0 defaultSettings) 1 (Or.inl rfl)
  have t3 := t.2.2 (sampleInput 640 360 defaultSettings) rfl (by decide) (by decide)
    (by decide) (by decide)
  obtain ⟨fuel, s', out, h⟩ := t3.2 ExampleBokeh.defaultSettings_inSliderRange
  exact ⟨⟨s0, out0, h0, hp0⟩, fuel, s', out, h, (t3.1 fuel s' out h).2.1⟩

/-- C12 as stated fails: in a frame at 1280x720 in which the exit is requested, `update`
returns before any view is recorded, so no pass of that frame writes the presentation
target. -/
theorem ExampleBokeh.exit_frame_writes_no_presentation_target :
    ∃ (s' : ExampleBokeh) (out : FrameOutput),
      ExampleBokeh.update sampleEnv 0 (sampleApp 1280 720)
        { sampleInput 1280 720 defaultSettings with exit := true } = some (s', out) ∧
      out.passes = [] ∧ out.submitted = false ∧
      (out.passes.filter
        (fun p => decide (p.frameBuffer = FrameBufferRef.invalid))).length = 0 ∧
      ¬ ∃ pre : List FrameBufferRef,
        out.passes.map (fun p => p.frameBuffer) = pre ++ [FrameBufferRef.invalid] := by
  refine ⟨_, _, ExampleBokeh.update_of_exit sampleEnv 0 (sampleApp 1280 720) _ rfl,
    rfl, rfl, rfl, ?_⟩
  rintro ⟨pre, h⟩
  simp at h

/-- C12, amended: in every frame at a non-zero viewport in which no exit is requested, for
every setting of the two toggles, the views are forward scene and linear depth followed by
the display view when depth of field is off, by the single-pass DoF view when it is on with the
single-pass topology, and by downsample, quarter and combine when it is on with the
multi-pass topology. So exactly one view writes the presentation target
(`BGFX_INVALID_HANDLE`) and it is the last one; the display view with the copy program is
there if and only if depth of field is off; with depth of field on the last view is the
single-pass view or the combine view. Such a frame does finish when the settings stay
inside their slider ranges. -/
theorem ExampleBokeh.presentation_written_once_by_last_view (env : Env) (s : ExampleBokeh)
    (inp : FrameInput) (hexit : inp.exit = false) (hw : inp.width ≠ 0)
    (hh : inp.height ≠ 0) :
    (∀ (fuel : ℕ) (s' : ExampleBokeh) (out : FrameOutput),
      ExampleBokeh.update env fuel s inp = some (s', out) →
      out.submitted = true ∧
      out.passes.map (fun p => (p.name, p.program, p.frameBuffer)) =
        [("forward scene", Program.m_forwardProgram, FrameBufferRef.m_frameBuffer),
         ("linear depth", Program.m_linearDepthProgram, FrameBufferRef.m_linearDepth)] ++
        (if s.m_useBokehDof then
          (if s.m_useSinglePassBokehDof then
            [("bokeh dof single pass", Program.m_dofSinglePassProgram,
              FrameBufferRef.invalid)]
          else
            [("bokeh dof downsample", Program.m_dofDownsampleProgram,
              FrameBufferRef.m_dofQuarterInput),
             ("bokeh dof quarter", Program.m_dofQuarterProgram,
              FrameBufferRef.m_dofQuarterOutput),
             ("bokeh dof combine", Program.m_dofCombineProgram, FrameBufferRef.invalid)])
        else [("display", Program.m_copyProgram, FrameBufferRef.invalid)]) ∧
      (∃ pre : List FrameBufferRef,
        out.passes.map (fun p => p.frameBuffer) = pre ++ [FrameBufferRef.invalid] ∧
        FrameBufferRef.invalid ∉ pre) ∧
      ((∃ p ∈ out.passes, p.name = "display" ∨ p.program = Program.m_copyProgram) ↔
        s.m_useBokehDof = false) ∧
      (s.m_useBokehDof = true →
        (out.passes.map (fun p => (p.name, p.program, p.frameBuffer))).getLast? =
          some (if s.m_useSinglePassBokehDof then
            ("bokeh dof single pass", Program.m_dofSinglePassProgram, FrameBufferRef.invalid)
          else
            ("bokeh dof combine", Program.m_dofCombineProgram, FrameBufferRef.invalid)))) ∧
    (inp.ui.InSliderRange →
      ∃ (fuel : ℕ) (s' : ExampleBokeh) (out : FrameOutput),
        ExampleBokeh.update env fuel s inp = some (s', out)) := by
  refine ⟨?_, ExampleBokeh.update_returns env s inp⟩
  intro fuel s' out h
  obtain ⟨hp, hsub, -⟩ := ExampleBokeh.update_render_inv h hexit hw hh
  have hl := ExampleBokeh.renderFrame_passes_summary env (s.processEvents inp) inp
  rw [← hp] at hl
  have d1 : (s.processEvents inp).m_useBokehDof = s.m_useBokehDof := rfl
  have d2 : (s.processEvents inp).m_useSinglePassBokehDof = s.m_useSinglePassBokehDof := rfl
  rw [d1, d2] at hl
  have hm := congrArg (List.map
    (fun t : String × Program × List TextureRef × FrameBufferRef => (t.1, t.2.1, t.2.2.2))) hl
  have hf := congrArg (List.map
    (fun t : String × Program × List TextureRef × FrameBufferRef => t.2.2.2)) hl
  have hn := congrArg (List.map
    (fun t : String × Program × List TextureRef × FrameBufferRef => (t.1, t.2.1))) hl
  rw [List.map_map] at hm hf hn
  have hm' : out.passes.map (fun p => (p.name, p.program, p.frameBuffer)) = _ := hm
  have hf' : out.passes.map (fun p => p.frameBuffer) = _ := hf
  have hn' : out.passes.map (fun p => (p.name, p.program)) = _ := hn
  have hdisp : (∃ p ∈ out.passes, p.name = "display" ∨ p.program = Program.m_copyProgram) ↔
      ∃ t ∈ out.passes.map (fun p => (p.name, p.program)),
        t.1 = "display" ∨ t.2 = Program.m_copyProgram := by
    constructor
    · rintro ⟨p, hp1, hp2⟩
      exact ⟨_, List.mem_map_of_mem _ hp1, hp2⟩
    · rintro ⟨t, ht1, ht2⟩
      obtain ⟨p, hp1, hp2⟩ := List.mem_map.1 ht1
      subst hp2
      exact ⟨p, hp1, ht2⟩
  rw [hdisp, hm', hf', hn']
  refine ⟨hsub, ?_⟩
  cases s.m_useBokehDof <;> cases s.m_useSinglePassBokehDof
  · exact ⟨rfl, ⟨[FrameBufferRef.m_frameBuffer, FrameBufferRef.m_linearDepth], rfl,
      by decide⟩, by decide, by decide⟩
  · exact ⟨rfl, ⟨[FrameBufferRef.m_frameBuffer, FrameBufferRef.m_linearDepth], rfl,
      by decide⟩, by decide, by decide⟩
  · exact ⟨rfl, ⟨[FrameBufferRef.m_frameBuffer, FrameBufferRef.m_linearDepth,
      FrameBufferRef.m_dofQuarterInput, FrameBufferRef.m_dofQuarterOutput], rfl,
      by decide⟩, by decide, by decide⟩
  · exact ⟨rfl, ⟨[FrameBufferRef.m_frameBuffer, FrameBufferRef.m_linearDepth], rfl,
      by decide⟩, by decide, by decide⟩

/-- C12, amended, on the application initialised at 1280x720 (depth of field on, single
pass): the third and last view is the single-pass DoF view, the only one on the presentation
target. -/
theorem ExampleBokeh.presentation_written_once_by_last_view_witness :
    ∃ (fuel : ℕ) (s' : ExampleBokeh) (out : FrameOutput),
      ExampleBokeh.update sampleEnv fuel (sampleApp 1280 720)
        (sampleInput 1280 720 defaultSettings) = some (s', out) ∧
      out.passes.map (fun p => (p.name, p.program, p.frameBuffer)) =
        [("forward scene", Program.m_forwardProgram, FrameBufferRef.m_frameBuffer),
         ("linear depth", Program.m_linearDepthProgram, FrameBufferRef.m_linearDepth),
         ("bokeh dof single pass", Program.m_dofSinglePassProgram,
          FrameBufferRef.invalid)] := by
  have t := ExampleBokeh.presentation_written_once_by_last_view sampleEnv
    (sampleApp 1280 720) (sampleInput 1280 720 defaultSettings) rfl (by decide) (by decide)
  obtain ⟨fuel, s', out, h⟩ := t.2 ExampleBokeh.defaultSettings_inSliderRange
  exact ⟨fuel, s', out, h, (t.1 fuel s' out h).2.1⟩

/-- C13: in a rendered frame (non-zero viewport, no exit requested) with depth of field on
and the multi-pass topology, downsample samples the forward view's colour and the linear
depth and writes `m_dofQuarterInput`; quarter samples only `m_dofQuarterInput` and writes
`m_dofQuarterOutput`; combine samples the forward view's colour (not `m_dofQuarterInput`)
and `m_dofQuarterOutput` and writes the presentation target. In every rendered frame,
whatever the toggles, each render-target image a view samples belongs to a frame buffer
written by an earlier view of the frame and not to the one the view writes (the material
textures of the forward view are files loaded by `init`, written by no view). Such a
frame does finish when the settings stay inside their slider ranges. -/
theorem ExampleBokeh.multipass_chain_reads_after_writes (env : Env) (s : ExampleBokeh)
    (inp : FrameInput) (hexit : inp.exit = false) (hw : inp.width ≠ 0)
    (hh : inp.height ≠ 0) :
    (∀ (fuel : ℕ) (s' : ExampleBokeh) (out : FrameOutput),
      ExampleBokeh.update env fuel s inp = some (s', out) →
      out.submitted = true ∧
      (s.m_useBokehDof = true → s.m_useSinglePassBokehDof = false →
        out.passes.map (fun p => (p.name, p.reads, p.frameBuffer)) =
          [("forward scene", [TextureRef.m_groundTexture, TextureRef.m_normalTexture],
              FrameBufferRef.m_frameBuffer),
           ("linear depth", [TextureRef.frameBufferTexDepth], FrameBufferRef.m_linearDepth),
           ("bokeh dof downsample",
              [TextureRef.frameBufferTexColor, TextureRef.m_linearDepth],
              FrameBufferRef.m_dofQuarterInput),
           ("bokeh dof quarter", [TextureRef.m_dofQuarterInput],
              FrameBufferRef.m_dofQuarterOutput),
           ("bokeh dof combine",
              [TextureRef.frameBufferTexColor, TextureRef.m_dofQuarterOutput],
              FrameBufferRef.invalid)]) ∧
      (∀ (pre : List Pass) (p : Pass) (post : List Pass), out.passes = pre ++ p :: post →
        ∀ t ∈ p.reads, ∀ fb : FrameBufferRef, t.attachedTo = some fb →
          fb ≠ p.frameBuffer ∧ ∃ q ∈ pre, q.frameBuffer = fb)) ∧
    (inp.ui.InSliderRange →
      ∃ (fuel : ℕ) (s' : ExampleBokeh) (out : FrameOutput),
        ExampleBokeh.update env fuel s inp = some (s', out)) := by
  refine ⟨?_, ExampleBokeh.update_returns env s inp⟩
  intro fuel s' out h
  obtain ⟨hp, hsub, -⟩ := ExampleBokeh.update_render_inv h hexit hw hh
  refine ⟨hsub, ?_, ?_⟩
  · intro hdof hmp
    have hl := ExampleBokeh.renderFrame_passes_summary env (s.processEvents inp) inp
    rw [← hp] at hl
    have d1 : (s.processEvents inp).m_useBokehDof = s.m_useBokehDof := rfl
    have d2 : (s.processEvents inp).m_useSinglePassBokehDof = s.m_useSinglePassBokehDof :=
      rfl
    rw [d1, d2, hdof, hmp] at hl
    have hm := congrArg (List.map
      (fun t : String × Program × List TextureRef × FrameBufferRef =>
        (t.1, t.2.2.1, t.2.2.2))) hl
    rw [List.map_map] at hm
    exact hm
  · intro pre p post hsplit t ht fb hfb
    have hc := ExampleBokeh.renderFrame_readsAfterWrites env (s.processEvents inp) inp
    rw [← hp] at hc
    have hmem : fb ∈ p.readsTargets := by
      unfold Pass.readsTargets
      exact List.mem_filterMap.2 ⟨t, ht, hfb⟩
    obtain ⟨h1, h2⟩ := readsAfterWrites_sound out.passes [] hc pre p post hsplit fb hmem
    refine ⟨h1, ?_⟩
    rcases h2 with h2 | h2
    · simp at h2
    · exact h2

/-- C13 on the application initialised at 1280x720 with the multi-pass topology selected:
the frame finishes, and its combine view, the fifth, samples the forward view's colour and
`m_dofQuarterOutput`. -/
theorem ExampleBokeh.multipass_chain_reads_after_writes_witness :
    ∃ (fuel : ℕ) (s' : ExampleBokeh) (out : FrameOutput),
      ExampleBokeh.update sampleEnv fuel (sampleMultiPassApp 1280 720)
        (sampleInput 1280 720 defaultSettings) = some (s', out) ∧
      out.passes.map (fun p => (p.name, p.reads, p.frameBuffer)) =
        [("forward scene", [TextureRef.m_groundTexture, TextureRef.m_normalTexture],
            FrameBufferRef.m_frameBuffer),
         ("linear depth", [TextureRef.frameBufferTexDepth], FrameBufferRef.m_linearDepth),
         ("bokeh dof downsample",
            [TextureRef.frameBufferTexColor, TextureRef.m_linearDepth],
            FrameBufferRef.m_dofQuarterInput),
         ("bokeh dof quarter", [TextureRef.m_dofQuarterInput],
            FrameBufferRef.m_dofQuarterOutput),
         ("bokeh dof combine",
            [TextureRef.frameBufferTexColor, TextureRef.m_dofQuarterOutput],
            FrameBufferRef.invalid)] := by
  have t := ExampleBokeh.multipass_chain_reads_after_writes sampleEnv
    (sampleMultiPassApp 1280 720) (sampleInput 1280 720 defaultSettings) rfl (by decide)
    (by decide)
  obtain ⟨fuel, s', out, h⟩ := t.2 ExampleBokeh.defaultSettings_inSliderRange
  exact ⟨fuel, s', out, h, (t.1 fuel s' out h).2.1 rfl rfl⟩
